import Mathlib

/-!
Shallow embedding of the gb-emu-rust emulator core
(src/cpu/cpu.rs, src/bus/memory_bus.rs, src/cartridge/*.rs, src/ppu/ppu.rs)
in Lean 4, together with theorems settling the frozen claims about its
specification.

Conventions of the embedding:
* Machine integers (`u8`, `u16`) are represented as `Nat` with explicit
  wrapping (`wrap8`, `wrap16`) exactly where the Rust code wraps
  (`wrapping_add`, `as u8`, shifts on `u8`, ...).
* Rust `&mut self` methods become functions `Cpu → Cpu` (or return a pair
  when the method also returns a value).
* The byte arrays owned by the bus (`[u8; N]`) are represented by their
  lookup functions `Nat → Nat`; an array store becomes `upd`.
* The cartridge byte vector is represented by its lookup function
  `game_data : Nat → Nat`; every access the emulator performs at run time is
  at an address below `0x8000`, in bounds for any real (≥ 32 KiB) image.
  Header parsing (`Cartridge::load`), which indexes at fixed offsets
  308..335 and can panic, is embedded as an `Option`-returning function
  (`none` models the Rust panic, including the unknown-cartridge-type panic
  of `CartridgeType::from`).
* The Rust `FFlags` bitflags type (only bits 4..7 are defined flags, and the
  bitflags API used by the code can only construct values made of those
  bits) is embedded as a record of the four flag booleans; `FFlags.bits`
  recovers the `u8` value, `FFlags.from_bits_truncate` models
  `FFlags::from_bits_truncate`.
* `panic!` in executed code (unused opcodes, malformed STOP) is modelled by
  `Option`: `Cpu.process` and `Cpu.step` return `none` exactly where the
  Rust code panics.
-/

namespace GB

/-- Truncation to a byte, i.e. the effect of `as u8` / wrapping `u8` arithmetic. -/
def wrap8 (x : Nat) : Nat := x % 256

/-- Truncation to 16 bits, i.e. the effect of `as u16` / wrapping `u16` arithmetic. -/
def wrap16 (x : Nat) : Nat := x % 65536

/-- Reinterpretation `u8 as i8 as u16` (two's complement sign extension to 16 bits). -/
def sext8 (b : Nat) : Nat := if b < 128 then b else 0xFF00 + b

/-- Pointwise array update: the effect of `arr[i] = v` on the lookup function of `arr`. -/
def upd (f : Nat → Nat) (i v : Nat) : Nat → Nat := fun j => if j = i then v else f j

@[simp] theorem upd_same (f : Nat → Nat) (i v : Nat) : upd f i v i = v := by
  simp [upd]

theorem upd_ne (f : Nat → Nat) (i v j : Nat) (h : j ≠ i) : upd f i v j = f j := by
  simp [upd, h]

/-- The `FFlags` bitflags register of src/cpu/cpu.rs: Z (bit 7), N (bit 6),
H (bit 5), C (bit 4).  Only these four bits are definable through the
bitflags API the code uses, so the value is represented by the four
booleans. -/
structure FFlags where
  z : Bool
  n : Bool
  h : Bool
  c : Bool
deriving DecidableEq, Repr

/-- `FFlags::bits()`: the `u8` packed value of the flag register. -/
def FFlags.bits (f : FFlags) : Nat :=
  (cond f.z 0x80 0) + (cond f.n 0x40 0) + (cond f.h 0x20 0) + (cond f.c 0x10 0)

/-- `FFlags::from_bits_truncate`: keep the four defined bits of a byte, drop the rest. -/
def FFlags.from_bits_truncate (x : Nat) : FFlags :=
  ⟨x.testBit 7, x.testBit 6, x.testBit 5, x.testBit 4⟩

/-- `FFlags::empty()`. -/
def FFlags.empty : FFlags := ⟨false, false, false, false⟩

/-- The `CartridgeType` enum of src/cartridge/cartridge_type.rs (28 variants). -/
inductive CartridgeType where
  | RomOnly
  | Mbc1
  | Mbc1Ram
  | Mbc1RamBattery
  | Mbc2
  | Mbc2Battery
  | RomRam
  | RomRamBattery
  | Mmm01
  | Mmm01Ram
  | Mmm01RamBattery
  | Mbc3TimerBattery
  | Mbc3TimerRamBattery
  | Mbc3
  | Mbc3Ram
  | Mbc3RamBattery
  | Mbc5
  | Mbc5Ram
  | Mbc5RamBattery
  | Mbc5Rumble
  | Mbc5RumbleRam
  | Mbc5RumbleRamBattery
  | Mbc6
  | Mbc7SensorRumbleRamBattery
  | PocketCamera
  | BandaiTama5
  | Huc3
  | Huc1RamBattery
deriving DecidableEq, Repr

/-- `CartridgeType::from` (a `From<u8>` impl).  The Rust code panics on a byte
outside the 28 recognized values; the panic is modelled by `none`. -/
def CartridgeType.fromByte (value : Nat) : Option CartridgeType :=
  match value with
  | 0x00 => some .RomOnly
  | 0x01 => some .Mbc1
  | 0x02 => some .Mbc1Ram
  | 0x03 => some .Mbc1RamBattery
  | 0x05 => some .Mbc2
  | 0x06 => some .Mbc2Battery
  | 0x08 => some .RomRam
  | 0x09 => some .RomRamBattery
  | 0x0B => some .Mmm01
  | 0x0C => some .Mmm01Ram
  | 0x0D => some .Mmm01RamBattery
  | 0x0F => some .Mbc3TimerBattery
  | 0x10 => some .Mbc3TimerRamBattery
  | 0x11 => some .Mbc3
  | 0x12 => some .Mbc3Ram
  | 0x13 => some .Mbc3RamBattery
  | 0x19 => some .Mbc5
  | 0x1A => some .Mbc5Ram
  | 0x1B => some .Mbc5RamBattery
  | 0x1C => some .Mbc5Rumble
  | 0x1D => some .Mbc5RumbleRam
  | 0x1E => some .Mbc5RumbleRamBattery
  | 0x20 => some .Mbc6
  | 0x22 => some .Mbc7SensorRumbleRamBattery
  | 0xFC => some .PocketCamera
  | 0xFD => some .BandaiTama5
  | 0xFE => some .Huc3
  | 0xFF => some .Huc1RamBattery
  | _ => none

/-- The `Destination` enum of src/cartridge/destination.rs. -/
inductive Destination where
  | Japan
  | Overseas
  | Unknown (x : Nat)
deriving DecidableEq, Repr

/-- `Destination::from` (total). -/
def Destination.fromByte (value : Nat) : Destination :=
  match value with
  | 0x00 => .Japan
  | 0x01 => .Overseas
  | other => .Unknown other

/-- The `Cartridge` struct of src/cartridge/cartridge.rs.  `game_data` is the
lookup function of the ROM byte vector; the string fields keep the raw header
bytes. -/
structure Cartridge where
  game_data : Nat → Nat
  game_title : List Nat
  manufacturer_code : List Nat
  cgb_flag : Nat
  licensee_code : List Nat
  sgb_flag : Nat
  cartridge_type : CartridgeType
  rom_size : Nat
  ram_size : Nat
  destination_code : Destination
  old_licensee_code : Nat
  mask_rom_version_number : Nat
  header_checksum : Nat
  global_checksum : Nat

/-- `Cartridge::read`: `self.game_data[addr]`.  All run-time reads issued by
the bus are below 0x8000 and hence in bounds for a real image. -/
def Cartridge.read (c : Cartridge) (addr : Nat) : Nat := c.game_data addr

/-- Modelled from the spec: `Cartridge::write` is called by the bus for the
ROM window but is absent from the sources given (only its caller in
src/bus/memory_bus.rs is); per the spec, "`write(addr, data)` ... is a no-op
on ROM-only", and only the ROM-only subset is covered. -/
def Cartridge.write (c : Cartridge) (_addr _data : Nat) : Cartridge := c

/-- `Cartridge::load`.  The Rust code indexes the byte vector at fixed
offsets 308..335 (panicking when the vector is shorter than 336 bytes) and
calls `CartridgeType::from` (panicking on an unknown type byte); both panics
are modelled by `none`.  The field values are those the Rust code computes. -/
def Cartridge.load (value : List Nat) : Option Cartridge :=
  if value.length < 336 then none
  else
    match CartridgeType.fromByte (value.getD 327 0) with
    | none => none
    | some ct =>
      some
        { game_data := fun a => value.getD a 0
          game_title := (value.drop 308).take 16
          manufacturer_code := (value.drop 319).take 4
          cgb_flag := value.getD 323 0
          licensee_code := [value.getD 324 0, value.getD 325 0]
          sgb_flag := value.getD 326 0
          cartridge_type := ct
          rom_size := value.getD 328 0
          ram_size := value.getD 329 0
          destination_code := Destination.fromByte (value.getD 330 0)
          old_licensee_code := value.getD 331 0
          mask_rom_version_number := value.getD 332 0
          header_checksum := value.getD 333 0
          global_checksum := value.getD 334 0 * 256 + value.getD 335 0 }

/-- The `MemoryBus` struct of src/bus/memory_bus.rs.  Each `[u8; N]` array is
represented by its lookup function. -/
structure MemoryBus where
  cartridge : Cartridge
  vram : Nat → Nat
  eram : Nat → Nat
  wram : Nat → Nat
  oam : Nat → Nat
  hram : Nat → Nat
  io : Nat → Nat
  if_reg : Nat
  ie_reg : Nat

/-- `MemoryBus::new`. -/
def MemoryBus.new (cartridge : Cartridge) : MemoryBus :=
  { cartridge := cartridge
    vram := fun _ => 0
    eram := fun _ => 0
    wram := fun _ => 0
    oam := fun _ => 0
    hram := fun _ => 0
    io := fun _ => 0
    if_reg := 0x00
    ie_reg := 0x00 }

/-- `MemoryBus::write`: the region dispatch of the Rust `match`, in source
order (the `println!` logging is irrelevant to state and dropped). -/
def MemoryBus.write (bus : MemoryBus) (addr data : Nat) : MemoryBus :=
  if addr ≤ 0x7FFF then { bus with cartridge := bus.cartridge.write addr data }
  else if addr ≤ 0x9FFF then { bus with vram := upd bus.vram (addr - 0x8000) data }
  else if addr ≤ 0xBFFF then { bus with eram := upd bus.eram (addr - 0xA000) data }
  else if addr ≤ 0xDFFF then { bus with wram := upd bus.wram (addr - 0xC000) data }
  else if addr ≤ 0xFDFF then { bus with wram := upd bus.wram (addr - 0xE000) data }
  else if addr ≤ 0xFE9F then { bus with oam := upd bus.oam (addr - 0xFE00) data }
  else if addr ≤ 0xFEFF then bus
  else if addr ≤ 0xFF7F then
    if addr = 0xFF0F then { bus with if_reg := data &&& 0x1F }
    else { bus with io := upd bus.io (addr - 0xFF00) data }
  else if addr ≤ 0xFFFE then { bus with hram := upd bus.hram (addr - 0xFF80) data }
  else { bus with ie_reg := data &&& 0x1F }

/-- `MemoryBus::request_interrupt`: `if_reg |= flag_bit & 0x1F`. -/
def MemoryBus.request_interrupt (bus : MemoryBus) (flag_bit : Nat) : MemoryBus :=
  { bus with if_reg := bus.if_reg ||| (flag_bit &&& 0x1F) }

/-- `MemoryBus::read` (takes `&mut self` in Rust but never mutates). -/
def MemoryBus.read (bus : MemoryBus) (addr : Nat) : Nat :=
  if addr ≤ 0x7FFF then bus.cartridge.read addr
  else if addr ≤ 0x9FFF then bus.vram (addr - 0x8000)
  else if addr ≤ 0xBFFF then bus.eram (addr - 0xA000)
  else if addr ≤ 0xDFFF then bus.wram (addr - 0xC000)
  else if addr ≤ 0xFDFF then bus.wram (addr - 0xE000)
  else if addr ≤ 0xFE9F then bus.oam (addr - 0xFE00)
  else if addr ≤ 0xFEFF then 0xFF
  else if addr ≤ 0xFF7F then
    if addr = 0xFF0F then bus.if_reg
    else bus.io (addr - 0xFF00)
  else if addr ≤ 0xFFFE then bus.hram (addr - 0xFF80)
  else bus.ie_reg

/-- The `Cpu` struct of src/cpu/cpu.rs. -/
structure Cpu where
  register_a : Nat
  register_f : FFlags
  register_b : Nat
  register_c : Nat
  register_d : Nat
  register_e : Nat
  register_h : Nat
  register_l : Nat
  stack_pointer : Nat
  program_counter : Nat
  halt : Bool
  stop : Bool
  interruption : Bool
  ime_pending : Bool
  opcode : Nat
  cycles : Nat
  memory_bus : MemoryBus

/-- `Cpu::new`. -/
def Cpu.new (bus : MemoryBus) : Cpu :=
  { register_a := 0
    register_f := FFlags.empty
    register_b := 0
    register_c := 0
    register_d := 0
    register_e := 0
    register_h := 0
    register_l := 0
    stack_pointer := 0
    program_counter := 0
    halt := false
    stop := false
    interruption := false
    ime_pending := false
    opcode := 0
    cycles := 0
    memory_bus := bus }

/-- `Cpu::init_registers` (post-boot register values). -/
def Cpu.init_registers (s : Cpu) : Cpu :=
  let s := { s with
    register_a := 0x01
    register_b := 0x00
    register_c := 0x13
    register_d := 0x00
    register_e := 0xD8
    register_h := 0x01
    register_l := 0x4D
    program_counter := 0x0100
    stack_pointer := 0xFFFE }
  let s :=
    if s.memory_bus.cartridge.header_checksum = 0x00 then
      { s with register_f := ⟨true, false, false, false⟩ }
    else
      { s with register_f := ⟨true, false, true, true⟩ }
  let s := { s with memory_bus := s.memory_bus.write 0xFF0F 0xE1 }
  let s := { s with memory_bus := s.memory_bus.write 0xFFFF 0x00 }
  { s with interruption := false, ime_pending := false }

/-- `Cpu::update_cycles`. -/
def Cpu.update_cycles (s : Cpu) (cycles : Nat) : Cpu := { s with cycles := cycles }

/-- `Cpu::advance_program_counter`: `pc = pc.wrapping_add(n)`. -/
def Cpu.advance_program_counter (s : Cpu) (n : Nat) : Cpu :=
  { s with program_counter := wrap16 (s.program_counter + n) }

/-- `Cpu::read_u8` (the bus read does not mutate). -/
def Cpu.read_u8 (s : Cpu) (addr : Nat) : Nat := s.memory_bus.read addr

/-- `Cpu::write_u8`. -/
def Cpu.write_u8 (s : Cpu) (addr data : Nat) : Cpu :=
  { s with memory_bus := s.memory_bus.write addr data }

/-- `Cpu::register_concat`: `((high as u16) << 8) | (low as u16)`. -/
def Cpu.register_concat (_s : Cpu) (high low : Nat) : Nat := (high <<< 8) ||| low

/-- `Cpu::push_u16`: decrement SP, write high byte, decrement SP, write low byte. -/
def Cpu.push_u16 (s : Cpu) (value : Nat) : Cpu :=
  let upper := wrap8 (value >>> 8)
  let lower := wrap8 value
  let s := { s with stack_pointer := wrap16 (s.stack_pointer + 65535) }
  let s := s.write_u8 s.stack_pointer upper
  let s := { s with stack_pointer := wrap16 (s.stack_pointer + 65535) }
  s.write_u8 s.stack_pointer lower

/-- `Cpu::pop_u8`: read at SP, then increment SP; returns the updated state and the byte. -/
def Cpu.pop_u8 (s : Cpu) : Cpu × Nat :=
  let value := s.read_u8 s.stack_pointer
  ({ s with stack_pointer := wrap16 (s.stack_pointer + 1) }, value)

/-- `Cpu::jr_cond_i8`: relative jump, offset applied after PC has advanced by 2. -/
def Cpu.jr_cond_i8 (s : Cpu) (condition : Bool) : Cpu :=
  let offset := sext8 (s.read_u8 (wrap16 (s.program_counter + 1)))
  let s := s.advance_program_counter 2
  if condition then
    let s := { s with program_counter := wrap16 (s.program_counter + offset) }
    s.update_cycles 12
  else
    s.update_cycles 8

/-- `Cpu::add`: 8-bit add, setting Z/N/H/C. -/
def Cpu.add (s : Cpu) (register_x register_y : Nat) : Cpu × Nat :=
  let result := wrap8 (register_x + register_y)
  let carry := 255 < register_x + register_y
  let f := s.register_f
  let f := { f with z := result = 0x00 }
  let f := { f with n := false }
  let half_carry := 0x0F < (register_x &&& 0x0F) + (register_y &&& 0x0F)
  let f := { f with h := half_carry }
  let f := { f with c := carry }
  ({ s with register_f := f }, result)

/-- `Cpu::adc`: 8-bit add with carry-in. -/
def Cpu.adc (s : Cpu) (register_x register_y : Nat) : Cpu × Nat :=
  let carry_in := if s.register_f.c then 1 else 0
  let tmp := wrap8 (register_x + register_y)
  let carry1 := 255 < register_x + register_y
  let result := wrap8 (tmp + carry_in)
  let carry2 := 255 < tmp + carry_in
  let f := s.register_f
  let f := { f with z := result = 0 }
  let f := { f with n := false }
  let half := (register_x &&& 0x0F) + (register_y &&& 0x0F) + carry_in
  let f := { f with h := 0x0F < half }
  let f := { f with c := carry1 || carry2 }
  ({ s with register_f := f }, result)

/-- `Cpu::sub`: 8-bit subtract, setting Z/N/H/C (wrapping two's-complement result). -/
def Cpu.sub (s : Cpu) (register_x register_y : Nat) : Cpu × Nat :=
  let result := wrap8 (register_x + 256 - wrap8 register_y)
  let borrow := register_x < register_y
  let f := s.register_f
  let f := { f with z := result = 0 }
  let f := { f with n := true }
  let f := { f with h := (register_x &&& 0x0F) < (register_y &&& 0x0F) }
  let f := { f with c := borrow }
  ({ s with register_f := f }, result)

/-- `Cpu::sbc`: 8-bit subtract with borrow-in. -/
def Cpu.sbc (s : Cpu) (register_x register_y : Nat) : Cpu × Nat :=
  let carry_in := if s.register_f.c then 1 else 0
  let tmp := wrap8 (register_x + 256 - wrap8 register_y)
  let borrow1 := register_x < register_y
  let result := wrap8 (tmp + 256 - carry_in)
  let borrow2 := tmp < carry_in
  let f := s.register_f
  let f := { f with z := result = 0 }
  let f := { f with n := true }
  let y_plus_c := (register_y &&& 0x0F) + carry_in
  let f := { f with h := (register_x &&& 0x0F) < y_plus_c }
  let f := { f with c := borrow1 || borrow2 }
  ({ s with register_f := f }, result)

/-- `Cpu::and_`. -/
def Cpu.and_ (s : Cpu) (register_x register_y : Nat) : Cpu × Nat :=
  let result := register_x &&& register_y
  let f := s.register_f
  let f := { f with z := result = 0 }
  let f := { f with n := false }
  let f := { f with h := true }
  let f := { f with c := false }
  ({ s with register_f := f }, result)

/-- `Cpu::xor`. -/
def Cpu.xor (s : Cpu) (register_x register_y : Nat) : Cpu × Nat :=
  let result := register_x ^^^ register_y
  let f := s.register_f
  let f := { f with z := result = 0 }
  let f := { f with n := false }
  let f := { f with h := false }
  let f := { f with c := false }
  ({ s with register_f := f }, result)

/-- `Cpu::or_`. -/
def Cpu.or_ (s : Cpu) (register_x register_y : Nat) : Cpu × Nat :=
  let result := register_x ||| register_y
  let f := s.register_f
  let f := { f with z := result = 0 }
  let f := { f with n := false }
  let f := { f with h := false }
  let f := { f with c := false }
  ({ s with register_f := f }, result)

/-- `Cpu::cp`: compare (subtract, discard the result, keep flags). -/
def Cpu.cp (s : Cpu) (register_x register_y : Nat) : Cpu :=
  let result := wrap8 (register_x + 256 - wrap8 register_y)
  let borrow := register_x < register_y
  let f := s.register_f
  let f := { f with z := result = 0 }
  let f := { f with n := true }
  let f := { f with h := (register_x &&& 0x0F) < (register_y &&& 0x0F) }
  let f := { f with c := borrow }
  { s with register_f := f }

/-- `Cpu::inc` (8-bit increment helper; C flag untouched). -/
def Cpu.inc (s : Cpu) (register : Nat) : Cpu × Nat :=
  let f := { s.register_f with n := false }
  let old := register
  let result := wrap8 (old + 1)
  let f := { f with z := result = 0x00 }
  let f := { f with h := (old &&& 0x0F) = 0x0F }
  ({ s with register_f := f }, result)

/-- `Cpu::dec` (8-bit decrement helper; C flag untouched). -/
def Cpu.dec (s : Cpu) (register : Nat) : Cpu × Nat :=
  let f := { s.register_f with n := true }
  let old := register
  let result := wrap8 (old + 255)
  let f := { f with z := result = 0x00 }
  let f := { f with h := (old &&& 0x0F) = 0x00 }
  ({ s with register_f := f }, result)

/-- `Cpu::rlc` (rotate left circular helper). -/
def Cpu.rlc (s : Cpu) (register : Nat) : Cpu × Nat :=
  let bit7 := register &&& 0x80 ≠ 0
  let result := wrap8 ((register <<< 1) ||| (register >>> 7))
  let f := s.register_f
  let f := { f with z := result = 0x00 }
  let f := { f with n := false }
  let f := { f with h := false }
  let f := { f with c := bit7 }
  ({ s with register_f := f }, result)

/-- `Cpu::rrc` (rotate right circular helper). -/
def Cpu.rrc (s : Cpu) (register : Nat) : Cpu × Nat :=
  let bit0 := register &&& 0x01 ≠ 0
  let result := wrap8 ((register >>> 1) ||| (register <<< 7))
  let f := s.register_f
  let f := { f with z := result = 0x00 }
  let f := { f with n := false }
  let f := { f with h := false }
  let f := { f with c := bit0 }
  ({ s with register_f := f }, result)

/-- `Cpu::rl` (rotate left through carry helper). -/
def Cpu.rl (s : Cpu) (value : Nat) : Cpu × Nat :=
  let old_carry := s.register_f.c
  let new_carry := value &&& 0x80 ≠ 0
  let result := wrap8 ((value <<< 1) ||| (if old_carry then 1 else 0))
  let f := { s.register_f with z := false, n := false, h := false, c := false }
  let f := { f with z := result = 0 }
  let f := { f with c := new_carry }
  ({ s with register_f := f }, result)

/-- `Cpu::rr` (rotate right through carry helper). -/
def Cpu.rr (s : Cpu) (value : Nat) : Cpu × Nat :=
  let old_carry := s.register_f.c
  let new_carry := value &&& 0x01 ≠ 0
  let result := (value >>> 1) ||| ((if old_carry then 1 else 0) <<< 7)
  let f := { s.register_f with z := false, n := false, h := false, c := false }
  let f := { f with z := result = 0 }
  let f := { f with c := new_carry }
  ({ s with register_f := f }, result)

/-- `Cpu::sla` (shift left arithmetic helper). -/
def Cpu.sla (s : Cpu) (value : Nat) : Cpu × Nat :=
  let new_carry := value &&& 0x80 ≠ 0
  let result := wrap8 (value <<< 1)
  let f := s.register_f
  let f := { f with z := result = 0 }
  let f := { f with n := false }
  let f := { f with h := false }
  let f := { f with c := new_carry }
  ({ s with register_f := f }, result)

/-- `Cpu::sra` (shift right arithmetic helper, bit 7 kept). -/
def Cpu.sra (s : Cpu) (value : Nat) : Cpu × Nat :=
  let old_bit7 := value &&& 0x80
  let new_carry := value &&& 0x01 ≠ 0
  let result := (value >>> 1) ||| old_bit7
  let f := s.register_f
  let f := { f with z := result = 0 }
  let f := { f with n := false }
  let f := { f with h := false }
  let f := { f with c := new_carry }
  ({ s with register_f := f }, result)

/-- `Cpu::swap` (swap nibbles helper). -/
def Cpu.swap (s : Cpu) (value : Nat) : Cpu × Nat :=
  let result := (value >>> 4) ||| wrap8 (value <<< 4)
  let f := s.register_f
  let f := { f with z := result = 0 }
  let f := { f with n := false }
  let f := { f with h := false }
  let f := { f with c := false }
  ({ s with register_f := f }, result)

/-- `Cpu::srl` (shift right logical helper). -/
def Cpu.srl (s : Cpu) (value : Nat) : Cpu × Nat :=
  let new_carry := value &&& 0x01 ≠ 0
  let result := value >>> 1
  let f := s.register_f
  let f := { f with z := result = 0 }
  let f := { f with n := false }
  let f := { f with h := false }
  let f := { f with c := new_carry }
  ({ s with register_f := f }, result)

/-- `Cpu::bit` (test bit helper; only flags change). -/
def Cpu.bit (s : Cpu) (value bit : Nat) : Cpu :=
  let mask := 1 <<< bit
  let result := value &&& mask
  let f := s.register_f
  let f := { f with z := result = 0 }
  let f := { f with n := false }
  let f := { f with h := true }
  { s with register_f := f }

/-- `Cpu::res` (clear bit helper; flags untouched). -/
def Cpu.res (_s : Cpu) (value bit : Nat) : Nat :=
  value &&& ((1 <<< bit) ^^^ 0xFF)

/-- `Cpu::set` (set bit helper; flags untouched). -/
def Cpu.set (_s : Cpu) (value bit : Nat) : Nat :=
  value ||| (1 <<< bit)

/-- Opcode handler `nop`. -/
def Cpu.nop (s : Cpu) : Cpu :=
  let s := s.advance_program_counter 1
  s.update_cycles 4

/-- Opcode handler `ld_bc_u16` (little-endian immediate: low at PC+1, high at PC+2). -/
def Cpu.ld_bc_u16 (s : Cpu) : Cpu :=
  let low := s.read_u8 (wrap16 (s.program_counter + 1))
  let high := s.read_u8 (wrap16 (s.program_counter + 2))
  let s := { s with register_c := low, register_b := high }
  let s := s.advance_program_counter 3
  s.update_cycles 12

/-- Opcode handler `ld_bc_a`. -/
def Cpu.ld_bc_a (s : Cpu) : Cpu :=
  let addr := s.register_concat s.register_b s.register_c
  let s := s.write_u8 addr s.register_a
  let s := s.advance_program_counter 1
  s.update_cycles 8

/-- Opcode handler `inc_bc` (16-bit increment, no flags). -/
def Cpu.inc_bc (s : Cpu) : Cpu :=
  let bc := s.register_concat s.register_b s.register_c
  let bc := wrap16 (bc + 1)
  let s := { s with register_b := wrap8 (bc >>> 8), register_c := wrap8 bc }
  let s := s.advance_program_counter 1
  s.update_cycles 8

/-- Opcode handler `rlca` (Z always cleared). -/
def Cpu.rlca (s : Cpu) : Cpu :=
  let bit7 := s.register_a &&& 0x80 ≠ 0
  let result := wrap8 ((s.register_a <<< 1) ||| (s.register_a >>> 7))
  let f := { s.register_f with z := false, n := false, h := false, c := bit7 }
  let s := { s with register_f := f, register_a := result }
  let s := s.advance_program_counter 1
  s.update_cycles 4

/-- Opcode handler `ld_u16_sp` (store SP little-endian at immediate address). -/
def Cpu.ld_u16_sp (s : Cpu) : Cpu :=
  let low := s.read_u8 (wrap16 (s.program_counter + 1))
  let high := s.read_u8 (wrap16 (s.program_counter + 2))
  let addr := low ||| (high <<< 8)
  let sp_low := wrap8 s.stack_pointer
  let sp_high := wrap8 (s.stack_pointer >>> 8)
  let s := s.write_u8 addr sp_low
  let s := s.write_u8 (wrap16 (addr + 1)) sp_high
  let s := s.advance_program_counter 3
  s.update_cycles 20

/-- Opcode handler `add_hl_bc` (16-bit add; Z untouched). -/
def Cpu.add_hl_bc (s : Cpu) : Cpu :=
  let hl := s.register_concat s.register_h s.register_l
  let bc := s.register_concat s.register_b s.register_c
  let result := wrap16 (hl + bc)
  let f := { s.register_f with n := false }
  let f := { f with h := 0x0FFF < (hl &&& 0x0FFF) + (bc &&& 0x0FFF) }
  let f := { f with c := 0xFFFF < hl + bc }
  let s := { s with register_f := f, register_h := wrap8 (result >>> 8), register_l := wrap8 result }
  let s := s.advance_program_counter 1
  s.update_cycles 8

/-- Opcode handler `ld_a_bc`. -/
def Cpu.ld_a_bc (s : Cpu) : Cpu :=
  let addr := s.register_concat s.register_b s.register_c
  let s := { s with register_a := s.read_u8 addr }
  let s := s.advance_program_counter 1
  s.update_cycles 8

/-- Opcode handler `dec_bc` (16-bit decrement, no flags). -/
def Cpu.dec_bc (s : Cpu) : Cpu :=
  let bc := s.register_concat s.register_b s.register_c
  let bc := wrap16 (bc + 65535)
  let s := { s with register_b := wrap8 (bc >>> 8), register_c := wrap8 bc }
  let s := s.advance_program_counter 1
  s.update_cycles 8

/-- Opcode handler `rrca` (Z always cleared). -/
def Cpu.rrca (s : Cpu) : Cpu :=
  let bit0 := s.register_a &&& 0x01 ≠ 0
  let result := wrap8 ((s.register_a >>> 1) ||| (s.register_a <<< 7))
  let f := { s.register_f with z := false, n := false, h := false, c := bit0 }
  let s := { s with register_f := f, register_a := result }
  let s := s.advance_program_counter 1
  s.update_cycles 4

/-- Opcode handler `stop_inst`.  The byte after 0x10 must be 0x00; the Rust
panic on any other byte is modelled by `none`. -/
def Cpu.stop_inst (s : Cpu) : Option Cpu :=
  let next := s.read_u8 (wrap16 (s.program_counter + 1))
  if next ≠ 0x00 then none
  else
    let s := { s with stop := true }
    let s := s.advance_program_counter 2
    some (s.update_cycles 4)

/-- Opcode handler `ld_de_u16`. -/
def Cpu.ld_de_u16 (s : Cpu) : Cpu :=
  let low := s.read_u8 (wrap16 (s.program_counter + 1))
  let high := s.read_u8 (wrap16 (s.program_counter + 2))
  let s := { s with register_e := low, register_d := high }
  let s := s.advance_program_counter 3
  s.update_cycles 12

/-- Opcode handler `ld_de_a`. -/
def Cpu.ld_de_a (s : Cpu) : Cpu :=
  let de := s.register_concat s.register_d s.register_e
  let s := s.write_u8 de s.register_a
  let s := s.advance_program_counter 1
  s.update_cycles 8

/-- Opcode handler `inc_de`. -/
def Cpu.inc_de (s : Cpu) : Cpu :=
  let de := s.register_concat s.register_d s.register_e
  let de := wrap16 (de + 1)
  let s := { s with register_d := wrap8 (de >>> 8), register_e := wrap8 de }
  let s := s.advance_program_counter 1
  s.update_cycles 8

/-- Opcode handler `rla` (rotate A left through carry; Z always cleared). -/
def Cpu.rla (s : Cpu) : Cpu :=
  let old_carry := s.register_f.c
  let new_carry := s.register_a &&& 0x80 ≠ 0
  let result := wrap8 ((s.register_a <<< 1) ||| (if old_carry then 1 else 0))
  let s := { s with register_a := result }
  let f := { s.register_f with z := false, n := false, h := false, c := false }
  let f := { f with c := new_carry }
  let s := { s with register_f := f }
  let s := s.advance_program_counter 1
  s.update_cycles 4

/-- Opcode handler `jr_i8` (unconditional relative jump). -/
def Cpu.jr_i8 (s : Cpu) : Cpu :=
  let offset_u8 := s.read_u8 (wrap16 (s.program_counter + 1))
  let offset := sext8 offset_u8
  let s := s.advance_program_counter 2
  let s := { s with program_counter := wrap16 (s.program_counter + offset) }
  s.update_cycles 12

/-- Opcode handler `add_hl_de`. -/
def Cpu.add_hl_de (s : Cpu) : Cpu :=
  let hl := s.register_concat s.register_h s.register_l
  let de := s.register_concat s.register_d s.register_e
  let result := wrap16 (hl + de)
  let f := { s.register_f with n := false }
  let f := { f with h := 0x0FFF < (hl &&& 0x0FFF) + (de &&& 0x0FFF) }
  let f := { f with c := 0xFFFF < hl + de }
  let s := { s with register_f := f, register_h := wrap8 (result >>> 8), register_l := wrap8 result }
  let s := s.advance_program_counter 1
  s.update_cycles 8

/-- Opcode handler `ld_a_de`. -/
def Cpu.ld_a_de (s : Cpu) : Cpu :=
  let addr := s.register_concat s.register_d s.register_e
  let s := { s with register_a := s.read_u8 addr }
  let s := s.advance_program_counter 1
  s.update_cycles 8

/-- Opcode handler `dec_de`. -/
def Cpu.dec_de (s : Cpu) : Cpu :=
  let de := s.register_concat s.register_d s.register_e
  let de := wrap16 (de + 65535)
  let s := { s with register_d := wrap8 (de >>> 8), register_e := wrap8 de }
  let s := s.advance_program_counter 1
  s.update_cycles 8

/-- Opcode handler `rra` (rotate A right through carry; Z always cleared). -/
def Cpu.rra (s : Cpu) : Cpu :=
  let old_carry := s.register_f.c
  let new_carry := s.register_a &&& 0x01 ≠ 0
  let result := (s.register_a >>> 1) ||| ((if old_carry then 1 else 0) <<< 7)
  let s := { s with register_a := result }
  let f := { s.register_f with z := false, n := false, h := false, c := false }
  let f := { f with c := new_carry }
  let s := { s with register_f := f }
  let s := s.advance_program_counter 1
  s.update_cycles 4

/-- Opcode handler `jr_nz_i8`. -/
def Cpu.jr_nz_i8 (s : Cpu) : Cpu :=
  let z_set := s.register_f.z
  s.jr_cond_i8 (!z_set)

/-- Opcode handler `ld_hl_u16`. -/
def Cpu.ld_hl_u16 (s : Cpu) : Cpu :=
  let low := s.read_u8 (wrap16 (s.program_counter + 1))
  let high := s.read_u8 (wrap16 (s.program_counter + 2))
  let s := { s with register_h := high, register_l := low }
  let s := s.advance_program_counter 3
  s.update_cycles 12

/-- Opcode handler `ldi_hl_a` (store A at (HL), post-increment HL). -/
def Cpu.ldi_hl_a (s : Cpu) : Cpu :=
  let addr := s.register_concat s.register_h s.register_l
  let s := s.write_u8 addr s.register_a
  let addr_plus := wrap16 (addr + 1)
  let s := { s with register_h := (addr_plus >>> 8) &&& 0x00FF, register_l := addr_plus &&& 0x00FF }
  let s := s.advance_program_counter 1
  s.update_cycles 8

/-- Opcode handler `inc_hl` (16-bit). -/
def Cpu.inc_hl (s : Cpu) : Cpu :=
  let hl := s.register_concat s.register_h s.register_l
  let hl_plus := wrap16 (hl + 1)
  let s := { s with register_h := wrap8 (hl_plus >>> 8), register_l := wrap8 hl_plus }
  let s := s.advance_program_counter 1
  s.update_cycles 8

/-- Opcode handler `daa` (BCD adjust, following the source's branch structure). -/
def Cpu.daa (s : Cpu) : Cpu :=
  let a := s.register_a
  let n := s.register_f.n
  let h := s.register_f.h
  let c := s.register_f.c
  let carry_out := c
  let (a, carry_out) :=
    if !n then
      let a := if h || 0x09 < (a &&& 0x0F) then wrap8 (a + 0x06) else a
      if c || 0x99 < a then (wrap8 (a + 0x60), true) else (a, carry_out)
    else
      let a := if h then wrap8 (a + 256 - 0x06) else a
      let a := if c then wrap8 (a + 256 - 0x60) else a
      (a, carry_out)
  let s := { s with register_a := a }
  let f := { s.register_f with z := s.register_a = 0x00 }
  let f := { f with h := false }
  let f := { f with c := carry_out }
  let s := { s with register_f := f }
  let s := s.advance_program_counter 1
  s.update_cycles 4

/-- Opcode handler `jr_z_i8`. -/
def Cpu.jr_z_i8 (s : Cpu) : Cpu :=
  let z_set := s.register_f.z
  s.jr_cond_i8 z_set

/-- Opcode handler `add_hl_hl`. -/
def Cpu.add_hl_hl (s : Cpu) : Cpu :=
  let hl := s.register_concat s.register_h s.register_l
  let f := { s.register_f with n := false }
  let f := { f with h := 0x0FFF < (hl &&& 0x0FFF) + (hl &&& 0x0FFF) }
  let result := wrap16 (hl + hl)
  let carry := 0xFFFF < hl + hl
  let f := { f with c := carry }
  let s := { s with register_f := f, register_h := (result >>> 8) &&& 0x00FF, register_l := result &&& 0x00FF }
  let s := s.advance_program_counter 1
  s.update_cycles 8

/-- Opcode handler `ldi_a_hl` (load A from (HL), post-increment HL). -/
def Cpu.ldi_a_hl (s : Cpu) : Cpu :=
  let hl := s.register_concat s.register_h s.register_l
  let s := { s with register_a := s.read_u8 hl }
  let hl_plus := wrap16 (hl + 1)
  let s := { s with register_h := wrap8 (hl_plus >>> 8), register_l := wrap8 hl_plus }
  let s := s.advance_program_counter 1
  s.update_cycles 8

/-- Opcode handler `dec_hl` (16-bit). -/
def Cpu.dec_hl (s : Cpu) : Cpu :=
  let hl := s.register_concat s.register_h s.register_l
  let hl_minus := wrap16 (hl + 65535)
  let s := { s with register_h := wrap8 (hl_minus >>> 8), register_l := wrap8 hl_minus }
  let s := s.advance_program_counter 1
  s.update_cycles 8

/-- Opcode handler `cpl` (complement A; N and H set). -/
def Cpu.cpl (s : Cpu) : Cpu :=
  let s := { s with register_a := s.register_a ^^^ 0xFF }
  let f := { s.register_f with n := true, h := true }
  let s := { s with register_f := f }
  let s := s.advance_program_counter 1
  s.update_cycles 4

/-- Opcode handler `jr_nc_i8`. -/
def Cpu.jr_nc_i8 (s : Cpu) : Cpu :=
  let c_flag := s.register_f.c
  s.jr_cond_i8 (!c_flag)

/-- Opcode handler `ld_sp_u16`. -/
def Cpu.ld_sp_u16 (s : Cpu) : Cpu :=
  let low := s.read_u8 (wrap16 (s.program_counter + 1))
  let high := s.read_u8 (wrap16 (s.program_counter + 2))
  let s := { s with stack_pointer := (high <<< 8) ||| low }
  let s := s.advance_program_counter 3
  s.update_cycles 12

/-- Opcode handler `ldd_hl_a` (store A at (HL), post-decrement HL). -/
def Cpu.ldd_hl_a (s : Cpu) : Cpu :=
  let addr := s.register_concat s.register_h s.register_l
  let s := s.write_u8 addr s.register_a
  let addr_sub := wrap16 (addr + 65535)
  let s := { s with register_h := (addr_sub >>> 8) &&& 0x00FF, register_l := addr_sub &&& 0x00FF }
  let s := s.advance_program_counter 1
  s.update_cycles 8

/-- Opcode handler `inc_sp`. -/
def Cpu.inc_sp (s : Cpu) : Cpu :=
  let s := { s with stack_pointer := wrap16 (s.stack_pointer + 1) }
  let s := s.advance_program_counter 1
  s.update_cycles 8

/-- Opcode handler `inc_hl_ptr` (increment the byte at (HL)). -/
def Cpu.inc_hl_ptr (s : Cpu) : Cpu :=
  let addr := s.register_concat s.register_h s.register_l
  let old_value := s.read_u8 addr
  let result := wrap8 (old_value + 1)
  let s := s.write_u8 addr result
  let f := { s.register_f with z := result = 0 }
  let f := { f with n := false }
  let f := { f with h := (old_value &&& 0x0F) = 0x0F }
  let s := { s with register_f := f }
  let s := s.advance_program_counter 1
  s.update_cycles 12

/-- Opcode handler `dec_hl_ptr` (decrement the byte at (HL)). -/
def Cpu.dec_hl_ptr (s : Cpu) : Cpu :=
  let addr := s.register_concat s.register_h s.register_l
  let old_value := s.read_u8 addr
  let result := wrap8 (old_value + 255)
  let s := s.write_u8 addr result
  let f := { s.register_f with z := result = 0 }
  let f := { f with n := true }
  let f := { f with h := (old_value &&& 0x0F) = 0x00 }
  let s := { s with register_f := f }
  let s := s.advance_program_counter 1
  s.update_cycles 12

/-- Opcode handler `ld_hl_ptr_u8` (store immediate at (HL)). -/
def Cpu.ld_hl_ptr_u8 (s : Cpu) : Cpu :=
  let value := s.read_u8 (wrap16 (s.program_counter + 1))
  let addr := s.register_concat s.register_h s.register_l
  let s := s.write_u8 addr value
  let s := s.advance_program_counter 2
  s.update_cycles 12

/-- Opcode handler `scf`. -/
def Cpu.scf (s : Cpu) : Cpu :=
  let f := { s.register_f with c := true, n := false, h := false }
  let s := { s with register_f := f }
  let s := s.advance_program_counter 1
  s.update_cycles 4

/-- Opcode handler `jr_c_i8`. -/
def Cpu.jr_c_i8 (s : Cpu) : Cpu :=
  let c_flag := s.register_f.c
  s.jr_cond_i8 c_flag

/-- Opcode handler `add_hl_sp`. -/
def Cpu.add_hl_sp (s : Cpu) : Cpu :=
  let hl := s.register_concat s.register_h s.register_l
  let result := wrap16 (s.stack_pointer + hl)
  let f := { s.register_f with n := false }
  let f := { f with h := 0x0FFF < (hl &&& 0x0FFF) + (s.stack_pointer &&& 0x0FFF) }
  let f := { f with c := 0xFFFF < hl + s.stack_pointer }
  let s := { s with register_f := f, register_h := wrap8 (result >>> 8), register_l := wrap8 result }
  let s := s.advance_program_counter 1
  s.update_cycles 8

/-- Opcode handler `ldd_a_hl` (load A from (HL), post-decrement HL). -/
def Cpu.ldd_a_hl (s : Cpu) : Cpu :=
  let hl := s.register_concat s.register_h s.register_l
  let s := { s with register_a := s.read_u8 hl }
  let hl_sub := wrap16 (hl + 65535)
  let s := { s with register_h := wrap8 (hl_sub >>> 8), register_l := wrap8 hl_sub }
  let s := s.advance_program_counter 1
  s.update_cycles 8

/-- Opcode handler `dec_sp`. -/
def Cpu.dec_sp (s : Cpu) : Cpu :=
  let s := { s with stack_pointer := wrap16 (s.stack_pointer + 65535) }
  let s := s.advance_program_counter 1
  s.update_cycles 8

/-- Opcode handler `ccf`. -/
def Cpu.ccf (s : Cpu) : Cpu :=
  let carry := s.register_f.c
  let f := { s.register_f with c := !carry, n := false, h := false }
  let s := { s with register_f := f }
  let s := s.advance_program_counter 1
  s.update_cycles 4

/-- Opcode handler `halt_inst`. -/
def Cpu.halt_inst (s : Cpu) : Cpu :=
  let s := { s with halt := true }
  let s := s.advance_program_counter 1
  s.update_cycles 4

/-- Opcode handler `ret_nz` (note the source advances PC by 1 before the test). -/
def Cpu.ret_nz (s : Cpu) : Cpu :=
  let z_set := s.register_f.z
  let s := s.advance_program_counter 1
  if !z_set then
    let p1 := s.pop_u8
    let p2 := p1.1.pop_u8
    let s := { p2.1 with program_counter := (p2.2 <<< 8) ||| p1.2 }
    s.update_cycles 20
  else
    s.update_cycles 8

/-- Opcode handler `pop_bc`. -/
def Cpu.pop_bc (s : Cpu) : Cpu :=
  let p1 := s.pop_u8
  let p2 := p1.1.pop_u8
  let s := { p2.1 with register_c := p1.2, register_b := p2.2 }
  let s := s.advance_program_counter 1
  s.update_cycles 12

/-- Opcode handler `jp_nz_u16`. -/
def Cpu.jp_nz_u16 (s : Cpu) : Cpu :=
  let z_set := s.register_f.z
  let lower := s.read_u8 (wrap16 (s.program_counter + 1))
  let high := s.read_u8 (wrap16 (s.program_counter + 2))
  if !z_set then
    let s := { s with program_counter := (high <<< 8) ||| lower }
    s.update_cycles 16
  else
    let s := s.update_cycles 12
    s.advance_program_counter 3

/-- Opcode handler `jp_u16`. -/
def Cpu.jp_u16 (s : Cpu) : Cpu :=
  let lower := s.read_u8 (wrap16 (s.program_counter + 1))
  let high := s.read_u8 (wrap16 (s.program_counter + 2))
  let s := { s with program_counter := (high <<< 8) ||| lower }
  s.update_cycles 16

/-- Opcode handler `call_nz_u16`. -/
def Cpu.call_nz_u16 (s : Cpu) : Cpu :=
  let z_set := s.register_f.z
  let lower := s.read_u8 (wrap16 (s.program_counter + 1))
  let high := s.read_u8 (wrap16 (s.program_counter + 2))
  let target := (high <<< 8) ||| lower
  if !z_set then
    let ret := wrap16 (s.program_counter + 3)
    let s := s.push_u16 ret
    let s := { s with program_counter := target }
    s.update_cycles 24
  else
    let s := s.advance_program_counter 3
    s.update_cycles 12

/-- Opcode handler `push_bc`. -/
def Cpu.push_bc (s : Cpu) : Cpu :=
  let bc := (s.register_b <<< 8) ||| s.register_c
  let s := s.push_u16 bc
  let s := s.advance_program_counter 1
  s.update_cycles 16

/-- Opcode handler `add_a_u8` (the source clears N redundantly before the add). -/
def Cpu.add_a_u8 (s : Cpu) : Cpu :=
  let s := { s with register_f := { s.register_f with n := false } }
  let value := s.read_u8 (wrap16 (s.program_counter + 1))
  let p := s.add s.register_a value
  let s := { p.1 with register_a := p.2 }
  let s := s.advance_program_counter 2
  s.update_cycles 8

/-- Opcode handler `rst_00`. -/
def Cpu.rst_00 (s : Cpu) : Cpu :=
  let ret := wrap16 (s.program_counter + 1)
  let s := s.push_u16 ret
  let s := { s with program_counter := 0x0000 }
  s.update_cycles 16

/-- Opcode handler `ret_z`. -/
def Cpu.ret_z (s : Cpu) : Cpu :=
  let z_set := s.register_f.z
  if z_set then
    let p1 := s.pop_u8
    let p2 := p1.1.pop_u8
    let s := { p2.1 with program_counter := (p2.2 <<< 8) ||| p1.2 }
    s.update_cycles 20
  else
    let s := s.advance_program_counter 1
    s.update_cycles 8

/-- Opcode handler `ret`. -/
def Cpu.ret (s : Cpu) : Cpu :=
  let p1 := s.pop_u8
  let p2 := p1.1.pop_u8
  let s := { p2.1 with program_counter := (p2.2 <<< 8) ||| p1.2 }
  s.update_cycles 16

/-- Opcode handler `jp_z_u16`. -/
def Cpu.jp_z_u16 (s : Cpu) : Cpu :=
  let z_set := s.register_f.z
  let lower := s.read_u8 (wrap16 (s.program_counter + 1))
  let high := s.read_u8 (wrap16 (s.program_counter + 2))
  if z_set then
    let s := { s with program_counter := (high <<< 8) ||| lower }
    s.update_cycles 16
  else
    let s := s.advance_program_counter 3
    s.update_cycles 12

/-- Opcode handler `call_z_u16`. -/
def Cpu.call_z_u16 (s : Cpu) : Cpu :=
  let z_set := s.register_f.z
  let lower := s.read_u8 (wrap16 (s.program_counter + 1))
  let high := s.read_u8 (wrap16 (s.program_counter + 2))
  let target := (high <<< 8) ||| lower
  if z_set then
    let ret := wrap16 (s.program_counter + 3)
    let s := s.push_u16 ret
    let s := { s with program_counter := target }
    s.update_cycles 24
  else
    let s := s.advance_program_counter 3
    s.update_cycles 12

/-- Opcode handler `call_u16`. -/
def Cpu.call_u16 (s : Cpu) : Cpu :=
  let lower := s.read_u8 (wrap16 (s.program_counter + 1))
  let high := s.read_u8 (wrap16 (s.program_counter + 2))
  let target := (high <<< 8) ||| lower
  let ret := wrap16 (s.program_counter + 3)
  let s := s.push_u16 ret
  let s := { s with program_counter := target }
  s.update_cycles 24

/-- Opcode handler `adc_a_u8`. -/
def Cpu.adc_a_u8 (s : Cpu) : Cpu :=
  let value := s.read_u8 (wrap16 (s.program_counter + 1))
  let p := s.adc s.register_a value
  let s := { p.1 with register_a := p.2 }
  let s := s.advance_program_counter 2
  s.update_cycles 8

/-- Opcode handler `rst_08`. -/
def Cpu.rst_08 (s : Cpu) : Cpu :=
  let ret := wrap16 (s.program_counter + 1)
  let s := s.push_u16 ret
  let s := { s with program_counter := 0x0008 }
  s.update_cycles 16

/-- Opcode handler `ret_nc`. -/
def Cpu.ret_nc (s : Cpu) : Cpu :=
  let c_set := s.register_f.c
  if !c_set then
    let p1 := s.pop_u8
    let p2 := p1.1.pop_u8
    let s := { p2.1 with program_counter := (p2.2 <<< 8) ||| p1.2 }
    s.update_cycles 20
  else
    let s := s.advance_program_counter 1
    s.update_cycles 8

/-- Opcode handler `pop_de`. -/
def Cpu.pop_de (s : Cpu) : Cpu :=
  let p1 := s.pop_u8
  let p2 := p1.1.pop_u8
  let s := { p2.1 with register_e := p1.2, register_d := p2.2 }
  let s := s.advance_program_counter 1
  s.update_cycles 12

/-- Opcode handler `jp_nc_u16`. -/
def Cpu.jp_nc_u16 (s : Cpu) : Cpu :=
  let c_set := s.register_f.c
  let lower := s.read_u8 (wrap16 (s.program_counter + 1))
  let high := s.read_u8 (wrap16 (s.program_counter + 2))
  if !c_set then
    let s := { s with program_counter := (high <<< 8) ||| lower }
    s.update_cycles 16
  else
    let s := s.advance_program_counter 3
    s.update_cycles 12

/-- Opcode handler `call_nc_u16`. -/
def Cpu.call_nc_u16 (s : Cpu) : Cpu :=
  let c_set := s.register_f.c
  let lower := s.read_u8 (wrap16 (s.program_counter + 1))
  let high := s.read_u8 (wrap16 (s.program_counter + 2))
  let target := (high <<< 8) ||| lower
  if !c_set then
    let ret := wrap16 (s.program_counter + 3)
    let s := s.push_u16 ret
    let s := { s with program_counter := target }
    s.update_cycles 24
  else
    let s := s.advance_program_counter 3
    s.update_cycles 12

/-- Opcode handler `push_de`. -/
def Cpu.push_de (s : Cpu) : Cpu :=
  let de := (s.register_d <<< 8) ||| s.register_e
  let s := s.push_u16 de
  let s := s.advance_program_counter 1
  s.update_cycles 16

/-- Opcode handler `sub_u8`. -/
def Cpu.sub_u8 (s : Cpu) : Cpu :=
  let valor := s.read_u8 (wrap16 (s.program_counter + 1))
  let p := s.sub s.register_a valor
  let s := { p.1 with register_a := p.2 }
  let s := s.advance_program_counter 2
  s.update_cycles 8

/-- Opcode handler `rst_10`. -/
def Cpu.rst_10 (s : Cpu) : Cpu :=
  let ret := wrap16 (s.program_counter + 1)
  let s := s.push_u16 ret
  let s := { s with program_counter := 0x0010 }
  s.update_cycles 16

/-- Opcode handler `ret_c`. -/
def Cpu.ret_c (s : Cpu) : Cpu :=
  let c_set := s.register_f.c
  if c_set then
    let p1 := s.pop_u8
    let p2 := p1.1.pop_u8
    let s := { p2.1 with program_counter := (p2.2 <<< 8) ||| p1.2 }
    s.update_cycles 20
  else
    let s := s.advance_program_counter 1
    s.update_cycles 8

/-- Opcode handler `reti` (return and enable interrupts immediately). -/
def Cpu.reti (s : Cpu) : Cpu :=
  let p1 := s.pop_u8
  let p2 := p1.1.pop_u8
  let s := { p2.1 with program_counter := (p2.2 <<< 8) ||| p1.2 }
  let s := { s with interruption := true, ime_pending := false }
  s.update_cycles 16

/-- Opcode handler `jp_c_u16`. -/
def Cpu.jp_c_u16 (s : Cpu) : Cpu :=
  let c_set := s.register_f.c
  let lower := s.read_u8 (wrap16 (s.program_counter + 1))
  let high := s.read_u8 (wrap16 (s.program_counter + 2))
  if c_set then
    let s := { s with program_counter := (high <<< 8) ||| lower }
    s.update_cycles 16
  else
    let s := s.advance_program_counter 3
    s.update_cycles 12

/-- Opcode handler `call_c_u16`. -/
def Cpu.call_c_u16 (s : Cpu) : Cpu :=
  let c_set := s.register_f.c
  let lower := s.read_u8 (wrap16 (s.program_counter + 1))
  let high := s.read_u8 (wrap16 (s.program_counter + 2))
  let target := (high <<< 8) ||| lower
  if c_set then
    let ret := wrap16 (s.program_counter + 3)
    let s := s.push_u16 ret
    let s := { s with program_counter := target }
    s.update_cycles 24
  else
    let s := s.advance_program_counter 3
    s.update_cycles 12

/-- Opcode handler `sbc_a_u8`. -/
def Cpu.sbc_a_u8 (s : Cpu) : Cpu :=
  let valor := s.read_u8 (wrap16 (s.program_counter + 1))
  let p := s.sbc s.register_a valor
  let s := { p.1 with register_a := p.2 }
  let s := s.advance_program_counter 2
  s.update_cycles 8

/-- Opcode handler `rst_18`. -/
def Cpu.rst_18 (s : Cpu) : Cpu :=
  let ret := wrap16 (s.program_counter + 1)
  let s := s.push_u16 ret
  let s := { s with program_counter := 0x0018 }
  s.update_cycles 16

/-- Opcode handler `ldh_u8_a` (store A at 0xFF00+d8). -/
def Cpu.ldh_u8_a (s : Cpu) : Cpu :=
  let offset := s.read_u8 (wrap16 (s.program_counter + 1))
  let addr := (0xFF <<< 8) ||| offset
  let s := s.write_u8 addr s.register_a
  let s := s.advance_program_counter 2
  s.update_cycles 12

/-- Opcode handler `pop_hl`. -/
def Cpu.pop_hl (s : Cpu) : Cpu :=
  let p1 := s.pop_u8
  let p2 := p1.1.pop_u8
  let s := { p2.1 with register_l := p1.2, register_h := p2.2 }
  let s := s.advance_program_counter 1
  s.update_cycles 12

/-- Opcode handler `ldh_c_a` (store A at 0xFF00+C). -/
def Cpu.ldh_c_a (s : Cpu) : Cpu :=
  let addr := (0xFF <<< 8) ||| s.register_c
  let s := s.write_u8 addr s.register_a
  let s := s.advance_program_counter 1
  s.update_cycles 8

/-- Opcode handler `push_hl`. -/
def Cpu.push_hl (s : Cpu) : Cpu :=
  let hl := (s.register_h <<< 8) ||| s.register_l
  let s := s.push_u16 hl
  let s := s.advance_program_counter 1
  s.update_cycles 16

/-- Opcode handler `and_u8`. -/
def Cpu.and_u8 (s : Cpu) : Cpu :=
  let value := s.read_u8 (wrap16 (s.program_counter + 1))
  let p := s.and_ s.register_a value
  let s := { p.1 with register_a := p.2 }
  let s := s.advance_program_counter 2
  s.update_cycles 8

/-- Opcode handler `rst_20`. -/
def Cpu.rst_20 (s : Cpu) : Cpu :=
  let ret := wrap16 (s.program_counter + 1)
  let s := s.push_u16 ret
  let s := { s with program_counter := 0x0020 }
  s.update_cycles 16

/-- Opcode handler `add_sp_i8` (H and C from the low-byte sum). -/
def Cpu.add_sp_i8 (s : Cpu) : Cpu :=
  let value := sext8 (s.read_u8 (wrap16 (s.program_counter + 1)))
  let sp := s.stack_pointer
  let result := wrap16 (sp + value)
  let f := { s.register_f with z := false, n := false }
  let low_sp := sp &&& 0x00FF
  let low_val := value &&& 0x00FF
  let f := { f with h := 0x000F < (low_sp &&& 0x000F) + (low_val &&& 0x000F) }
  let f := { f with c := 0x00FF < low_sp + low_val }
  let s := { s with register_f := f, stack_pointer := result }
  let s := s.advance_program_counter 2
  s.update_cycles 16

/-- Opcode handler `jp_hl`. -/
def Cpu.jp_hl (s : Cpu) : Cpu :=
  let addr := s.register_concat s.register_h s.register_l
  let s := { s with program_counter := addr }
  s.update_cycles 4

/-- Opcode handler `ld_u16_a`. -/
def Cpu.ld_u16_a (s : Cpu) : Cpu :=
  let low := s.read_u8 (wrap16 (s.program_counter + 1))
  let high := s.read_u8 (wrap16 (s.program_counter + 2))
  let addr := (high <<< 8) ||| low
  let s := s.write_u8 addr s.register_a
  let s := s.advance_program_counter 3
  s.update_cycles 16

/-- Opcode handler `xor_u8`. -/
def Cpu.xor_u8 (s : Cpu) : Cpu :=
  let value := s.read_u8 (wrap16 (s.program_counter + 1))
  let p := s.xor s.register_a value
  let s := { p.1 with register_a := p.2 }
  let s := s.advance_program_counter 2
  s.update_cycles 8

/-- Opcode handler `rst_28`. -/
def Cpu.rst_28 (s : Cpu) : Cpu :=
  let ret := wrap16 (s.program_counter + 1)
  let s := s.push_u16 ret
  let s := { s with program_counter := 0x0028 }
  s.update_cycles 16

/-- Opcode handler `ldh_a_u8` (load A from 0xFF00+d8). -/
def Cpu.ldh_a_u8 (s : Cpu) : Cpu :=
  let value := s.read_u8 (wrap16 (s.program_counter + 1))
  let addr := (0xFF <<< 8) ||| value
  let s := { s with register_a := s.read_u8 addr }
  let s := s.advance_program_counter 2
  s.update_cycles 12

/-- Opcode handler `pop_af` (F from the popped byte through `from_bits_truncate(low & 0xF0)`). -/
def Cpu.pop_af (s : Cpu) : Cpu :=
  let p1 := s.pop_u8
  let p2 := p1.1.pop_u8
  let s := { p2.1 with register_a := p2.2, register_f := FFlags.from_bits_truncate (p1.2 &&& 0xF0) }
  let s := s.advance_program_counter 1
  s.update_cycles 12

/-- Opcode handler `ldh_a_c` (load A from 0xFF00+C). -/
def Cpu.ldh_a_c (s : Cpu) : Cpu :=
  let addr := s.register_concat 0xFF s.register_c
  let s := { s with register_a := s.read_u8 addr }
  let s := s.advance_program_counter 1
  s.update_cycles 8

/-- Opcode handler `di` (disable interrupts immediately). -/
def Cpu.di (s : Cpu) : Cpu :=
  let s := { s with interruption := false, ime_pending := false }
  let s := s.advance_program_counter 1
  s.update_cycles 4

/-- Opcode handler `push_af` (pushes `A` and `F.bits() & 0xF0`). -/
def Cpu.push_af (s : Cpu) : Cpu :=
  let f := s.register_f.bits &&& 0xF0
  let af := (s.register_a <<< 8) ||| f
  let s := s.push_u16 af
  let s := s.advance_program_counter 1
  s.update_cycles 16

/-- Opcode handler `or_u8`. -/
def Cpu.or_u8 (s : Cpu) : Cpu :=
  let value := s.read_u8 (wrap16 (s.program_counter + 1))
  let p := s.or_ s.register_a value
  let s := { p.1 with register_a := p.2 }
  let s := s.advance_program_counter 2
  s.update_cycles 8

/-- Opcode handler `rst_30`. -/
def Cpu.rst_30 (s : Cpu) : Cpu :=
  let ret := wrap16 (s.program_counter + 1)
  let s := s.push_u16 ret
  let s := { s with program_counter := 0x0030 }
  s.update_cycles 16

/-- Opcode handler `ld_hl_sp_i8` (HL = SP + r8; H and C from the low-byte sum). -/
def Cpu.ld_hl_sp_i8 (s : Cpu) : Cpu :=
  let value := sext8 (s.read_u8 (wrap16 (s.program_counter + 1)))
  let sp := s.stack_pointer
  let result := wrap16 (sp + value)
  let f := { s.register_f with z := false, n := false }
  let low_sp := sp &&& 0x00FF
  let low_val := value &&& 0x00FF
  let f := { f with h := 0x000F < (low_sp &&& 0x000F) + (low_val &&& 0x000F) }
  let f := { f with c := 0x00FF < low_sp + low_val }
  let s := { s with register_f := f, register_h := wrap8 (result >>> 8), register_l := wrap8 result }
  let s := s.advance_program_counter 2
  s.update_cycles 12

/-- Opcode handler `ld_sp_hl`. -/
def Cpu.ld_sp_hl (s : Cpu) : Cpu :=
  let hl := s.register_concat s.register_h s.register_l
  let s := { s with stack_pointer := hl }
  let s := s.advance_program_counter 1
  s.update_cycles 8

/-- Opcode handler `ld_a_u16`. -/
def Cpu.ld_a_u16 (s : Cpu) : Cpu :=
  let low := s.read_u8 (wrap16 (s.program_counter + 1))
  let high := s.read_u8 (wrap16 (s.program_counter + 2))
  let addr := (high <<< 8) ||| low
  let s := { s with register_a := s.read_u8 addr }
  let s := s.advance_program_counter 3
  s.update_cycles 16

/-- Opcode handler `ei` (sets only `ime_pending`). -/
def Cpu.ei (s : Cpu) : Cpu :=
  let s := { s with ime_pending := true }
  let s := s.advance_program_counter 1
  s.update_cycles 4

/-- Opcode handler `cp_u8`. -/
def Cpu.cp_u8 (s : Cpu) : Cpu :=
  let value := s.read_u8 (wrap16 (s.program_counter + 1))
  let s := s.cp s.register_a value
  let s := s.advance_program_counter 2
  s.update_cycles 8

/-- Opcode handler `rst_38`. -/
def Cpu.rst_38 (s : Cpu) : Cpu :=
  let ret := wrap16 (s.program_counter + 1)
  let s := s.push_u16 ret
  let s := { s with program_counter := 0x0038 }
  s.update_cycles 16

/-- Unused opcode 0xD3: the Rust handler panics; modelled by `none`. -/
def Cpu.op_d3_unused (_s : Cpu) : Option Cpu := none

/-- Unused opcode 0xDB. -/
def Cpu.op_db_unused (_s : Cpu) : Option Cpu := none

/-- Unused opcode 0xDD. -/
def Cpu.op_dd_unused (_s : Cpu) : Option Cpu := none

/-- Unused opcode 0xE3. -/
def Cpu.op_e3_unused (_s : Cpu) : Option Cpu := none

/-- Unused opcode 0xE4. -/
def Cpu.op_e4_unused (_s : Cpu) : Option Cpu := none

/-- Unused opcode 0xEB. -/
def Cpu.op_eb_unused (_s : Cpu) : Option Cpu := none

/-- Unused opcode 0xEC. -/
def Cpu.op_ec_unused (_s : Cpu) : Option Cpu := none

/-- Unused opcode 0xED. -/
def Cpu.op_ed_unused (_s : Cpu) : Option Cpu := none

/-- Unused opcode 0xF4. -/
def Cpu.op_f4_unused (_s : Cpu) : Option Cpu := none

/-- Unused opcode 0xFC. -/
def Cpu.op_fc_unused (_s : Cpu) : Option Cpu := none

/-- Unused opcode 0xFD. -/
def Cpu.op_fd_unused (_s : Cpu) : Option Cpu := none

/-- Opcode handler `ld_b_b`. -/
def Cpu.ld_b_b (s : Cpu) : Cpu :=
  let s := { s with register_b := s.register_b }
  let s := s.advance_program_counter 1
  s.update_cycles 4

/-- Opcode handler `ld_b_c`. -/
def Cpu.ld_b_c (s : Cpu) : Cpu :=
  let s := { s with register_b := s.register_c }
  let s := s.advance_program_counter 1
  s.update_cycles 4

/-- Opcode handler `ld_b_d`. -/
def Cpu.ld_b_d (s : Cpu) : Cpu :=
  let s := { s with register_b := s.register_d }
  let s := s.advance_program_counter 1
  s.update_cycles 4

/-- Opcode handler `ld_b_e`. -/
def Cpu.ld_b_e (s : Cpu) : Cpu :=
  let s := { s with register_b := s.register_e }
  let s := s.advance_program_counter 1
  s.update_cycles 4

/-- Opcode handler `ld_b_h`. -/
def Cpu.ld_b_h (s : Cpu) : Cpu :=
  let s := { s with register_b := s.register_h }
  let s := s.advance_program_counter 1
  s.update_cycles 4

/-- Opcode handler `ld_b_l`. -/
def Cpu.ld_b_l (s : Cpu) : Cpu :=
  let s := { s with register_b := s.register_l }
  let s := s.advance_program_counter 1
  s.update_cycles 4

/-- Opcode handler `ld_b_hl_ptr`. -/
def Cpu.ld_b_hl_ptr (s : Cpu) : Cpu :=
  let addr := s.register_concat s.register_h s.register_l
  let s := { s with register_b := s.read_u8 addr }
  let s := s.advance_program_counter 1
  s.update_cycles 8

/-- Opcode handler `ld_b_a`. -/
def Cpu.ld_b_a (s : Cpu) : Cpu :=
  let s := { s with register_b := s.register_a }
  let s := s.advance_program_counter 1
  s.update_cycles 4

/-- Opcode handler `ld_c_b`. -/
def Cpu.ld_c_b (s : Cpu) : Cpu :=
  let s := { s with register_c := s.register_b }
  let s := s.advance_program_counter 1
  s.update_cycles 4

/-- Opcode handler `ld_c_c`. -/
def Cpu.ld_c_c (s : Cpu) : Cpu :=
  let s := { s with register_c := s.register_c }
  let s := s.advance_program_counter 1
  s.update_cycles 4

/-- Opcode handler `ld_c_d`. -/
def Cpu.ld_c_d (s : Cpu) : Cpu :=
  let s := { s with register_c := s.register_d }
  let s := s.advance_program_counter 1
  s.update_cycles 4

/-- Opcode handler `ld_c_e`. -/
def Cpu.ld_c_e (s : Cpu) : Cpu :=
  let s := { s with register_c := s.register_e }
  let s := s.advance_program_counter 1
  s.update_cycles 4

/-- Opcode handler `ld_c_h`. -/
def Cpu.ld_c_h (s : Cpu) : Cpu :=
  let s := { s with register_c := s.register_h }
  let s := s.advance_program_counter 1
  s.update_cycles 4

/-- Opcode handler `ld_c_l`. -/
def Cpu.ld_c_l (s : Cpu) : Cpu :=
  let s := { s with register_c := s.register_l }
  let s := s.advance_program_counter 1
  s.update_cycles 4

/-- Opcode handler `ld_c_hl_ptr`. -/
def Cpu.ld_c_hl_ptr (s : Cpu) : Cpu :=
  let addr := s.register_concat s.register_h s.register_l
  let s := { s with register_c := s.read_u8 addr }
  let s := s.advance_program_counter 1
  s.update_cycles 8

/-- Opcode handler `ld_c_a`. -/
def Cpu.ld_c_a (s : Cpu) : Cpu :=
  let s := { s with register_c := s.register_a }
  let s := s.advance_program_counter 1
  s.update_cycles 4

/-- Opcode handler `ld_d_b`. -/
def Cpu.ld_d_b (s : Cpu) : Cpu :=
  let s := { s with register_d := s.register_b }
  let s := s.advance_program_counter 1
  s.update_cycles 4

/-- Opcode handler `ld_d_c`. -/
def Cpu.ld_d_c (s : Cpu) : Cpu :=
  let s := { s with register_d := s.register_c }
  let s := s.advance_program_counter 1
  s.update_cycles 4

/-- Opcode handler `ld_d_d`. -/
def Cpu.ld_d_d (s : Cpu) : Cpu :=
  let s := { s with register_d := s.register_d }
  let s := s.advance_program_counter 1
  s.update_cycles 4

/-- Opcode handler `ld_d_e`. -/
def Cpu.ld_d_e (s : Cpu) : Cpu :=
  let s := { s with register_d := s.register_e }
  let s := s.advance_program_counter 1
  s.update_cycles 4

/-- Opcode handler `ld_d_h`. -/
def Cpu.ld_d_h (s : Cpu) : Cpu :=
  let s := { s with register_d := s.register_h }
  let s := s.advance_program_counter 1
  s.update_cycles 4

/-- Opcode handler `ld_d_l`. -/
def Cpu.ld_d_l (s : Cpu) : Cpu :=
  let s := { s with register_d := s.register_l }
  let s := s.advance_program_counter 1
  s.update_cycles 4

/-- Opcode handler `ld_d_hl_ptr`. -/
def Cpu.ld_d_hl_ptr (s : Cpu) : Cpu :=
  let addr := s.register_concat s.register_h s.register_l
  let s := { s with register_d := s.read_u8 addr }
  let s := s.advance_program_counter 1
  s.update_cycles 8

/-- Opcode handler `ld_d_a`. -/
def Cpu.ld_d_a (s : Cpu) : Cpu :=
  let s := { s with register_d := s.register_a }
  let s := s.advance_program_counter 1
  s.update_cycles 4

/-- Opcode handler `ld_e_b`. -/
def Cpu.ld_e_b (s : Cpu) : Cpu :=
  let s := { s with register_e := s.register_b }
  let s := s.advance_program_counter 1
  s.update_cycles 4

/-- Opcode handler `ld_e_c`. -/
def Cpu.ld_e_c (s : Cpu) : Cpu :=
  let s := { s with register_e := s.register_c }
  let s := s.advance_program_counter 1
  s.update_cycles 4

/-- Opcode handler `ld_e_d`. -/
def Cpu.ld_e_d (s : Cpu) : Cpu :=
  let s := { s with register_e := s.register_d }
  let s := s.advance_program_counter 1
  s.update_cycles 4

/-- Opcode handler `ld_e_e`. -/
def Cpu.ld_e_e (s : Cpu) : Cpu :=
  let s := { s with register_e := s.register_e }
  let s := s.advance_program_counter 1
  s.update_cycles 4

/-- Opcode handler `ld_e_h`. -/
def Cpu.ld_e_h (s : Cpu) : Cpu :=
  let s := { s with register_e := s.register_h }
  let s := s.advance_program_counter 1
  s.update_cycles 4

/-- Opcode handler `ld_e_l`. -/
def Cpu.ld_e_l (s : Cpu) : Cpu :=
  let s := { s with register_e := s.register_l }
  let s := s.advance_program_counter 1
  s.update_cycles 4

/-- Opcode handler `ld_e_hl_ptr`. -/
def Cpu.ld_e_hl_ptr (s : Cpu) : Cpu :=
  let addr := s.register_concat s.register_h s.register_l
  let s := { s with register_e := s.read_u8 addr }
  let s := s.advance_program_counter 1
  s.update_cycles 8

/-- Opcode handler `ld_e_a`. -/
def Cpu.ld_e_a (s : Cpu) : Cpu :=
  let s := { s with register_e := s.register_a }
  let s := s.advance_program_counter 1
  s.update_cycles 4

/-- Opcode handler `ld_h_b`. -/
def Cpu.ld_h_b (s : Cpu) : Cpu :=
  let s := { s with register_h := s.register_b }
  let s := s.advance_program_counter 1
  s.update_cycles 4

/-- Opcode handler `ld_h_c`. -/
def Cpu.ld_h_c (s : Cpu) : Cpu :=
  let s := { s with register_h := s.register_c }
  let s := s.advance_program_counter 1
  s.update_cycles 4

/-- Opcode handler `ld_h_d`. -/
def Cpu.ld_h_d (s : Cpu) : Cpu :=
  let s := { s with register_h := s.register_d }
  let s := s.advance_program_counter 1
  s.update_cycles 4

/-- Opcode handler `ld_h_e`. -/
def Cpu.ld_h_e (s : Cpu) : Cpu :=
  let s := { s with register_h := s.register_e }
  let s := s.advance_program_counter 1
  s.update_cycles 4

/-- Opcode handler `ld_h_h`. -/
def Cpu.ld_h_h (s : Cpu) : Cpu :=
  let s := { s with register_h := s.register_h }
  let s := s.advance_program_counter 1
  s.update_cycles 4

/-- Opcode handler `ld_h_l`. -/
def Cpu.ld_h_l (s : Cpu) : Cpu :=
  let s := { s with register_h := s.register_l }
  let s := s.advance_program_counter 1
  s.update_cycles 4

/-- Opcode handler `ld_h_hl_ptr`. -/
def Cpu.ld_h_hl_ptr (s : Cpu) : Cpu :=
  let addr := s.register_concat s.register_h s.register_l
  let s := { s with register_h := s.read_u8 addr }
  let s := s.advance_program_counter 1
  s.update_cycles 8

/-- Opcode handler `ld_h_a`. -/
def Cpu.ld_h_a (s : Cpu) : Cpu :=
  let s := { s with register_h := s.register_a }
  let s := s.advance_program_counter 1
  s.update_cycles 4

/-- Opcode handler `ld_l_b`. -/
def Cpu.ld_l_b (s : Cpu) : Cpu :=
  let s := { s with register_l := s.register_b }
  let s := s.advance_program_counter 1
  s.update_cycles 4

/-- Opcode handler `ld_l_c`. -/
def Cpu.ld_l_c (s : Cpu) : Cpu :=
  let s := { s with register_l := s.register_c }
  let s := s.advance_program_counter 1
  s.update_cycles 4

/-- Opcode handler `ld_l_d`. -/
def Cpu.ld_l_d (s : Cpu) : Cpu :=
  let s := { s with register_l := s.register_d }
  let s := s.advance_program_counter 1
  s.update_cycles 4

/-- Opcode handler `ld_l_e`. -/
def Cpu.ld_l_e (s : Cpu) : Cpu :=
  let s := { s with register_l := s.register_e }
  let s := s.advance_program_counter 1
  s.update_cycles 4

/-- Opcode handler `ld_l_h`. -/
def Cpu.ld_l_h (s : Cpu) : Cpu :=
  let s := { s with register_l := s.register_h }
  let s := s.advance_program_counter 1
  s.update_cycles 4

/-- Opcode handler `ld_l_l`. -/
def Cpu.ld_l_l (s : Cpu) : Cpu :=
  let s := { s with register_l := s.register_l }
  let s := s.advance_program_counter 1
  s.update_cycles 4

/-- Opcode handler `ld_l_hl_ptr`. -/
def Cpu.ld_l_hl_ptr (s : Cpu) : Cpu :=
  let addr := s.register_concat s.register_h s.register_l
  let s := { s with register_l := s.read_u8 addr }
  let s := s.advance_program_counter 1
  s.update_cycles 8

/-- Opcode handler `ld_l_a`. -/
def Cpu.ld_l_a (s : Cpu) : Cpu :=
  let s := { s with register_l := s.register_a }
  let s := s.advance_program_counter 1
  s.update_cycles 4

/-- Opcode handler `ld_hl_ptr_b`. -/
def Cpu.ld_hl_ptr_b (s : Cpu) : Cpu :=
  let addr := s.register_concat s.register_h s.register_l
  let s := s.write_u8 addr s.register_b
  let s := s.advance_program_counter 1
  s.update_cycles 8

/-- Opcode handler `ld_hl_ptr_c`. -/
def Cpu.ld_hl_ptr_c (s : Cpu) : Cpu :=
  let addr := s.register_concat s.register_h s.register_l
  let s := s.write_u8 addr s.register_c
  let s := s.advance_program_counter 1
  s.update_cycles 8

/-- Opcode handler `ld_hl_ptr_d`. -/
def Cpu.ld_hl_ptr_d (s : Cpu) : Cpu :=
  let addr := s.register_concat s.register_h s.register_l
  let s := s.write_u8 addr s.register_d
  let s := s.advance_program_counter 1
  s.update_cycles 8

/-- Opcode handler `ld_hl_ptr_e`. -/
def Cpu.ld_hl_ptr_e (s : Cpu) : Cpu :=
  let addr := s.register_concat s.register_h s.register_l
  let s := s.write_u8 addr s.register_e
  let s := s.advance_program_counter 1
  s.update_cycles 8

/-- Opcode handler `ld_hl_ptr_h`. -/
def Cpu.ld_hl_ptr_h (s : Cpu) : Cpu :=
  let addr := s.register_concat s.register_h s.register_l
  let s := s.write_u8 addr s.register_h
  let s := s.advance_program_counter 1
  s.update_cycles 8

/-- Opcode handler `ld_hl_ptr_l`. -/
def Cpu.ld_hl_ptr_l (s : Cpu) : Cpu :=
  let addr := s.register_concat s.register_h s.register_l
  let s := s.write_u8 addr s.register_l
  let s := s.advance_program_counter 1
  s.update_cycles 8

/-- Opcode handler `ld_hl_ptr_a`. -/
def Cpu.ld_hl_ptr_a (s : Cpu) : Cpu :=
  let addr := s.register_concat s.register_h s.register_l
  let s := s.write_u8 addr s.register_a
  let s := s.advance_program_counter 1
  s.update_cycles 8

/-- Opcode handler `ld_a_b`. -/
def Cpu.ld_a_b (s : Cpu) : Cpu :=
  let s := { s with register_a := s.register_b }
  let s := s.advance_program_counter 1
  s.update_cycles 4

/-- Opcode handler `ld_a_c`. -/
def Cpu.ld_a_c (s : Cpu) : Cpu :=
  let s := { s with register_a := s.register_c }
  let s := s.advance_program_counter 1
  s.update_cycles 4

/-- Opcode handler `ld_a_d`. -/
def Cpu.ld_a_d (s : Cpu) : Cpu :=
  let s := { s with register_a := s.register_d }
  let s := s.advance_program_counter 1
  s.update_cycles 4

/-- Opcode handler `ld_a_e`. -/
def Cpu.ld_a_e (s : Cpu) : Cpu :=
  let s := { s with register_a := s.register_e }
  let s := s.advance_program_counter 1
  s.update_cycles 4

/-- Opcode handler `ld_a_h`. -/
def Cpu.ld_a_h (s : Cpu) : Cpu :=
  let s := { s with register_a := s.register_h }
  let s := s.advance_program_counter 1
  s.update_cycles 4

/-- Opcode handler `ld_a_l`. -/
def Cpu.ld_a_l (s : Cpu) : Cpu :=
  let s := { s with register_a := s.register_l }
  let s := s.advance_program_counter 1
  s.update_cycles 4

/-- Opcode handler `ld_a_hl_ptr`. -/
def Cpu.ld_a_hl_ptr (s : Cpu) : Cpu :=
  let addr := s.register_concat s.register_h s.register_l
  let s := { s with register_a := s.read_u8 addr }
  let s := s.advance_program_counter 1
  s.update_cycles 8

/-- Opcode handler `ld_a_a`. -/
def Cpu.ld_a_a (s : Cpu) : Cpu :=
  let s := { s with register_a := s.register_a }
  let s := s.advance_program_counter 1
  s.update_cycles 4

/-- Opcode handler `add_a_b`. -/
def Cpu.add_a_b (s : Cpu) : Cpu :=
  let p := s.add s.register_a s.register_b
  let s := { p.1 with register_a := p.2 }
  let s := s.advance_program_counter 1
  s.update_cycles 4

/-- Opcode handler `add_a_c`. -/
def Cpu.add_a_c (s : Cpu) : Cpu :=
  let p := s.add s.register_a s.register_c
  let s := { p.1 with register_a := p.2 }
  let s := s.advance_program_counter 1
  s.update_cycles 4

/-- Opcode handler `add_a_d`. -/
def Cpu.add_a_d (s : Cpu) : Cpu :=
  let p := s.add s.register_a s.register_d
  let s := { p.1 with register_a := p.2 }
  let s := s.advance_program_counter 1
  s.update_cycles 4

/-- Opcode handler `add_a_e`. -/
def Cpu.add_a_e (s : Cpu) : Cpu :=
  let p := s.add s.register_a s.register_e
  let s := { p.1 with register_a := p.2 }
  let s := s.advance_program_counter 1
  s.update_cycles 4

/-- Opcode handler `add_a_h`. -/
def Cpu.add_a_h (s : Cpu) : Cpu :=
  let p := s.add s.register_a s.register_h
  let s := { p.1 with register_a := p.2 }
  let s := s.advance_program_counter 1
  s.update_cycles 4

/-- Opcode handler `add_a_l`. -/
def Cpu.add_a_l (s : Cpu) : Cpu :=
  let p := s.add s.register_a s.register_l
  let s := { p.1 with register_a := p.2 }
  let s := s.advance_program_counter 1
  s.update_cycles 4

/-- Opcode handler `add_a_a`. -/
def Cpu.add_a_a (s : Cpu) : Cpu :=
  let p := s.add s.register_a s.register_a
  let s := { p.1 with register_a := p.2 }
  let s := s.advance_program_counter 1
  s.update_cycles 4

/-- Opcode handler `add_a_hl_ptr`. -/
def Cpu.add_a_hl_ptr (s : Cpu) : Cpu :=
  let addr := s.register_concat s.register_h s.register_l
  let valor := s.read_u8 addr
  let p := s.add s.register_a valor
  let s := { p.1 with register_a := p.2 }
  let s := s.advance_program_counter 1
  s.update_cycles 8

/-- Opcode handler `adc_a_b`. -/
def Cpu.adc_a_b (s : Cpu) : Cpu :=
  let p := s.adc s.register_a s.register_b
  let s := { p.1 with register_a := p.2 }
  let s := s.advance_program_counter 1
  s.update_cycles 4

/-- Opcode handler `adc_a_c`. -/
def Cpu.adc_a_c (s : Cpu) : Cpu :=
  let p := s.adc s.register_a s.register_c
  let s := { p.1 with register_a := p.2 }
  let s := s.advance_program_counter 1
  s.update_cycles 4

/-- Opcode handler `adc_a_d`. -/
def Cpu.adc_a_d (s : Cpu) : Cpu :=
  let p := s.adc s.register_a s.register_d
  let s := { p.1 with register_a := p.2 }
  let s := s.advance_program_counter 1
  s.update_cycles 4

/-- Opcode handler `adc_a_e`. -/
def Cpu.adc_a_e (s : Cpu) : Cpu :=
  let p := s.adc s.register_a s.register_e
  let s := { p.1 with register_a := p.2 }
  let s := s.advance_program_counter 1
  s.update_cycles 4

/-- Opcode handler `adc_a_h`. -/
def Cpu.adc_a_h (s : Cpu) : Cpu :=
  let p := s.adc s.register_a s.register_h
  let s := { p.1 with register_a := p.2 }
  let s := s.advance_program_counter 1
  s.update_cycles 4

/-- Opcode handler `adc_a_l`. -/
def Cpu.adc_a_l (s : Cpu) : Cpu :=
  let p := s.adc s.register_a s.register_l
  let s := { p.1 with register_a := p.2 }
  let s := s.advance_program_counter 1
  s.update_cycles 4

/-- Opcode handler `adc_a_a`. -/
def Cpu.adc_a_a (s : Cpu) : Cpu :=
  let p := s.adc s.register_a s.register_a
  let s := { p.1 with register_a := p.2 }
  let s := s.advance_program_counter 1
  s.update_cycles 4

/-- Opcode handler `adc_a_hl_ptr`. -/
def Cpu.adc_a_hl_ptr (s : Cpu) : Cpu :=
  let addr := s.register_concat s.register_h s.register_l
  let valor := s.read_u8 addr
  let p := s.adc s.register_a valor
  let s := { p.1 with register_a := p.2 }
  let s := s.advance_program_counter 1
  s.update_cycles 8

/-- Opcode handler `sub_a_b`. -/
def Cpu.sub_a_b (s : Cpu) : Cpu :=
  let p := s.sub s.register_a s.register_b
  let s := { p.1 with register_a := p.2 }
  let s := s.advance_program_counter 1
  s.update_cycles 4

/-- Opcode handler `sub_a_c`. -/
def Cpu.sub_a_c (s : Cpu) : Cpu :=
  let p := s.sub s.register_a s.register_c
  let s := { p.1 with register_a := p.2 }
  let s := s.advance_program_counter 1
  s.update_cycles 4

/-- Opcode handler `sub_a_d`. -/
def Cpu.sub_a_d (s : Cpu) : Cpu :=
  let p := s.sub s.register_a s.register_d
  let s := { p.1 with register_a := p.2 }
  let s := s.advance_program_counter 1
  s.update_cycles 4

/-- Opcode handler `sub_a_e`. -/
def Cpu.sub_a_e (s : Cpu) : Cpu :=
  let p := s.sub s.register_a s.register_e
  let s := { p.1 with register_a := p.2 }
  let s := s.advance_program_counter 1
  s.update_cycles 4

/-- Opcode handler `sub_a_h`. -/
def Cpu.sub_a_h (s : Cpu) : Cpu :=
  let p := s.sub s.register_a s.register_h
  let s := { p.1 with register_a := p.2 }
  let s := s.advance_program_counter 1
  s.update_cycles 4

/-- Opcode handler `sub_a_l`. -/
def Cpu.sub_a_l (s : Cpu) : Cpu :=
  let p := s.sub s.register_a s.register_l
  let s := { p.1 with register_a := p.2 }
  let s := s.advance_program_counter 1
  s.update_cycles 4

/-- Opcode handler `sub_a_a`. -/
def Cpu.sub_a_a (s : Cpu) : Cpu :=
  let p := s.sub s.register_a s.register_a
  let s := { p.1 with register_a := p.2 }
  let s := s.advance_program_counter 1
  s.update_cycles 4

/-- Opcode handler `sub_a_hl_ptr`. -/
def Cpu.sub_a_hl_ptr (s : Cpu) : Cpu :=
  let addr := s.register_concat s.register_h s.register_l
  let valor := s.read_u8 addr
  let p := s.sub s.register_a valor
  let s := { p.1 with register_a := p.2 }
  let s := s.advance_program_counter 1
  s.update_cycles 8

/-- Opcode handler `sbc_a_b`. -/
def Cpu.sbc_a_b (s : Cpu) : Cpu :=
  let p := s.sbc s.register_a s.register_b
  let s := { p.1 with register_a := p.2 }
  let s := s.advance_program_counter 1
  s.update_cycles 4

/-- Opcode handler `sbc_a_c`. -/
def Cpu.sbc_a_c (s : Cpu) : Cpu :=
  let p := s.sbc s.register_a s.register_c
  let s := { p.1 with register_a := p.2 }
  let s := s.advance_program_counter 1
  s.update_cycles 4

/-- Opcode handler `sbc_a_d`. -/
def Cpu.sbc_a_d (s : Cpu) : Cpu :=
  let p := s.sbc s.register_a s.register_d
  let s := { p.1 with register_a := p.2 }
  let s := s.advance_program_counter 1
  s.update_cycles 4

/-- Opcode handler `sbc_a_e`. -/
def Cpu.sbc_a_e (s : Cpu) : Cpu :=
  let p := s.sbc s.register_a s.register_e
  let s := { p.1 with register_a := p.2 }
  let s := s.advance_program_counter 1
  s.update_cycles 4

/-- Opcode handler `sbc_a_h`. -/
def Cpu.sbc_a_h (s : Cpu) : Cpu :=
  let p := s.sbc s.register_a s.register_h
  let s := { p.1 with register_a := p.2 }
  let s := s.advance_program_counter 1
  s.update_cycles 4

/-- Opcode handler `sbc_a_l`. -/
def Cpu.sbc_a_l (s : Cpu) : Cpu :=
  let p := s.sbc s.register_a s.register_l
  let s := { p.1 with register_a := p.2 }
  let s := s.advance_program_counter 1
  s.update_cycles 4

/-- Opcode handler `sbc_a_a`. -/
def Cpu.sbc_a_a (s : Cpu) : Cpu :=
  let p := s.sbc s.register_a s.register_a
  let s := { p.1 with register_a := p.2 }
  let s := s.advance_program_counter 1
  s.update_cycles 4

/-- Opcode handler `sbc_a_hl_ptr`. -/
def Cpu.sbc_a_hl_ptr (s : Cpu) : Cpu :=
  let addr := s.register_concat s.register_h s.register_l
  let valor := s.read_u8 addr
  let p := s.sbc s.register_a valor
  let s := { p.1 with register_a := p.2 }
  let s := s.advance_program_counter 1
  s.update_cycles 8

/-- Opcode handler `and_a_b`. -/
def Cpu.and_a_b (s : Cpu) : Cpu :=
  let p := s.and_ s.register_a s.register_b
  let s := { p.1 with register_a := p.2 }
  let s := s.advance_program_counter 1
  s.update_cycles 4

/-- Opcode handler `and_a_c`. -/
def Cpu.and_a_c (s : Cpu) : Cpu :=
  let p := s.and_ s.register_a s.register_c
  let s := { p.1 with register_a := p.2 }
  let s := s.advance_program_counter 1
  s.update_cycles 4

/-- Opcode handler `and_a_d`. -/
def Cpu.and_a_d (s : Cpu) : Cpu :=
  let p := s.and_ s.register_a s.register_d
  let s := { p.1 with register_a := p.2 }
  let s := s.advance_program_counter 1
  s.update_cycles 4

/-- Opcode handler `and_a_e`. -/
def Cpu.and_a_e (s : Cpu) : Cpu :=
  let p := s.and_ s.register_a s.register_e
  let s := { p.1 with register_a := p.2 }
  let s := s.advance_program_counter 1
  s.update_cycles 4

/-- Opcode handler `and_a_h`. -/
def Cpu.and_a_h (s : Cpu) : Cpu :=
  let p := s.and_ s.register_a s.register_h
  let s := { p.1 with register_a := p.2 }
  let s := s.advance_program_counter 1
  s.update_cycles 4

/-- Opcode handler `and_a_l`. -/
def Cpu.and_a_l (s : Cpu) : Cpu :=
  let p := s.and_ s.register_a s.register_l
  let s := { p.1 with register_a := p.2 }
  let s := s.advance_program_counter 1
  s.update_cycles 4

/-- Opcode handler `and_a_a`. -/
def Cpu.and_a_a (s : Cpu) : Cpu :=
  let p := s.and_ s.register_a s.register_a
  let s := { p.1 with register_a := p.2 }
  let s := s.advance_program_counter 1
  s.update_cycles 4

/-- Opcode handler `and_a_hl_ptr`. -/
def Cpu.and_a_hl_ptr (s : Cpu) : Cpu :=
  let addr := s.register_concat s.register_h s.register_l
  let valor := s.read_u8 addr
  let p := s.and_ s.register_a valor
  let s := { p.1 with register_a := p.2 }
  let s := s.advance_program_counter 1
  s.update_cycles 8

/-- Opcode handler `xor_a_b`. -/
def Cpu.xor_a_b (s : Cpu) : Cpu :=
  let p := s.xor s.register_a s.register_b
  let s := { p.1 with register_a := p.2 }
  let s := s.advance_program_counter 1
  s.update_cycles 4

/-- Opcode handler `xor_a_c`. -/
def Cpu.xor_a_c (s : Cpu) : Cpu :=
  let p := s.xor s.register_a s.register_c
  let s := { p.1 with register_a := p.2 }
  let s := s.advance_program_counter 1
  s.update_cycles 4

/-- Opcode handler `xor_a_d`. -/
def Cpu.xor_a_d (s : Cpu) : Cpu :=
  let p := s.xor s.register_a s.register_d
  let s := { p.1 with register_a := p.2 }
  let s := s.advance_program_counter 1
  s.update_cycles 4

/-- Opcode handler `xor_a_e`. -/
def Cpu.xor_a_e (s : Cpu) : Cpu :=
  let p := s.xor s.register_a s.register_e
  let s := { p.1 with register_a := p.2 }
  let s := s.advance_program_counter 1
  s.update_cycles 4

/-- Opcode handler `xor_a_h`. -/
def Cpu.xor_a_h (s : Cpu) : Cpu :=
  let p := s.xor s.register_a s.register_h
  let s := { p.1 with register_a := p.2 }
  let s := s.advance_program_counter 1
  s.update_cycles 4

/-- Opcode handler `xor_a_l`. -/
def Cpu.xor_a_l (s : Cpu) : Cpu :=
  let p := s.xor s.register_a s.register_l
  let s := { p.1 with register_a := p.2 }
  let s := s.advance_program_counter 1
  s.update_cycles 4

/-- Opcode handler `xor_a_a`. -/
def Cpu.xor_a_a (s : Cpu) : Cpu :=
  let p := s.xor s.register_a s.register_a
  let s := { p.1 with register_a := p.2 }
  let s := s.advance_program_counter 1
  s.update_cycles 4

/-- Opcode handler `xor_a_hl_ptr`. -/
def Cpu.xor_a_hl_ptr (s : Cpu) : Cpu :=
  let addr := s.register_concat s.register_h s.register_l
  let valor := s.read_u8 addr
  let p := s.xor s.register_a valor
  let s := { p.1 with register_a := p.2 }
  let s := s.advance_program_counter 1
  s.update_cycles 8

/-- Opcode handler `or_a_b`. -/
def Cpu.or_a_b (s : Cpu) : Cpu :=
  let p := s.or_ s.register_a s.register_b
  let s := { p.1 with register_a := p.2 }
  let s := s.advance_program_counter 1
  s.update_cycles 4

/-- Opcode handler `or_a_c`. -/
def Cpu.or_a_c (s : Cpu) : Cpu :=
  let p := s.or_ s.register_a s.register_c
  let s := { p.1 with register_a := p.2 }
  let s := s.advance_program_counter 1
  s.update_cycles 4

/-- Opcode handler `or_a_d`. -/
def Cpu.or_a_d (s : Cpu) : Cpu :=
  let p := s.or_ s.register_a s.register_d
  let s := { p.1 with register_a := p.2 }
  let s := s.advance_program_counter 1
  s.update_cycles 4

/-- Opcode handler `or_a_e`. -/
def Cpu.or_a_e (s : Cpu) : Cpu :=
  let p := s.or_ s.register_a s.register_e
  let s := { p.1 with register_a := p.2 }
  let s := s.advance_program_counter 1
  s.update_cycles 4

/-- Opcode handler `or_a_h`. -/
def Cpu.or_a_h (s : Cpu) : Cpu :=
  let p := s.or_ s.register_a s.register_h
  let s := { p.1 with register_a := p.2 }
  let s := s.advance_program_counter 1
  s.update_cycles 4

/-- Opcode handler `or_a_l`. -/
def Cpu.or_a_l (s : Cpu) : Cpu :=
  let p := s.or_ s.register_a s.register_l
  let s := { p.1 with register_a := p.2 }
  let s := s.advance_program_counter 1
  s.update_cycles 4

/-- Opcode handler `or_a_a`. -/
def Cpu.or_a_a (s : Cpu) : Cpu :=
  let p := s.or_ s.register_a s.register_a
  let s := { p.1 with register_a := p.2 }
  let s := s.advance_program_counter 1
  s.update_cycles 4

/-- Opcode handler `or_a_hl_ptr`. -/
def Cpu.or_a_hl_ptr (s : Cpu) : Cpu :=
  let addr := s.register_concat s.register_h s.register_l
  let valor := s.read_u8 addr
  let p := s.or_ s.register_a valor
  let s := { p.1 with register_a := p.2 }
  let s := s.advance_program_counter 1
  s.update_cycles 8

/-- Opcode handler `cp_a_b`. -/
def Cpu.cp_a_b (s : Cpu) : Cpu :=
  let s := s.cp s.register_a s.register_b
  let s := s.advance_program_counter 1
  s.update_cycles 4

/-- Opcode handler `cp_a_c`. -/
def Cpu.cp_a_c (s : Cpu) : Cpu :=
  let s := s.cp s.register_a s.register_c
  let s := s.advance_program_counter 1
  s.update_cycles 4

/-- Opcode handler `cp_a_d`. -/
def Cpu.cp_a_d (s : Cpu) : Cpu :=
  let s := s.cp s.register_a s.register_d
  let s := s.advance_program_counter 1
  s.update_cycles 4

/-- Opcode handler `cp_a_e`. -/
def Cpu.cp_a_e (s : Cpu) : Cpu :=
  let s := s.cp s.register_a s.register_e
  let s := s.advance_program_counter 1
  s.update_cycles 4

/-- Opcode handler `cp_a_h`. -/
def Cpu.cp_a_h (s : Cpu) : Cpu :=
  let s := s.cp s.register_a s.register_h
  let s := s.advance_program_counter 1
  s.update_cycles 4

/-- Opcode handler `cp_a_l`. -/
def Cpu.cp_a_l (s : Cpu) : Cpu :=
  let s := s.cp s.register_a s.register_l
  let s := s.advance_program_counter 1
  s.update_cycles 4

/-- Opcode handler `cp_a_a`. -/
def Cpu.cp_a_a (s : Cpu) : Cpu :=
  let s := s.cp s.register_a s.register_a
  let s := s.advance_program_counter 1
  s.update_cycles 4

/-- Opcode handler `cp_a_hl_ptr`. -/
def Cpu.cp_a_hl_ptr (s : Cpu) : Cpu :=
  let addr := s.register_concat s.register_h s.register_l
  let valor := s.read_u8 addr
  let s := s.cp s.register_a valor
  let s := s.advance_program_counter 1
  s.update_cycles 8

/-- Opcode handler `inc_b` (8-bit register increment). -/
def Cpu.inc_b (s : Cpu) : Cpu :=
  let p := s.inc s.register_b
  let s := { p.1 with register_b := p.2 }
  let s := s.advance_program_counter 1
  s.update_cycles 4

/-- Opcode handler `dec_b` (8-bit register decrement). -/
def Cpu.dec_b (s : Cpu) : Cpu :=
  let p := s.dec s.register_b
  let s := { p.1 with register_b := p.2 }
  let s := s.advance_program_counter 1
  s.update_cycles 4

/-- Opcode handler `inc_c` (8-bit register increment). -/
def Cpu.inc_c (s : Cpu) : Cpu :=
  let p := s.inc s.register_c
  let s := { p.1 with register_c := p.2 }
  let s := s.advance_program_counter 1
  s.update_cycles 4

/-- Opcode handler `dec_c` (8-bit register decrement). -/
def Cpu.dec_c (s : Cpu) : Cpu :=
  let p := s.dec s.register_c
  let s := { p.1 with register_c := p.2 }
  let s := s.advance_program_counter 1
  s.update_cycles 4

/-- Opcode handler `inc_d` (8-bit register increment). -/
def Cpu.inc_d (s : Cpu) : Cpu :=
  let p := s.inc s.register_d
  let s := { p.1 with register_d := p.2 }
  let s := s.advance_program_counter 1
  s.update_cycles 4

/-- Opcode handler `dec_d` (8-bit register decrement). -/
def Cpu.dec_d (s : Cpu) : Cpu :=
  let p := s.dec s.register_d
  let s := { p.1 with register_d := p.2 }
  let s := s.advance_program_counter 1
  s.update_cycles 4

/-- Opcode handler `inc_e` (8-bit register increment). -/
def Cpu.inc_e (s : Cpu) : Cpu :=
  let p := s.inc s.register_e
  let s := { p.1 with register_e := p.2 }
  let s := s.advance_program_counter 1
  s.update_cycles 4

/-- Opcode handler `dec_e` (8-bit register decrement). -/
def Cpu.dec_e (s : Cpu) : Cpu :=
  let p := s.dec s.register_e
  let s := { p.1 with register_e := p.2 }
  let s := s.advance_program_counter 1
  s.update_cycles 4

/-- Opcode handler `inc_h` (8-bit register increment). -/
def Cpu.inc_h (s : Cpu) : Cpu :=
  let p := s.inc s.register_h
  let s := { p.1 with register_h := p.2 }
  let s := s.advance_program_counter 1
  s.update_cycles 4

/-- Opcode handler `dec_h` (8-bit register decrement). -/
def Cpu.dec_h (s : Cpu) : Cpu :=
  let p := s.dec s.register_h
  let s := { p.1 with register_h := p.2 }
  let s := s.advance_program_counter 1
  s.update_cycles 4

/-- Opcode handler `inc_l` (8-bit register increment). -/
def Cpu.inc_l (s : Cpu) : Cpu :=
  let p := s.inc s.register_l
  let s := { p.1 with register_l := p.2 }
  let s := s.advance_program_counter 1
  s.update_cycles 4

/-- Opcode handler `dec_l` (8-bit register decrement). -/
def Cpu.dec_l (s : Cpu) : Cpu :=
  let p := s.dec s.register_l
  let s := { p.1 with register_l := p.2 }
  let s := s.advance_program_counter 1
  s.update_cycles 4

/-- Opcode handler `inc_a` (8-bit register increment). -/
def Cpu.inc_a (s : Cpu) : Cpu :=
  let p := s.inc s.register_a
  let s := { p.1 with register_a := p.2 }
  let s := s.advance_program_counter 1
  s.update_cycles 4

/-- Opcode handler `dec_a` (8-bit register decrement). -/
def Cpu.dec_a (s : Cpu) : Cpu :=
  let p := s.dec s.register_a
  let s := { p.1 with register_a := p.2 }
  let s := s.advance_program_counter 1
  s.update_cycles 4

/-- Opcode handler `ld_b_u8` (load immediate). -/
def Cpu.ld_b_u8 (s : Cpu) : Cpu :=
  let s := { s with register_b := s.read_u8 (wrap16 (s.program_counter + 1)) }
  let s := s.advance_program_counter 2
  s.update_cycles 8

/-- Opcode handler `ld_c_u8` (load immediate). -/
def Cpu.ld_c_u8 (s : Cpu) : Cpu :=
  let s := { s with register_c := s.read_u8 (wrap16 (s.program_counter + 1)) }
  let s := s.advance_program_counter 2
  s.update_cycles 8

/-- Opcode handler `ld_d_u8` (load immediate). -/
def Cpu.ld_d_u8 (s : Cpu) : Cpu :=
  let s := { s with register_d := s.read_u8 (wrap16 (s.program_counter + 1)) }
  let s := s.advance_program_counter 2
  s.update_cycles 8

/-- Opcode handler `ld_e_u8` (load immediate). -/
def Cpu.ld_e_u8 (s : Cpu) : Cpu :=
  let s := { s with register_e := s.read_u8 (wrap16 (s.program_counter + 1)) }
  let s := s.advance_program_counter 2
  s.update_cycles 8

/-- Opcode handler `ld_h_u8` (load immediate). -/
def Cpu.ld_h_u8 (s : Cpu) : Cpu :=
  let s := { s with register_h := s.read_u8 (wrap16 (s.program_counter + 1)) }
  let s := s.advance_program_counter 2
  s.update_cycles 8

/-- Opcode handler `ld_l_u8` (load immediate). -/
def Cpu.ld_l_u8 (s : Cpu) : Cpu :=
  let s := { s with register_l := s.read_u8 (wrap16 (s.program_counter + 1)) }
  let s := s.advance_program_counter 2
  s.update_cycles 8

/-- Opcode handler `ld_a_u8` (load immediate). -/
def Cpu.ld_a_u8 (s : Cpu) : Cpu :=
  let s := { s with register_a := s.read_u8 (wrap16 (s.program_counter + 1)) }
  let s := s.advance_program_counter 2
  s.update_cycles 8

/-- CB handler `rlc_b`. -/
def Cpu.rlc_b (s : Cpu) : Cpu :=
  let p := s.rlc s.register_b
  let s := { p.1 with register_b := p.2 }
  let s := s.advance_program_counter 2
  s.update_cycles 8

/-- CB handler `rlc_c`. -/
def Cpu.rlc_c (s : Cpu) : Cpu :=
  let p := s.rlc s.register_c
  let s := { p.1 with register_c := p.2 }
  let s := s.advance_program_counter 2
  s.update_cycles 8

/-- CB handler `rlc_d`. -/
def Cpu.rlc_d (s : Cpu) : Cpu :=
  let p := s.rlc s.register_d
  let s := { p.1 with register_d := p.2 }
  let s := s.advance_program_counter 2
  s.update_cycles 8

/-- CB handler `rlc_e`. -/
def Cpu.rlc_e (s : Cpu) : Cpu :=
  let p := s.rlc s.register_e
  let s := { p.1 with register_e := p.2 }
  let s := s.advance_program_counter 2
  s.update_cycles 8

/-- CB handler `rlc_h`. -/
def Cpu.rlc_h (s : Cpu) : Cpu :=
  let p := s.rlc s.register_h
  let s := { p.1 with register_h := p.2 }
  let s := s.advance_program_counter 2
  s.update_cycles 8

/-- CB handler `rlc_l`. -/
def Cpu.rlc_l (s : Cpu) : Cpu :=
  let p := s.rlc s.register_l
  let s := { p.1 with register_l := p.2 }
  let s := s.advance_program_counter 2
  s.update_cycles 8

/-- CB handler `rlc_a`. -/
def Cpu.rlc_a (s : Cpu) : Cpu :=
  let p := s.rlc s.register_a
  let s := { p.1 with register_a := p.2 }
  let s := s.advance_program_counter 2
  s.update_cycles 8

/-- CB handler `rlc_hl_ptr`. -/
def Cpu.rlc_hl_ptr (s : Cpu) : Cpu :=
  let addr := s.register_concat s.register_h s.register_l
  let value := s.read_u8 addr
  let p := s.rlc value
  let s := p.1.write_u8 addr p.2
  let s := s.advance_program_counter 2
  s.update_cycles 16

/-- CB handler `rrc_b`. -/
def Cpu.rrc_b (s : Cpu) : Cpu :=
  let p := s.rrc s.register_b
  let s := { p.1 with register_b := p.2 }
  let s := s.advance_program_counter 2
  s.update_cycles 8

/-- CB handler `rrc_c`. -/
def Cpu.rrc_c (s : Cpu) : Cpu :=
  let p := s.rrc s.register_c
  let s := { p.1 with register_c := p.2 }
  let s := s.advance_program_counter 2
  s.update_cycles 8

/-- CB handler `rrc_d`. -/
def Cpu.rrc_d (s : Cpu) : Cpu :=
  let p := s.rrc s.register_d
  let s := { p.1 with register_d := p.2 }
  let s := s.advance_program_counter 2
  s.update_cycles 8

/-- CB handler `rrc_e`. -/
def Cpu.rrc_e (s : Cpu) : Cpu :=
  let p := s.rrc s.register_e
  let s := { p.1 with register_e := p.2 }
  let s := s.advance_program_counter 2
  s.update_cycles 8

/-- CB handler `rrc_h`. -/
def Cpu.rrc_h (s : Cpu) : Cpu :=
  let p := s.rrc s.register_h
  let s := { p.1 with register_h := p.2 }
  let s := s.advance_program_counter 2
  s.update_cycles 8

/-- CB handler `rrc_l`. -/
def Cpu.rrc_l (s : Cpu) : Cpu :=
  let p := s.rrc s.register_l
  let s := { p.1 with register_l := p.2 }
  let s := s.advance_program_counter 2
  s.update_cycles 8

/-- CB handler `rrc_a`. -/
def Cpu.rrc_a (s : Cpu) : Cpu :=
  let p := s.rrc s.register_a
  let s := { p.1 with register_a := p.2 }
  let s := s.advance_program_counter 2
  s.update_cycles 8

/-- CB handler `rrc_hl_ptr`. -/
def Cpu.rrc_hl_ptr (s : Cpu) : Cpu :=
  let addr := s.register_concat s.register_h s.register_l
  let value := s.read_u8 addr
  let p := s.rrc value
  let s := p.1.write_u8 addr p.2
  let s := s.advance_program_counter 2
  s.update_cycles 16

/-- CB handler `rl_b`. -/
def Cpu.rl_b (s : Cpu) : Cpu :=
  let p := s.rl s.register_b
  let s := { p.1 with register_b := p.2 }
  let s := s.advance_program_counter 2
  s.update_cycles 8

/-- CB handler `rl_c`. -/
def Cpu.rl_c (s : Cpu) : Cpu :=
  let p := s.rl s.register_c
  let s := { p.1 with register_c := p.2 }
  let s := s.advance_program_counter 2
  s.update_cycles 8

/-- CB handler `rl_d`. -/
def Cpu.rl_d (s : Cpu) : Cpu :=
  let p := s.rl s.register_d
  let s := { p.1 with register_d := p.2 }
  let s := s.advance_program_counter 2
  s.update_cycles 8

/-- CB handler `rl_e`. -/
def Cpu.rl_e (s : Cpu) : Cpu :=
  let p := s.rl s.register_e
  let s := { p.1 with register_e := p.2 }
  let s := s.advance_program_counter 2
  s.update_cycles 8

/-- CB handler `rl_h`. -/
def Cpu.rl_h (s : Cpu) : Cpu :=
  let p := s.rl s.register_h
  let s := { p.1 with register_h := p.2 }
  let s := s.advance_program_counter 2
  s.update_cycles 8

/-- CB handler `rl_l`. -/
def Cpu.rl_l (s : Cpu) : Cpu :=
  let p := s.rl s.register_l
  let s := { p.1 with register_l := p.2 }
  let s := s.advance_program_counter 2
  s.update_cycles 8

/-- CB handler `rl_a`. -/
def Cpu.rl_a (s : Cpu) : Cpu :=
  let p := s.rl s.register_a
  let s := { p.1 with register_a := p.2 }
  let s := s.advance_program_counter 2
  s.update_cycles 8

/-- CB handler `rl_hl_ptr`. -/
def Cpu.rl_hl_ptr (s : Cpu) : Cpu :=
  let addr := s.register_concat s.register_h s.register_l
  let value := s.read_u8 addr
  let p := s.rl value
  let s := p.1.write_u8 addr p.2
  let s := s.advance_program_counter 2
  s.update_cycles 16

/-- CB handler `rr_b`. -/
def Cpu.rr_b (s : Cpu) : Cpu :=
  let p := s.rr s.register_b
  let s := { p.1 with register_b := p.2 }
  let s := s.advance_program_counter 2
  s.update_cycles 8

/-- CB handler `rr_c`. -/
def Cpu.rr_c (s : Cpu) : Cpu :=
  let p := s.rr s.register_c
  let s := { p.1 with register_c := p.2 }
  let s := s.advance_program_counter 2
  s.update_cycles 8

/-- CB handler `rr_d`. -/
def Cpu.rr_d (s : Cpu) : Cpu :=
  let p := s.rr s.register_d
  let s := { p.1 with register_d := p.2 }
  let s := s.advance_program_counter 2
  s.update_cycles 8

/-- CB handler `rr_e`. -/
def Cpu.rr_e (s : Cpu) : Cpu :=
  let p := s.rr s.register_e
  let s := { p.1 with register_e := p.2 }
  let s := s.advance_program_counter 2
  s.update_cycles 8

/-- CB handler `rr_h`. -/
def Cpu.rr_h (s : Cpu) : Cpu :=
  let p := s.rr s.register_h
  let s := { p.1 with register_h := p.2 }
  let s := s.advance_program_counter 2
  s.update_cycles 8

/-- CB handler `rr_l`. -/
def Cpu.rr_l (s : Cpu) : Cpu :=
  let p := s.rr s.register_l
  let s := { p.1 with register_l := p.2 }
  let s := s.advance_program_counter 2
  s.update_cycles 8

/-- CB handler `rr_a`. -/
def Cpu.rr_a (s : Cpu) : Cpu :=
  let p := s.rr s.register_a
  let s := { p.1 with register_a := p.2 }
  let s := s.advance_program_counter 2
  s.update_cycles 8

/-- CB handler `rr_hl_ptr`. -/
def Cpu.rr_hl_ptr (s : Cpu) : Cpu :=
  let addr := s.register_concat s.register_h s.register_l
  let value := s.read_u8 addr
  let p := s.rr value
  let s := p.1.write_u8 addr p.2
  let s := s.advance_program_counter 2
  s.update_cycles 16

/-- CB handler `sla_b`. -/
def Cpu.sla_b (s : Cpu) : Cpu :=
  let p := s.sla s.register_b
  let s := { p.1 with register_b := p.2 }
  let s := s.advance_program_counter 2
  s.update_cycles 8

/-- CB handler `sla_c`. -/
def Cpu.sla_c (s : Cpu) : Cpu :=
  let p := s.sla s.register_c
  let s := { p.1 with register_c := p.2 }
  let s := s.advance_program_counter 2
  s.update_cycles 8

/-- CB handler `sla_d`. -/
def Cpu.sla_d (s : Cpu) : Cpu :=
  let p := s.sla s.register_d
  let s := { p.1 with register_d := p.2 }
  let s := s.advance_program_counter 2
  s.update_cycles 8

/-- CB handler `sla_e`. -/
def Cpu.sla_e (s : Cpu) : Cpu :=
  let p := s.sla s.register_e
  let s := { p.1 with register_e := p.2 }
  let s := s.advance_program_counter 2
  s.update_cycles 8

/-- CB handler `sla_h`. -/
def Cpu.sla_h (s : Cpu) : Cpu :=
  let p := s.sla s.register_h
  let s := { p.1 with register_h := p.2 }
  let s := s.advance_program_counter 2
  s.update_cycles 8

/-- CB handler `sla_l`. -/
def Cpu.sla_l (s : Cpu) : Cpu :=
  let p := s.sla s.register_l
  let s := { p.1 with register_l := p.2 }
  let s := s.advance_program_counter 2
  s.update_cycles 8

/-- CB handler `sla_a`. -/
def Cpu.sla_a (s : Cpu) : Cpu :=
  let p := s.sla s.register_a
  let s := { p.1 with register_a := p.2 }
  let s := s.advance_program_counter 2
  s.update_cycles 8

/-- CB handler `sla_hl_ptr`. -/
def Cpu.sla_hl_ptr (s : Cpu) : Cpu :=
  let addr := s.register_concat s.register_h s.register_l
  let value := s.read_u8 addr
  let p := s.sla value
  let s := p.1.write_u8 addr p.2
  let s := s.advance_program_counter 2
  s.update_cycles 16

/-- CB handler `sra_b`. -/
def Cpu.sra_b (s : Cpu) : Cpu :=
  let p := s.sra s.register_b
  let s := { p.1 with register_b := p.2 }
  let s := s.advance_program_counter 2
  s.update_cycles 8

/-- CB handler `sra_c`. -/
def Cpu.sra_c (s : Cpu) : Cpu :=
  let p := s.sra s.register_c
  let s := { p.1 with register_c := p.2 }
  let s := s.advance_program_counter 2
  s.update_cycles 8

/-- CB handler `sra_d`. -/
def Cpu.sra_d (s : Cpu) : Cpu :=
  let p := s.sra s.register_d
  let s := { p.1 with register_d := p.2 }
  let s := s.advance_program_counter 2
  s.update_cycles 8

/-- CB handler `sra_e`. -/
def Cpu.sra_e (s : Cpu) : Cpu :=
  let p := s.sra s.register_e
  let s := { p.1 with register_e := p.2 }
  let s := s.advance_program_counter 2
  s.update_cycles 8

/-- CB handler `sra_h`. -/
def Cpu.sra_h (s : Cpu) : Cpu :=
  let p := s.sra s.register_h
  let s := { p.1 with register_h := p.2 }
  let s := s.advance_program_counter 2
  s.update_cycles 8

/-- CB handler `sra_l`. -/
def Cpu.sra_l (s : Cpu) : Cpu :=
  let p := s.sra s.register_l
  let s := { p.1 with register_l := p.2 }
  let s := s.advance_program_counter 2
  s.update_cycles 8

/-- CB handler `sra_a`. -/
def Cpu.sra_a (s : Cpu) : Cpu :=
  let p := s.sra s.register_a
  let s := { p.1 with register_a := p.2 }
  let s := s.advance_program_counter 2
  s.update_cycles 8

/-- CB handler `sra_hl_ptr`. -/
def Cpu.sra_hl_ptr (s : Cpu) : Cpu :=
  let addr := s.register_concat s.register_h s.register_l
  let value := s.read_u8 addr
  let p := s.sra value
  let s := p.1.write_u8 addr p.2
  let s := s.advance_program_counter 2
  s.update_cycles 16

/-- CB handler `swap_b`. -/
def Cpu.swap_b (s : Cpu) : Cpu :=
  let p := s.swap s.register_b
  let s := { p.1 with register_b := p.2 }
  let s := s.advance_program_counter 2
  s.update_cycles 8

/-- CB handler `swap_c`. -/
def Cpu.swap_c (s : Cpu) : Cpu :=
  let p := s.swap s.register_c
  let s := { p.1 with register_c := p.2 }
  let s := s.advance_program_counter 2
  s.update_cycles 8

/-- CB handler `swap_d`. -/
def Cpu.swap_d (s : Cpu) : Cpu :=
  let p := s.swap s.register_d
  let s := { p.1 with register_d := p.2 }
  let s := s.advance_program_counter 2
  s.update_cycles 8

/-- CB handler `swap_e`. -/
def Cpu.swap_e (s : Cpu) : Cpu :=
  let p := s.swap s.register_e
  let s := { p.1 with register_e := p.2 }
  let s := s.advance_program_counter 2
  s.update_cycles 8

/-- CB handler `swap_h`. -/
def Cpu.swap_h (s : Cpu) : Cpu :=
  let p := s.swap s.register_h
  let s := { p.1 with register_h := p.2 }
  let s := s.advance_program_counter 2
  s.update_cycles 8

/-- CB handler `swap_l`. -/
def Cpu.swap_l (s : Cpu) : Cpu :=
  let p := s.swap s.register_l
  let s := { p.1 with register_l := p.2 }
  let s := s.advance_program_counter 2
  s.update_cycles 8

/-- CB handler `swap_a`. -/
def Cpu.swap_a (s : Cpu) : Cpu :=
  let p := s.swap s.register_a
  let s := { p.1 with register_a := p.2 }
  let s := s.advance_program_counter 2
  s.update_cycles 8

/-- CB handler `swap_hl_ptr`. -/
def Cpu.swap_hl_ptr (s : Cpu) : Cpu :=
  let addr := s.register_concat s.register_h s.register_l
  let value := s.read_u8 addr
  let p := s.swap value
  let s := p.1.write_u8 addr p.2
  let s := s.advance_program_counter 2
  s.update_cycles 16

/-- CB handler `srl_b`. -/
def Cpu.srl_b (s : Cpu) : Cpu :=
  let p := s.srl s.register_b
  let s := { p.1 with register_b := p.2 }
  let s := s.advance_program_counter 2
  s.update_cycles 8

/-- CB handler `srl_c`. -/
def Cpu.srl_c (s : Cpu) : Cpu :=
  let p := s.srl s.register_c
  let s := { p.1 with register_c := p.2 }
  let s := s.advance_program_counter 2
  s.update_cycles 8

/-- CB handler `srl_d`. -/
def Cpu.srl_d (s : Cpu) : Cpu :=
  let p := s.srl s.register_d
  let s := { p.1 with register_d := p.2 }
  let s := s.advance_program_counter 2
  s.update_cycles 8

/-- CB handler `srl_e`. -/
def Cpu.srl_e (s : Cpu) : Cpu :=
  let p := s.srl s.register_e
  let s := { p.1 with register_e := p.2 }
  let s := s.advance_program_counter 2
  s.update_cycles 8

/-- CB handler `srl_h`. -/
def Cpu.srl_h (s : Cpu) : Cpu :=
  let p := s.srl s.register_h
  let s := { p.1 with register_h := p.2 }
  let s := s.advance_program_counter 2
  s.update_cycles 8

/-- CB handler `srl_l`. -/
def Cpu.srl_l (s : Cpu) : Cpu :=
  let p := s.srl s.register_l
  let s := { p.1 with register_l := p.2 }
  let s := s.advance_program_counter 2
  s.update_cycles 8

/-- CB handler `srl_a`. -/
def Cpu.srl_a (s : Cpu) : Cpu :=
  let p := s.srl s.register_a
  let s := { p.1 with register_a := p.2 }
  let s := s.advance_program_counter 2
  s.update_cycles 8

/-- CB handler `srl_hl_ptr`. -/
def Cpu.srl_hl_ptr (s : Cpu) : Cpu :=
  let addr := s.register_concat s.register_h s.register_l
  let value := s.read_u8 addr
  let p := s.srl value
  let s := p.1.write_u8 addr p.2
  let s := s.advance_program_counter 2
  s.update_cycles 16

/-- CB handler `bit_0_b`. -/
def Cpu.bit_0_b (s : Cpu) : Cpu :=
  let s := s.bit s.register_b 0
  let s := s.advance_program_counter 2
  s.update_cycles 8

/-- CB handler `bit_0_c`. -/
def Cpu.bit_0_c (s : Cpu) : Cpu :=
  let s := s.bit s.register_c 0
  let s := s.advance_program_counter 2
  s.update_cycles 8

/-- CB handler `bit_0_d`. -/
def Cpu.bit_0_d (s : Cpu) : Cpu :=
  let s := s.bit s.register_d 0
  let s := s.advance_program_counter 2
  s.update_cycles 8

/-- CB handler `bit_0_e`. -/
def Cpu.bit_0_e (s : Cpu) : Cpu :=
  let s := s.bit s.register_e 0
  let s := s.advance_program_counter 2
  s.update_cycles 8

/-- CB handler `bit_0_h`. -/
def Cpu.bit_0_h (s : Cpu) : Cpu :=
  let s := s.bit s.register_h 0
  let s := s.advance_program_counter 2
  s.update_cycles 8

/-- CB handler `bit_0_l`. -/
def Cpu.bit_0_l (s : Cpu) : Cpu :=
  let s := s.bit s.register_l 0
  let s := s.advance_program_counter 2
  s.update_cycles 8

/-- CB handler `bit_0_a`. -/
def Cpu.bit_0_a (s : Cpu) : Cpu :=
  let s := s.bit s.register_a 0
  let s := s.advance_program_counter 2
  s.update_cycles 8

/-- CB handler `bit_0_hl_ptr`. -/
def Cpu.bit_0_hl_ptr (s : Cpu) : Cpu :=
  let addr := s.register_concat s.register_h s.register_l
  let value := s.read_u8 addr
  let s := s.bit value 0
  let s := s.advance_program_counter 2
  s.update_cycles 16

/-- CB handler `bit_1_b`. -/
def Cpu.bit_1_b (s : Cpu) : Cpu :=
  let s := s.bit s.register_b 1
  let s := s.advance_program_counter 2
  s.update_cycles 8

/-- CB handler `bit_1_c`. -/
def Cpu.bit_1_c (s : Cpu) : Cpu :=
  let s := s.bit s.register_c 1
  let s := s.advance_program_counter 2
  s.update_cycles 8

/-- CB handler `bit_1_d`. -/
def Cpu.bit_1_d (s : Cpu) : Cpu :=
  let s := s.bit s.register_d 1
  let s := s.advance_program_counter 2
  s.update_cycles 8

/-- CB handler `bit_1_e`. -/
def Cpu.bit_1_e (s : Cpu) : Cpu :=
  let s := s.bit s.register_e 1
  let s := s.advance_program_counter 2
  s.update_cycles 8

/-- CB handler `bit_1_h`. -/
def Cpu.bit_1_h (s : Cpu) : Cpu :=
  let s := s.bit s.register_h 1
  let s := s.advance_program_counter 2
  s.update_cycles 8

/-- CB handler `bit_1_l`. -/
def Cpu.bit_1_l (s : Cpu) : Cpu :=
  let s := s.bit s.register_l 1
  let s := s.advance_program_counter 2
  s.update_cycles 8

/-- CB handler `bit_1_a`. -/
def Cpu.bit_1_a (s : Cpu) : Cpu :=
  let s := s.bit s.register_a 1
  let s := s.advance_program_counter 2
  s.update_cycles 8

/-- CB handler `bit_1_hl_ptr`. -/
def Cpu.bit_1_hl_ptr (s : Cpu) : Cpu :=
  let addr := s.register_concat s.register_h s.register_l
  let value := s.read_u8 addr
  let s := s.bit value 1
  let s := s.advance_program_counter 2
  s.update_cycles 16

/-- CB handler `bit_2_b`. -/
def Cpu.bit_2_b (s : Cpu) : Cpu :=
  let s := s.bit s.register_b 2
  let s := s.advance_program_counter 2
  s.update_cycles 8

/-- CB handler `bit_2_c`. -/
def Cpu.bit_2_c (s : Cpu) : Cpu :=
  let s := s.bit s.register_c 2
  let s := s.advance_program_counter 2
  s.update_cycles 8

/-- CB handler `bit_2_d`. -/
def Cpu.bit_2_d (s : Cpu) : Cpu :=
  let s := s.bit s.register_d 2
  let s := s.advance_program_counter 2
  s.update_cycles 8

/-- CB handler `bit_2_e`. -/
def Cpu.bit_2_e (s : Cpu) : Cpu :=
  let s := s.bit s.register_e 2
  let s := s.advance_program_counter 2
  s.update_cycles 8

/-- CB handler `bit_2_h`. -/
def Cpu.bit_2_h (s : Cpu) : Cpu :=
  let s := s.bit s.register_h 2
  let s := s.advance_program_counter 2
  s.update_cycles 8

/-- CB handler `bit_2_l`. -/
def Cpu.bit_2_l (s : Cpu) : Cpu :=
  let s := s.bit s.register_l 2
  let s := s.advance_program_counter 2
  s.update_cycles 8

/-- CB handler `bit_2_a`. -/
def Cpu.bit_2_a (s : Cpu) : Cpu :=
  let s := s.bit s.register_a 2
  let s := s.advance_program_counter 2
  s.update_cycles 8

/-- CB handler `bit_2_hl_ptr`. -/
def Cpu.bit_2_hl_ptr (s : Cpu) : Cpu :=
  let addr := s.register_concat s.register_h s.register_l
  let value := s.read_u8 addr
  let s := s.bit value 2
  let s := s.advance_program_counter 2
  s.update_cycles 16

/-- CB handler `bit_3_b`. -/
def Cpu.bit_3_b (s : Cpu) : Cpu :=
  let s := s.bit s.register_b 3
  let s := s.advance_program_counter 2
  s.update_cycles 8

/-- CB handler `bit_3_c`. -/
def Cpu.bit_3_c (s : Cpu) : Cpu :=
  let s := s.bit s.register_c 3
  let s := s.advance_program_counter 2
  s.update_cycles 8

/-- CB handler `bit_3_d`. -/
def Cpu.bit_3_d (s : Cpu) : Cpu :=
  let s := s.bit s.register_d 3
  let s := s.advance_program_counter 2
  s.update_cycles 8

/-- CB handler `bit_3_e`. -/
def Cpu.bit_3_e (s : Cpu) : Cpu :=
  let s := s.bit s.register_e 3
  let s := s.advance_program_counter 2
  s.update_cycles 8

/-- CB handler `bit_3_h`. -/
def Cpu.bit_3_h (s : Cpu) : Cpu :=
  let s := s.bit s.register_h 3
  let s := s.advance_program_counter 2
  s.update_cycles 8

/-- CB handler `bit_3_l`. -/
def Cpu.bit_3_l (s : Cpu) : Cpu :=
  let s := s.bit s.register_l 3
  let s := s.advance_program_counter 2
  s.update_cycles 8

/-- CB handler `bit_3_a`. -/
def Cpu.bit_3_a (s : Cpu) : Cpu :=
  let s := s.bit s.register_a 3
  let s := s.advance_program_counter 2
  s.update_cycles 8

/-- CB handler `bit_3_hl_ptr`. -/
def Cpu.bit_3_hl_ptr (s : Cpu) : Cpu :=
  let addr := s.register_concat s.register_h s.register_l
  let value := s.read_u8 addr
  let s := s.bit value 3
  let s := s.advance_program_counter 2
  s.update_cycles 16

/-- CB handler `bit_4_b`. -/
def Cpu.bit_4_b (s : Cpu) : Cpu :=
  let s := s.bit s.register_b 4
  let s := s.advance_program_counter 2
  s.update_cycles 8

/-- CB handler `bit_4_c`. -/
def Cpu.bit_4_c (s : Cpu) : Cpu :=
  let s := s.bit s.register_c 4
  let s := s.advance_program_counter 2
  s.update_cycles 8

/-- CB handler `bit_4_d`. -/
def Cpu.bit_4_d (s : Cpu) : Cpu :=
  let s := s.bit s.register_d 4
  let s := s.advance_program_counter 2
  s.update_cycles 8

/-- CB handler `bit_4_e`. -/
def Cpu.bit_4_e (s : Cpu) : Cpu :=
  let s := s.bit s.register_e 4
  let s := s.advance_program_counter 2
  s.update_cycles 8

/-- CB handler `bit_4_h`. -/
def Cpu.bit_4_h (s : Cpu) : Cpu :=
  let s := s.bit s.register_h 4
  let s := s.advance_program_counter 2
  s.update_cycles 8

/-- CB handler `bit_4_l`. -/
def Cpu.bit_4_l (s : Cpu) : Cpu :=
  let s := s.bit s.register_l 4
  let s := s.advance_program_counter 2
  s.update_cycles 8

/-- CB handler `bit_4_a`. -/
def Cpu.bit_4_a (s : Cpu) : Cpu :=
  let s := s.bit s.register_a 4
  let s := s.advance_program_counter 2
  s.update_cycles 8

/-- CB handler `bit_4_hl_ptr`. -/
def Cpu.bit_4_hl_ptr (s : Cpu) : Cpu :=
  let addr := s.register_concat s.register_h s.register_l
  let value := s.read_u8 addr
  let s := s.bit value 4
  let s := s.advance_program_counter 2
  s.update_cycles 16

/-- CB handler `bit_5_b`. -/
def Cpu.bit_5_b (s : Cpu) : Cpu :=
  let s := s.bit s.register_b 5
  let s := s.advance_program_counter 2
  s.update_cycles 8

/-- CB handler `bit_5_c`. -/
def Cpu.bit_5_c (s : Cpu) : Cpu :=
  let s := s.bit s.register_c 5
  let s := s.advance_program_counter 2
  s.update_cycles 8

/-- CB handler `bit_5_d`. -/
def Cpu.bit_5_d (s : Cpu) : Cpu :=
  let s := s.bit s.register_d 5
  let s := s.advance_program_counter 2
  s.update_cycles 8

/-- CB handler `bit_5_e`. -/
def Cpu.bit_5_e (s : Cpu) : Cpu :=
  let s := s.bit s.register_e 5
  let s := s.advance_program_counter 2
  s.update_cycles 8

/-- CB handler `bit_5_h`. -/
def Cpu.bit_5_h (s : Cpu) : Cpu :=
  let s := s.bit s.register_h 5
  let s := s.advance_program_counter 2
  s.update_cycles 8

/-- CB handler `bit_5_l`. -/
def Cpu.bit_5_l (s : Cpu) : Cpu :=
  let s := s.bit s.register_l 5
  let s := s.advance_program_counter 2
  s.update_cycles 8

/-- CB handler `bit_5_a`. -/
def Cpu.bit_5_a (s : Cpu) : Cpu :=
  let s := s.bit s.register_a 5
  let s := s.advance_program_counter 2
  s.update_cycles 8

/-- CB handler `bit_5_hl_ptr`. -/
def Cpu.bit_5_hl_ptr (s : Cpu) : Cpu :=
  let addr := s.register_concat s.register_h s.register_l
  let value := s.read_u8 addr
  let s := s.bit value 5
  let s := s.advance_program_counter 2
  s.update_cycles 16

/-- CB handler `bit_6_b`. -/
def Cpu.bit_6_b (s : Cpu) : Cpu :=
  let s := s.bit s.register_b 6
  let s := s.advance_program_counter 2
  s.update_cycles 8

/-- CB handler `bit_6_c`. -/
def Cpu.bit_6_c (s : Cpu) : Cpu :=
  let s := s.bit s.register_c 6
  let s := s.advance_program_counter 2
  s.update_cycles 8

/-- CB handler `bit_6_d`. -/
def Cpu.bit_6_d (s : Cpu) : Cpu :=
  let s := s.bit s.register_d 6
  let s := s.advance_program_counter 2
  s.update_cycles 8

/-- CB handler `bit_6_e`. -/
def Cpu.bit_6_e (s : Cpu) : Cpu :=
  let s := s.bit s.register_e 6
  let s := s.advance_program_counter 2
  s.update_cycles 8

/-- CB handler `bit_6_h`. -/
def Cpu.bit_6_h (s : Cpu) : Cpu :=
  let s := s.bit s.register_h 6
  let s := s.advance_program_counter 2
  s.update_cycles 8

/-- CB handler `bit_6_l`. -/
def Cpu.bit_6_l (s : Cpu) : Cpu :=
  let s := s.bit s.register_l 6
  let s := s.advance_program_counter 2
  s.update_cycles 8

/-- CB handler `bit_6_a`. -/
def Cpu.bit_6_a (s : Cpu) : Cpu :=
  let s := s.bit s.register_a 6
  let s := s.advance_program_counter 2
  s.update_cycles 8

/-- CB handler `bit_6_hl_ptr`. -/
def Cpu.bit_6_hl_ptr (s : Cpu) : Cpu :=
  let addr := s.register_concat s.register_h s.register_l
  let value := s.read_u8 addr
  let s := s.bit value 6
  let s := s.advance_program_counter 2
  s.update_cycles 16

/-- CB handler `bit_7_b`. -/
def Cpu.bit_7_b (s : Cpu) : Cpu :=
  let s := s.bit s.register_b 7
  let s := s.advance_program_counter 2
  s.update_cycles 8

/-- CB handler `bit_7_c`. -/
def Cpu.bit_7_c (s : Cpu) : Cpu :=
  let s := s.bit s.register_c 7
  let s := s.advance_program_counter 2
  s.update_cycles 8

/-- CB handler `bit_7_d`. -/
def Cpu.bit_7_d (s : Cpu) : Cpu :=
  let s := s.bit s.register_d 7
  let s := s.advance_program_counter 2
  s.update_cycles 8

/-- CB handler `bit_7_e`. -/
def Cpu.bit_7_e (s : Cpu) : Cpu :=
  let s := s.bit s.register_e 7
  let s := s.advance_program_counter 2
  s.update_cycles 8

/-- CB handler `bit_7_h`. -/
def Cpu.bit_7_h (s : Cpu) : Cpu :=
  let s := s.bit s.register_h 7
  let s := s.advance_program_counter 2
  s.update_cycles 8

/-- CB handler `bit_7_l`. -/
def Cpu.bit_7_l (s : Cpu) : Cpu :=
  let s := s.bit s.register_l 7
  let s := s.advance_program_counter 2
  s.update_cycles 8

/-- CB handler `bit_7_a`. -/
def Cpu.bit_7_a (s : Cpu) : Cpu :=
  let s := s.bit s.register_a 7
  let s := s.advance_program_counter 2
  s.update_cycles 8

/-- CB handler `bit_7_hl_ptr`. -/
def Cpu.bit_7_hl_ptr (s : Cpu) : Cpu :=
  let addr := s.register_concat s.register_h s.register_l
  let value := s.read_u8 addr
  let s := s.bit value 7
  let s := s.advance_program_counter 2
  s.update_cycles 16

/-- CB handler `res_0_b`. -/
def Cpu.res_0_b (s : Cpu) : Cpu :=
  let s := { s with register_b := s.res s.register_b 0 }
  let s := s.advance_program_counter 2
  s.update_cycles 8

/-- CB handler `res_0_c`. -/
def Cpu.res_0_c (s : Cpu) : Cpu :=
  let s := { s with register_c := s.res s.register_c 0 }
  let s := s.advance_program_counter 2
  s.update_cycles 8

/-- CB handler `res_0_d`. -/
def Cpu.res_0_d (s : Cpu) : Cpu :=
  let s := { s with register_d := s.res s.register_d 0 }
  let s := s.advance_program_counter 2
  s.update_cycles 8

/-- CB handler `res_0_e`. -/
def Cpu.res_0_e (s : Cpu) : Cpu :=
  let s := { s with register_e := s.res s.register_e 0 }
  let s := s.advance_program_counter 2
  s.update_cycles 8

/-- CB handler `res_0_h`. -/
def Cpu.res_0_h (s : Cpu) : Cpu :=
  let s := { s with register_h := s.res s.register_h 0 }
  let s := s.advance_program_counter 2
  s.update_cycles 8

/-- CB handler `res_0_l`. -/
def Cpu.res_0_l (s : Cpu) : Cpu :=
  let s := { s with register_l := s.res s.register_l 0 }
  let s := s.advance_program_counter 2
  s.update_cycles 8

/-- CB handler `res_0_a`. -/
def Cpu.res_0_a (s : Cpu) : Cpu :=
  let s := { s with register_a := s.res s.register_a 0 }
  let s := s.advance_program_counter 2
  s.update_cycles 8

/-- CB handler `res_0_hl_ptr`. -/
def Cpu.res_0_hl_ptr (s : Cpu) : Cpu :=
  let addr := s.register_concat s.register_h s.register_l
  let value := s.read_u8 addr
  let res_result := s.res value 0
  let s := s.write_u8 addr res_result
  let s := s.advance_program_counter 2
  s.update_cycles 16

/-- CB handler `res_1_b`. -/
def Cpu.res_1_b (s : Cpu) : Cpu :=
  let s := { s with register_b := s.res s.register_b 1 }
  let s := s.advance_program_counter 2
  s.update_cycles 8

/-- CB handler `res_1_c`. -/
def Cpu.res_1_c (s : Cpu) : Cpu :=
  let s := { s with register_c := s.res s.register_c 1 }
  let s := s.advance_program_counter 2
  s.update_cycles 8

/-- CB handler `res_1_d`. -/
def Cpu.res_1_d (s : Cpu) : Cpu :=
  let s := { s with register_d := s.res s.register_d 1 }
  let s := s.advance_program_counter 2
  s.update_cycles 8

/-- CB handler `res_1_e`. -/
def Cpu.res_1_e (s : Cpu) : Cpu :=
  let s := { s with register_e := s.res s.register_e 1 }
  let s := s.advance_program_counter 2
  s.update_cycles 8

/-- CB handler `res_1_h`. -/
def Cpu.res_1_h (s : Cpu) : Cpu :=
  let s := { s with register_h := s.res s.register_h 1 }
  let s := s.advance_program_counter 2
  s.update_cycles 8

/-- CB handler `res_1_l`. -/
def Cpu.res_1_l (s : Cpu) : Cpu :=
  let s := { s with register_l := s.res s.register_l 1 }
  let s := s.advance_program_counter 2
  s.update_cycles 8

/-- CB handler `res_1_a`. -/
def Cpu.res_1_a (s : Cpu) : Cpu :=
  let s := { s with register_a := s.res s.register_a 1 }
  let s := s.advance_program_counter 2
  s.update_cycles 8

/-- CB handler `res_1_hl_ptr`. -/
def Cpu.res_1_hl_ptr (s : Cpu) : Cpu :=
  let addr := s.register_concat s.register_h s.register_l
  let value := s.read_u8 addr
  let res_result := s.res value 1
  let s := s.write_u8 addr res_result
  let s := s.advance_program_counter 2
  s.update_cycles 16

/-- CB handler `res_2_b`. -/
def Cpu.res_2_b (s : Cpu) : Cpu :=
  let s := { s with register_b := s.res s.register_b 2 }
  let s := s.advance_program_counter 2
  s.update_cycles 8

/-- CB handler `res_2_c`. -/
def Cpu.res_2_c (s : Cpu) : Cpu :=
  let s := { s with register_c := s.res s.register_c 2 }
  let s := s.advance_program_counter 2
  s.update_cycles 8

/-- CB handler `res_2_d`. -/
def Cpu.res_2_d (s : Cpu) : Cpu :=
  let s := { s with register_d := s.res s.register_d 2 }
  let s := s.advance_program_counter 2
  s.update_cycles 8

/-- CB handler `res_2_e`. -/
def Cpu.res_2_e (s : Cpu) : Cpu :=
  let s := { s with register_e := s.res s.register_e 2 }
  let s := s.advance_program_counter 2
  s.update_cycles 8

/-- CB handler `res_2_h`. -/
def Cpu.res_2_h (s : Cpu) : Cpu :=
  let s := { s with register_h := s.res s.register_h 2 }
  let s := s.advance_program_counter 2
  s.update_cycles 8

/-- CB handler `res_2_l`. -/
def Cpu.res_2_l (s : Cpu) : Cpu :=
  let s := { s with register_l := s.res s.register_l 2 }
  let s := s.advance_program_counter 2
  s.update_cycles 8

/-- CB handler `res_2_a`. -/
def Cpu.res_2_a (s : Cpu) : Cpu :=
  let s := { s with register_a := s.res s.register_a 2 }
  let s := s.advance_program_counter 2
  s.update_cycles 8

/-- CB handler `res_2_hl_ptr`. -/
def Cpu.res_2_hl_ptr (s : Cpu) : Cpu :=
  let addr := s.register_concat s.register_h s.register_l
  let value := s.read_u8 addr
  let res_result := s.res value 2
  let s := s.write_u8 addr res_result
  let s := s.advance_program_counter 2
  s.update_cycles 16

/-- CB handler `res_3_b`. -/
def Cpu.res_3_b (s : Cpu) : Cpu :=
  let s := { s with register_b := s.res s.register_b 3 }
  let s := s.advance_program_counter 2
  s.update_cycles 8

/-- CB handler `res_3_c`. -/
def Cpu.res_3_c (s : Cpu) : Cpu :=
  let s := { s with register_c := s.res s.register_c 3 }
  let s := s.advance_program_counter 2
  s.update_cycles 8

/-- CB handler `res_3_d`. -/
def Cpu.res_3_d (s : Cpu) : Cpu :=
  let s := { s with register_d := s.res s.register_d 3 }
  let s := s.advance_program_counter 2
  s.update_cycles 8

/-- CB handler `res_3_e`. -/
def Cpu.res_3_e (s : Cpu) : Cpu :=
  let s := { s with register_e := s.res s.register_e 3 }
  let s := s.advance_program_counter 2
  s.update_cycles 8

/-- CB handler `res_3_h`. -/
def Cpu.res_3_h (s : Cpu) : Cpu :=
  let s := { s with register_h := s.res s.register_h 3 }
  let s := s.advance_program_counter 2
  s.update_cycles 8

/-- CB handler `res_3_l`. -/
def Cpu.res_3_l (s : Cpu) : Cpu :=
  let s := { s with register_l := s.res s.register_l 3 }
  let s := s.advance_program_counter 2
  s.update_cycles 8

/-- CB handler `res_3_a`. -/
def Cpu.res_3_a (s : Cpu) : Cpu :=
  let s := { s with register_a := s.res s.register_a 3 }
  let s := s.advance_program_counter 2
  s.update_cycles 8

/-- CB handler `res_3_hl_ptr`. -/
def Cpu.res_3_hl_ptr (s : Cpu) : Cpu :=
  let addr := s.register_concat s.register_h s.register_l
  let value := s.read_u8 addr
  let res_result := s.res value 3
  let s := s.write_u8 addr res_result
  let s := s.advance_program_counter 2
  s.update_cycles 16

/-- CB handler `res_4_b`. -/
def Cpu.res_4_b (s : Cpu) : Cpu :=
  let s := { s with register_b := s.res s.register_b 4 }
  let s := s.advance_program_counter 2
  s.update_cycles 8

/-- CB handler `res_4_c`. -/
def Cpu.res_4_c (s : Cpu) : Cpu :=
  let s := { s with register_c := s.res s.register_c 4 }
  let s := s.advance_program_counter 2
  s.update_cycles 8

/-- CB handler `res_4_d`. -/
def Cpu.res_4_d (s : Cpu) : Cpu :=
  let s := { s with register_d := s.res s.register_d 4 }
  let s := s.advance_program_counter 2
  s.update_cycles 8

/-- CB handler `res_4_e`. -/
def Cpu.res_4_e (s : Cpu) : Cpu :=
  let s := { s with register_e := s.res s.register_e 4 }
  let s := s.advance_program_counter 2
  s.update_cycles 8

/-- CB handler `res_4_h`. -/
def Cpu.res_4_h (s : Cpu) : Cpu :=
  let s := { s with register_h := s.res s.register_h 4 }
  let s := s.advance_program_counter 2
  s.update_cycles 8

/-- CB handler `res_4_l`. -/
def Cpu.res_4_l (s : Cpu) : Cpu :=
  let s := { s with register_l := s.res s.register_l 4 }
  let s := s.advance_program_counter 2
  s.update_cycles 8

/-- CB handler `res_4_a`. -/
def Cpu.res_4_a (s : Cpu) : Cpu :=
  let s := { s with register_a := s.res s.register_a 4 }
  let s := s.advance_program_counter 2
  s.update_cycles 8

/-- CB handler `res_4_hl_ptr`. -/
def Cpu.res_4_hl_ptr (s : Cpu) : Cpu :=
  let addr := s.register_concat s.register_h s.register_l
  let value := s.read_u8 addr
  let res_result := s.res value 4
  let s := s.write_u8 addr res_result
  let s := s.advance_program_counter 2
  s.update_cycles 16

/-- CB handler `res_5_b`. -/
def Cpu.res_5_b (s : Cpu) : Cpu :=
  let s := { s with register_b := s.res s.register_b 5 }
  let s := s.advance_program_counter 2
  s.update_cycles 8

/-- CB handler `res_5_c`. -/
def Cpu.res_5_c (s : Cpu) : Cpu :=
  let s := { s with register_c := s.res s.register_c 5 }
  let s := s.advance_program_counter 2
  s.update_cycles 8

/-- CB handler `res_5_d`. -/
def Cpu.res_5_d (s : Cpu) : Cpu :=
  let s := { s with register_d := s.res s.register_d 5 }
  let s := s.advance_program_counter 2
  s.update_cycles 8

/-- CB handler `res_5_e`. -/
def Cpu.res_5_e (s : Cpu) : Cpu :=
  let s := { s with register_e := s.res s.register_e 5 }
  let s := s.advance_program_counter 2
  s.update_cycles 8

/-- CB handler `res_5_h`. -/
def Cpu.res_5_h (s : Cpu) : Cpu :=
  let s := { s with register_h := s.res s.register_h 5 }
  let s := s.advance_program_counter 2
  s.update_cycles 8

/-- CB handler `res_5_l`. -/
def Cpu.res_5_l (s : Cpu) : Cpu :=
  let s := { s with register_l := s.res s.register_l 5 }
  let s := s.advance_program_counter 2
  s.update_cycles 8

/-- CB handler `res_5_a`. -/
def Cpu.res_5_a (s : Cpu) : Cpu :=
  let s := { s with register_a := s.res s.register_a 5 }
  let s := s.advance_program_counter 2
  s.update_cycles 8

/-- CB handler `res_5_hl_ptr`. -/
def Cpu.res_5_hl_ptr (s : Cpu) : Cpu :=
  let addr := s.register_concat s.register_h s.register_l
  let value := s.read_u8 addr
  let res_result := s.res value 5
  let s := s.write_u8 addr res_result
  let s := s.advance_program_counter 2
  s.update_cycles 16

/-- CB handler `res_6_b`. -/
def Cpu.res_6_b (s : Cpu) : Cpu :=
  let s := { s with register_b := s.res s.register_b 6 }
  let s := s.advance_program_counter 2
  s.update_cycles 8

/-- CB handler `res_6_c`. -/
def Cpu.res_6_c (s : Cpu) : Cpu :=
  let s := { s with register_c := s.res s.register_c 6 }
  let s := s.advance_program_counter 2
  s.update_cycles 8

/-- CB handler `res_6_d`. -/
def Cpu.res_6_d (s : Cpu) : Cpu :=
  let s := { s with register_d := s.res s.register_d 6 }
  let s := s.advance_program_counter 2
  s.update_cycles 8

/-- CB handler `res_6_e`. -/
def Cpu.res_6_e (s : Cpu) : Cpu :=
  let s := { s with register_e := s.res s.register_e 6 }
  let s := s.advance_program_counter 2
  s.update_cycles 8

/-- CB handler `res_6_h`. -/
def Cpu.res_6_h (s : Cpu) : Cpu :=
  let s := { s with register_h := s.res s.register_h 6 }
  let s := s.advance_program_counter 2
  s.update_cycles 8

/-- CB handler `res_6_l`. -/
def Cpu.res_6_l (s : Cpu) : Cpu :=
  let s := { s with register_l := s.res s.register_l 6 }
  let s := s.advance_program_counter 2
  s.update_cycles 8

/-- CB handler `res_6_a`. -/
def Cpu.res_6_a (s : Cpu) : Cpu :=
  let s := { s with register_a := s.res s.register_a 6 }
  let s := s.advance_program_counter 2
  s.update_cycles 8

/-- CB handler `res_6_hl_ptr`. -/
def Cpu.res_6_hl_ptr (s : Cpu) : Cpu :=
  let addr := s.register_concat s.register_h s.register_l
  let value := s.read_u8 addr
  let res_result := s.res value 6
  let s := s.write_u8 addr res_result
  let s := s.advance_program_counter 2
  s.update_cycles 16

/-- CB handler `res_7_b`. -/
def Cpu.res_7_b (s : Cpu) : Cpu :=
  let s := { s with register_b := s.res s.register_b 7 }
  let s := s.advance_program_counter 2
  s.update_cycles 8

/-- CB handler `res_7_c`. -/
def Cpu.res_7_c (s : Cpu) : Cpu :=
  let s := { s with register_c := s.res s.register_c 7 }
  let s := s.advance_program_counter 2
  s.update_cycles 8

/-- CB handler `res_7_d`. -/
def Cpu.res_7_d (s : Cpu) : Cpu :=
  let s := { s with register_d := s.res s.register_d 7 }
  let s := s.advance_program_counter 2
  s.update_cycles 8

/-- CB handler `res_7_e`. -/
def Cpu.res_7_e (s : Cpu) : Cpu :=
  let s := { s with register_e := s.res s.register_e 7 }
  let s := s.advance_program_counter 2
  s.update_cycles 8

/-- CB handler `res_7_h`. -/
def Cpu.res_7_h (s : Cpu) : Cpu :=
  let s := { s with register_h := s.res s.register_h 7 }
  let s := s.advance_program_counter 2
  s.update_cycles 8

/-- CB handler `res_7_l`. -/
def Cpu.res_7_l (s : Cpu) : Cpu :=
  let s := { s with register_l := s.res s.register_l 7 }
  let s := s.advance_program_counter 2
  s.update_cycles 8

/-- CB handler `res_7_a`. -/
def Cpu.res_7_a (s : Cpu) : Cpu :=
  let s := { s with register_a := s.res s.register_a 7 }
  let s := s.advance_program_counter 2
  s.update_cycles 8

/-- CB handler `res_7_hl_ptr`. -/
def Cpu.res_7_hl_ptr (s : Cpu) : Cpu :=
  let addr := s.register_concat s.register_h s.register_l
  let value := s.read_u8 addr
  let res_result := s.res value 7
  let s := s.write_u8 addr res_result
  let s := s.advance_program_counter 2
  s.update_cycles 16

/-- CB handler `set_0_b`. -/
def Cpu.set_0_b (s : Cpu) : Cpu :=
  let s := { s with register_b := s.set s.register_b 0 }
  let s := s.advance_program_counter 2
  s.update_cycles 8

/-- CB handler `set_0_c`. -/
def Cpu.set_0_c (s : Cpu) : Cpu :=
  let s := { s with register_c := s.set s.register_c 0 }
  let s := s.advance_program_counter 2
  s.update_cycles 8

/-- CB handler `set_0_d`. -/
def Cpu.set_0_d (s : Cpu) : Cpu :=
  let s := { s with register_d := s.set s.register_d 0 }
  let s := s.advance_program_counter 2
  s.update_cycles 8

/-- CB handler `set_0_e`. -/
def Cpu.set_0_e (s : Cpu) : Cpu :=
  let s := { s with register_e := s.set s.register_e 0 }
  let s := s.advance_program_counter 2
  s.update_cycles 8

/-- CB handler `set_0_h`. -/
def Cpu.set_0_h (s : Cpu) : Cpu :=
  let s := { s with register_h := s.set s.register_h 0 }
  let s := s.advance_program_counter 2
  s.update_cycles 8

/-- CB handler `set_0_l`. -/
def Cpu.set_0_l (s : Cpu) : Cpu :=
  let s := { s with register_l := s.set s.register_l 0 }
  let s := s.advance_program_counter 2
  s.update_cycles 8

/-- CB handler `set_0_a`. -/
def Cpu.set_0_a (s : Cpu) : Cpu :=
  let s := { s with register_a := s.set s.register_a 0 }
  let s := s.advance_program_counter 2
  s.update_cycles 8

/-- CB handler `set_0_hl_ptr`. -/
def Cpu.set_0_hl_ptr (s : Cpu) : Cpu :=
  let addr := s.register_concat s.register_h s.register_l
  let value := s.read_u8 addr
  let res_result := s.set value 0
  let s := s.write_u8 addr res_result
  let s := s.advance_program_counter 2
  s.update_cycles 16

/-- CB handler `set_1_b`. -/
def Cpu.set_1_b (s : Cpu) : Cpu :=
  let s := { s with register_b := s.set s.register_b 1 }
  let s := s.advance_program_counter 2
  s.update_cycles 8

/-- CB handler `set_1_c`. -/
def Cpu.set_1_c (s : Cpu) : Cpu :=
  let s := { s with register_c := s.set s.register_c 1 }
  let s := s.advance_program_counter 2
  s.update_cycles 8

/-- CB handler `set_1_d`. -/
def Cpu.set_1_d (s : Cpu) : Cpu :=
  let s := { s with register_d := s.set s.register_d 1 }
  let s := s.advance_program_counter 2
  s.update_cycles 8

/-- CB handler `set_1_e`. -/
def Cpu.set_1_e (s : Cpu) : Cpu :=
  let s := { s with register_e := s.set s.register_e 1 }
  let s := s.advance_program_counter 2
  s.update_cycles 8

/-- CB handler `set_1_h`. -/
def Cpu.set_1_h (s : Cpu) : Cpu :=
  let s := { s with register_h := s.set s.register_h 1 }
  let s := s.advance_program_counter 2
  s.update_cycles 8

/-- CB handler `set_1_l`. -/
def Cpu.set_1_l (s : Cpu) : Cpu :=
  let s := { s with register_l := s.set s.register_l 1 }
  let s := s.advance_program_counter 2
  s.update_cycles 8

/-- CB handler `set_1_a`. -/
def Cpu.set_1_a (s : Cpu) : Cpu :=
  let s := { s with register_a := s.set s.register_a 1 }
  let s := s.advance_program_counter 2
  s.update_cycles 8

/-- CB handler `set_1_hl_ptr`. -/
def Cpu.set_1_hl_ptr (s : Cpu) : Cpu :=
  let addr := s.register_concat s.register_h s.register_l
  let value := s.read_u8 addr
  let res_result := s.set value 1
  let s := s.write_u8 addr res_result
  let s := s.advance_program_counter 2
  s.update_cycles 16

/-- CB handler `set_2_b`. -/
def Cpu.set_2_b (s : Cpu) : Cpu :=
  let s := { s with register_b := s.set s.register_b 2 }
  let s := s.advance_program_counter 2
  s.update_cycles 8

/-- CB handler `set_2_c`. -/
def Cpu.set_2_c (s : Cpu) : Cpu :=
  let s := { s with register_c := s.set s.register_c 2 }
  let s := s.advance_program_counter 2
  s.update_cycles 8

/-- CB handler `set_2_d`. -/
def Cpu.set_2_d (s : Cpu) : Cpu :=
  let s := { s with register_d := s.set s.register_d 2 }
  let s := s.advance_program_counter 2
  s.update_cycles 8

/-- CB handler `set_2_e`. -/
def Cpu.set_2_e (s : Cpu) : Cpu :=
  let s := { s with register_e := s.set s.register_e 2 }
  let s := s.advance_program_counter 2
  s.update_cycles 8

/-- CB handler `set_2_h`. -/
def Cpu.set_2_h (s : Cpu) : Cpu :=
  let s := { s with register_h := s.set s.register_h 2 }
  let s := s.advance_program_counter 2
  s.update_cycles 8

/-- CB handler `set_2_l`. -/
def Cpu.set_2_l (s : Cpu) : Cpu :=
  let s := { s with register_l := s.set s.register_l 2 }
  let s := s.advance_program_counter 2
  s.update_cycles 8

/-- CB handler `set_2_a`. -/
def Cpu.set_2_a (s : Cpu) : Cpu :=
  let s := { s with register_a := s.set s.register_a 2 }
  let s := s.advance_program_counter 2
  s.update_cycles 8

/-- CB handler `set_2_hl_ptr`. -/
def Cpu.set_2_hl_ptr (s : Cpu) : Cpu :=
  let addr := s.register_concat s.register_h s.register_l
  let value := s.read_u8 addr
  let res_result := s.set value 2
  let s := s.write_u8 addr res_result
  let s := s.advance_program_counter 2
  s.update_cycles 16

/-- CB handler `set_3_b`. -/
def Cpu.set_3_b (s : Cpu) : Cpu :=
  let s := { s with register_b := s.set s.register_b 3 }
  let s := s.advance_program_counter 2
  s.update_cycles 8

/-- CB handler `set_3_c`. -/
def Cpu.set_3_c (s : Cpu) : Cpu :=
  let s := { s with register_c := s.set s.register_c 3 }
  let s := s.advance_program_counter 2
  s.update_cycles 8

/-- CB handler `set_3_d`. -/
def Cpu.set_3_d (s : Cpu) : Cpu :=
  let s := { s with register_d := s.set s.register_d 3 }
  let s := s.advance_program_counter 2
  s.update_cycles 8

/-- CB handler `set_3_e`. -/
def Cpu.set_3_e (s : Cpu) : Cpu :=
  let s := { s with register_e := s.set s.register_e 3 }
  let s := s.advance_program_counter 2
  s.update_cycles 8

/-- CB handler `set_3_h`. -/
def Cpu.set_3_h (s : Cpu) : Cpu :=
  let s := { s with register_h := s.set s.register_h 3 }
  let s := s.advance_program_counter 2
  s.update_cycles 8

/-- CB handler `set_3_l`. -/
def Cpu.set_3_l (s : Cpu) : Cpu :=
  let s := { s with register_l := s.set s.register_l 3 }
  let s := s.advance_program_counter 2
  s.update_cycles 8

/-- CB handler `set_3_a`. -/
def Cpu.set_3_a (s : Cpu) : Cpu :=
  let s := { s with register_a := s.set s.register_a 3 }
  let s := s.advance_program_counter 2
  s.update_cycles 8

/-- CB handler `set_3_hl_ptr`. -/
def Cpu.set_3_hl_ptr (s : Cpu) : Cpu :=
  let addr := s.register_concat s.register_h s.register_l
  let value := s.read_u8 addr
  let res_result := s.set value 3
  let s := s.write_u8 addr res_result
  let s := s.advance_program_counter 2
  s.update_cycles 16

/-- CB handler `set_4_b`. -/
def Cpu.set_4_b (s : Cpu) : Cpu :=
  let s := { s with register_b := s.set s.register_b 4 }
  let s := s.advance_program_counter 2
  s.update_cycles 8

/-- CB handler `set_4_c`. -/
def Cpu.set_4_c (s : Cpu) : Cpu :=
  let s := { s with register_c := s.set s.register_c 4 }
  let s := s.advance_program_counter 2
  s.update_cycles 8

/-- CB handler `set_4_d`. -/
def Cpu.set_4_d (s : Cpu) : Cpu :=
  let s := { s with register_d := s.set s.register_d 4 }
  let s := s.advance_program_counter 2
  s.update_cycles 8

/-- CB handler `set_4_e`. -/
def Cpu.set_4_e (s : Cpu) : Cpu :=
  let s := { s with register_e := s.set s.register_e 4 }
  let s := s.advance_program_counter 2
  s.update_cycles 8

/-- CB handler `set_4_h`. -/
def Cpu.set_4_h (s : Cpu) : Cpu :=
  let s := { s with register_h := s.set s.register_h 4 }
  let s := s.advance_program_counter 2
  s.update_cycles 8

/-- CB handler `set_4_l`. -/
def Cpu.set_4_l (s : Cpu) : Cpu :=
  let s := { s with register_l := s.set s.register_l 4 }
  let s := s.advance_program_counter 2
  s.update_cycles 8

/-- CB handler `set_4_a`. -/
def Cpu.set_4_a (s : Cpu) : Cpu :=
  let s := { s with register_a := s.set s.register_a 4 }
  let s := s.advance_program_counter 2
  s.update_cycles 8

/-- CB handler `set_4_hl_ptr`. -/
def Cpu.set_4_hl_ptr (s : Cpu) : Cpu :=
  let addr := s.register_concat s.register_h s.register_l
  let value := s.read_u8 addr
  let res_result := s.set value 4
  let s := s.write_u8 addr res_result
  let s := s.advance_program_counter 2
  s.update_cycles 16

/-- CB handler `set_5_b`. -/
def Cpu.set_5_b (s : Cpu) : Cpu :=
  let s := { s with register_b := s.set s.register_b 5 }
  let s := s.advance_program_counter 2
  s.update_cycles 8

/-- CB handler `set_5_c`. -/
def Cpu.set_5_c (s : Cpu) : Cpu :=
  let s := { s with register_c := s.set s.register_c 5 }
  let s := s.advance_program_counter 2
  s.update_cycles 8

/-- CB handler `set_5_d`. -/
def Cpu.set_5_d (s : Cpu) : Cpu :=
  let s := { s with register_d := s.set s.register_d 5 }
  let s := s.advance_program_counter 2
  s.update_cycles 8

/-- CB handler `set_5_e`. -/
def Cpu.set_5_e (s : Cpu) : Cpu :=
  let s := { s with register_e := s.set s.register_e 5 }
  let s := s.advance_program_counter 2
  s.update_cycles 8

/-- CB handler `set_5_h`. -/
def Cpu.set_5_h (s : Cpu) : Cpu :=
  let s := { s with register_h := s.set s.register_h 5 }
  let s := s.advance_program_counter 2
  s.update_cycles 8

/-- CB handler `set_5_l`. -/
def Cpu.set_5_l (s : Cpu) : Cpu :=
  let s := { s with register_l := s.set s.register_l 5 }
  let s := s.advance_program_counter 2
  s.update_cycles 8

/-- CB handler `set_5_a`. -/
def Cpu.set_5_a (s : Cpu) : Cpu :=
  let s := { s with register_a := s.set s.register_a 5 }
  let s := s.advance_program_counter 2
  s.update_cycles 8

/-- CB handler `set_5_hl_ptr`. -/
def Cpu.set_5_hl_ptr (s : Cpu) : Cpu :=
  let addr := s.register_concat s.register_h s.register_l
  let value := s.read_u8 addr
  let res_result := s.set value 5
  let s := s.write_u8 addr res_result
  let s := s.advance_program_counter 2
  s.update_cycles 16

/-- CB handler `set_6_b`. -/
def Cpu.set_6_b (s : Cpu) : Cpu :=
  let s := { s with register_b := s.set s.register_b 6 }
  let s := s.advance_program_counter 2
  s.update_cycles 8

/-- CB handler `set_6_c`. -/
def Cpu.set_6_c (s : Cpu) : Cpu :=
  let s := { s with register_c := s.set s.register_c 6 }
  let s := s.advance_program_counter 2
  s.update_cycles 8

/-- CB handler `set_6_d`. -/
def Cpu.set_6_d (s : Cpu) : Cpu :=
  let s := { s with register_d := s.set s.register_d 6 }
  let s := s.advance_program_counter 2
  s.update_cycles 8

/-- CB handler `set_6_e`. -/
def Cpu.set_6_e (s : Cpu) : Cpu :=
  let s := { s with register_e := s.set s.register_e 6 }
  let s := s.advance_program_counter 2
  s.update_cycles 8

/-- CB handler `set_6_h`. -/
def Cpu.set_6_h (s : Cpu) : Cpu :=
  let s := { s with register_h := s.set s.register_h 6 }
  let s := s.advance_program_counter 2
  s.update_cycles 8

/-- CB handler `set_6_l`. -/
def Cpu.set_6_l (s : Cpu) : Cpu :=
  let s := { s with register_l := s.set s.register_l 6 }
  let s := s.advance_program_counter 2
  s.update_cycles 8

/-- CB handler `set_6_a`. -/
def Cpu.set_6_a (s : Cpu) : Cpu :=
  let s := { s with register_a := s.set s.register_a 6 }
  let s := s.advance_program_counter 2
  s.update_cycles 8

/-- CB handler `set_6_hl_ptr`. -/
def Cpu.set_6_hl_ptr (s : Cpu) : Cpu :=
  let addr := s.register_concat s.register_h s.register_l
  let value := s.read_u8 addr
  let res_result := s.set value 6
  let s := s.write_u8 addr res_result
  let s := s.advance_program_counter 2
  s.update_cycles 16

/-- CB handler `set_7_b`. -/
def Cpu.set_7_b (s : Cpu) : Cpu :=
  let s := { s with register_b := s.set s.register_b 7 }
  let s := s.advance_program_counter 2
  s.update_cycles 8

/-- CB handler `set_7_c`. -/
def Cpu.set_7_c (s : Cpu) : Cpu :=
  let s := { s with register_c := s.set s.register_c 7 }
  let s := s.advance_program_counter 2
  s.update_cycles 8

/-- CB handler `set_7_d`. -/
def Cpu.set_7_d (s : Cpu) : Cpu :=
  let s := { s with register_d := s.set s.register_d 7 }
  let s := s.advance_program_counter 2
  s.update_cycles 8

/-- CB handler `set_7_e`. -/
def Cpu.set_7_e (s : Cpu) : Cpu :=
  let s := { s with register_e := s.set s.register_e 7 }
  let s := s.advance_program_counter 2
  s.update_cycles 8

/-- CB handler `set_7_h`. -/
def Cpu.set_7_h (s : Cpu) : Cpu :=
  let s := { s with register_h := s.set s.register_h 7 }
  let s := s.advance_program_counter 2
  s.update_cycles 8

/-- CB handler `set_7_l`. -/
def Cpu.set_7_l (s : Cpu) : Cpu :=
  let s := { s with register_l := s.set s.register_l 7 }
  let s := s.advance_program_counter 2
  s.update_cycles 8

/-- CB handler `set_7_a`. -/
def Cpu.set_7_a (s : Cpu) : Cpu :=
  let s := { s with register_a := s.set s.register_a 7 }
  let s := s.advance_program_counter 2
  s.update_cycles 8

/-- CB handler `set_7_hl_ptr`. -/
def Cpu.set_7_hl_ptr (s : Cpu) : Cpu :=
  let addr := s.register_concat s.register_h s.register_l
  let value := s.read_u8 addr
  let res_result := s.set value 7
  let s := s.write_u8 addr res_result
  let s := s.advance_program_counter 2
  s.update_cycles 16

set_option maxHeartbeats 2000000 in
/-- `Cpu::process_cb`: dispatch of the 256 CB sub-opcodes (all defined).
A non-byte index is unrepresentable in Rust and mapped to `none`. -/
def Cpu.process_cb (s : Cpu) (inst : Nat) : Option Cpu :=
  match inst with
  | 0x00 => some (Cpu.rlc_b s)
  | 0x01 => some (Cpu.rlc_c s)
  | 0x02 => some (Cpu.rlc_d s)
  | 0x03 => some (Cpu.rlc_e s)
  | 0x04 => some (Cpu.rlc_h s)
  | 0x05 => some (Cpu.rlc_l s)
  | 0x06 => some (Cpu.rlc_hl_ptr s)
  | 0x07 => some (Cpu.rlc_a s)
  | 0x08 => some (Cpu.rrc_b s)
  | 0x09 => some (Cpu.rrc_c s)
  | 0x0A => some (Cpu.rrc_d s)
  | 0x0B => some (Cpu.rrc_e s)
  | 0x0C => some (Cpu.rrc_h s)
  | 0x0D => some (Cpu.rrc_l s)
  | 0x0E => some (Cpu.rrc_hl_ptr s)
  | 0x0F => some (Cpu.rrc_a s)
  | 0x10 => some (Cpu.rl_b s)
  | 0x11 => some (Cpu.rl_c s)
  | 0x12 => some (Cpu.rl_d s)
  | 0x13 => some (Cpu.rl_e s)
  | 0x14 => some (Cpu.rl_h s)
  | 0x15 => some (Cpu.rl_l s)
  | 0x16 => some (Cpu.rl_hl_ptr s)
  | 0x17 => some (Cpu.rl_a s)
  | 0x18 => some (Cpu.rr_b s)
  | 0x19 => some (Cpu.rr_c s)
  | 0x1A => some (Cpu.rr_d s)
  | 0x1B => some (Cpu.rr_e s)
  | 0x1C => some (Cpu.rr_h s)
  | 0x1D => some (Cpu.rr_l s)
  | 0x1E => some (Cpu.rr_hl_ptr s)
  | 0x1F => some (Cpu.rr_a s)
  | 0x20 => some (Cpu.sla_b s)
  | 0x21 => some (Cpu.sla_c s)
  | 0x22 => some (Cpu.sla_d s)
  | 0x23 => some (Cpu.sla_e s)
  | 0x24 => some (Cpu.sla_h s)
  | 0x25 => some (Cpu.sla_l s)
  | 0x26 => some (Cpu.sla_hl_ptr s)
  | 0x27 => some (Cpu.sla_a s)
  | 0x28 => some (Cpu.sra_b s)
  | 0x29 => some (Cpu.sra_c s)
  | 0x2A => some (Cpu.sra_d s)
  | 0x2B => some (Cpu.sra_e s)
  | 0x2C => some (Cpu.sra_h s)
  | 0x2D => some (Cpu.sra_l s)
  | 0x2E => some (Cpu.sra_hl_ptr s)
  | 0x2F => some (Cpu.sra_a s)
  | 0x30 => some (Cpu.swap_b s)
  | 0x31 => some (Cpu.swap_c s)
  | 0x32 => some (Cpu.swap_d s)
  | 0x33 => some (Cpu.swap_e s)
  | 0x34 => some (Cpu.swap_h s)
  | 0x35 => some (Cpu.swap_l s)
  | 0x36 => some (Cpu.swap_hl_ptr s)
  | 0x37 => some (Cpu.swap_a s)
  | 0x38 => some (Cpu.srl_b s)
  | 0x39 => some (Cpu.srl_c s)
  | 0x3A => some (Cpu.srl_d s)
  | 0x3B => some (Cpu.srl_e s)
  | 0x3C => some (Cpu.srl_h s)
  | 0x3D => some (Cpu.srl_l s)
  | 0x3E => some (Cpu.srl_hl_ptr s)
  | 0x3F => some (Cpu.srl_a s)
  | 0x40 => some (Cpu.bit_0_b s)
  | 0x41 => some (Cpu.bit_0_c s)
  | 0x42 => some (Cpu.bit_0_d s)
  | 0x43 => some (Cpu.bit_0_e s)
  | 0x44 => some (Cpu.bit_0_h s)
  | 0x45 => some (Cpu.bit_0_l s)
  | 0x46 => some (Cpu.bit_0_hl_ptr s)
  | 0x47 => some (Cpu.bit_0_a s)
  | 0x48 => some (Cpu.bit_1_b s)
  | 0x49 => some (Cpu.bit_1_c s)
  | 0x4A => some (Cpu.bit_1_d s)
  | 0x4B => some (Cpu.bit_1_e s)
  | 0x4C => some (Cpu.bit_1_h s)
  | 0x4D => some (Cpu.bit_1_l s)
  | 0x4E => some (Cpu.bit_1_hl_ptr s)
  | 0x4F => some (Cpu.bit_1_a s)
  | 0x50 => some (Cpu.bit_2_b s)
  | 0x51 => some (Cpu.bit_2_c s)
  | 0x52 => some (Cpu.bit_2_d s)
  | 0x53 => some (Cpu.bit_2_e s)
  | 0x54 => some (Cpu.bit_2_h s)
  | 0x55 => some (Cpu.bit_2_l s)
  | 0x56 => some (Cpu.bit_2_hl_ptr s)
  | 0x57 => some (Cpu.bit_2_a s)
  | 0x58 => some (Cpu.bit_3_b s)
  | 0x59 => some (Cpu.bit_3_c s)
  | 0x5A => some (Cpu.bit_3_d s)
  | 0x5B => some (Cpu.bit_3_e s)
  | 0x5C => some (Cpu.bit_3_h s)
  | 0x5D => some (Cpu.bit_3_l s)
  | 0x5E => some (Cpu.bit_3_hl_ptr s)
  | 0x5F => some (Cpu.bit_3_a s)
  | 0x60 => some (Cpu.bit_4_b s)
  | 0x61 => some (Cpu.bit_4_c s)
  | 0x62 => some (Cpu.bit_4_d s)
  | 0x63 => some (Cpu.bit_4_e s)
  | 0x64 => some (Cpu.bit_4_h s)
  | 0x65 => some (Cpu.bit_4_l s)
  | 0x66 => some (Cpu.bit_4_hl_ptr s)
  | 0x67 => some (Cpu.bit_4_a s)
  | 0x68 => some (Cpu.bit_5_b s)
  | 0x69 => some (Cpu.bit_5_c s)
  | 0x6A => some (Cpu.bit_5_d s)
  | 0x6B => some (Cpu.bit_5_e s)
  | 0x6C => some (Cpu.bit_5_h s)
  | 0x6D => some (Cpu.bit_5_l s)
  | 0x6E => some (Cpu.bit_5_hl_ptr s)
  | 0x6F => some (Cpu.bit_5_a s)
  | 0x70 => some (Cpu.bit_6_b s)
  | 0x71 => some (Cpu.bit_6_c s)
  | 0x72 => some (Cpu.bit_6_d s)
  | 0x73 => some (Cpu.bit_6_e s)
  | 0x74 => some (Cpu.bit_6_h s)
  | 0x75 => some (Cpu.bit_6_l s)
  | 0x76 => some (Cpu.bit_6_hl_ptr s)
  | 0x77 => some (Cpu.bit_6_a s)
  | 0x78 => some (Cpu.bit_7_b s)
  | 0x79 => some (Cpu.bit_7_c s)
  | 0x7A => some (Cpu.bit_7_d s)
  | 0x7B => some (Cpu.bit_7_e s)
  | 0x7C => some (Cpu.bit_7_h s)
  | 0x7D => some (Cpu.bit_7_l s)
  | 0x7E => some (Cpu.bit_7_hl_ptr s)
  | 0x7F => some (Cpu.bit_7_a s)
  | 0x80 => some (Cpu.res_0_b s)
  | 0x81 => some (Cpu.res_0_c s)
  | 0x82 => some (Cpu.res_0_d s)
  | 0x83 => some (Cpu.res_0_e s)
  | 0x84 => some (Cpu.res_0_h s)
  | 0x85 => some (Cpu.res_0_l s)
  | 0x86 => some (Cpu.res_0_hl_ptr s)
  | 0x87 => some (Cpu.res_0_a s)
  | 0x88 => some (Cpu.res_1_b s)
  | 0x89 => some (Cpu.res_1_c s)
  | 0x8A => some (Cpu.res_1_d s)
  | 0x8B => some (Cpu.res_1_e s)
  | 0x8C => some (Cpu.res_1_h s)
  | 0x8D => some (Cpu.res_1_l s)
  | 0x8E => some (Cpu.res_1_hl_ptr s)
  | 0x8F => some (Cpu.res_1_a s)
  | 0x90 => some (Cpu.res_2_b s)
  | 0x91 => some (Cpu.res_2_c s)
  | 0x92 => some (Cpu.res_2_d s)
  | 0x93 => some (Cpu.res_2_e s)
  | 0x94 => some (Cpu.res_2_h s)
  | 0x95 => some (Cpu.res_2_l s)
  | 0x96 => some (Cpu.res_2_hl_ptr s)
  | 0x97 => some (Cpu.res_2_a s)
  | 0x98 => some (Cpu.res_3_b s)
  | 0x99 => some (Cpu.res_3_c s)
  | 0x9A => some (Cpu.res_3_d s)
  | 0x9B => some (Cpu.res_3_e s)
  | 0x9C => some (Cpu.res_3_h s)
  | 0x9D => some (Cpu.res_3_l s)
  | 0x9E => some (Cpu.res_3_hl_ptr s)
  | 0x9F => some (Cpu.res_3_a s)
  | 0xA0 => some (Cpu.res_4_b s)
  | 0xA1 => some (Cpu.res_4_c s)
  | 0xA2 => some (Cpu.res_4_d s)
  | 0xA3 => some (Cpu.res_4_e s)
  | 0xA4 => some (Cpu.res_4_h s)
  | 0xA5 => some (Cpu.res_4_l s)
  | 0xA6 => some (Cpu.res_4_hl_ptr s)
  | 0xA7 => some (Cpu.res_4_a s)
  | 0xA8 => some (Cpu.res_5_b s)
  | 0xA9 => some (Cpu.res_5_c s)
  | 0xAA => some (Cpu.res_5_d s)
  | 0xAB => some (Cpu.res_5_e s)
  | 0xAC => some (Cpu.res_5_h s)
  | 0xAD => some (Cpu.res_5_l s)
  | 0xAE => some (Cpu.res_5_hl_ptr s)
  | 0xAF => some (Cpu.res_5_a s)
  | 0xB0 => some (Cpu.res_6_b s)
  | 0xB1 => some (Cpu.res_6_c s)
  | 0xB2 => some (Cpu.res_6_d s)
  | 0xB3 => some (Cpu.res_6_e s)
  | 0xB4 => some (Cpu.res_6_h s)
  | 0xB5 => some (Cpu.res_6_l s)
  | 0xB6 => some (Cpu.res_6_hl_ptr s)
  | 0xB7 => some (Cpu.res_6_a s)
  | 0xB8 => some (Cpu.res_7_b s)
  | 0xB9 => some (Cpu.res_7_c s)
  | 0xBA => some (Cpu.res_7_d s)
  | 0xBB => some (Cpu.res_7_e s)
  | 0xBC => some (Cpu.res_7_h s)
  | 0xBD => some (Cpu.res_7_l s)
  | 0xBE => some (Cpu.res_7_hl_ptr s)
  | 0xBF => some (Cpu.res_7_a s)
  | 0xC0 => some (Cpu.set_0_b s)
  | 0xC1 => some (Cpu.set_0_c s)
  | 0xC2 => some (Cpu.set_0_d s)
  | 0xC3 => some (Cpu.set_0_e s)
  | 0xC4 => some (Cpu.set_0_h s)
  | 0xC5 => some (Cpu.set_0_l s)
  | 0xC6 => some (Cpu.set_0_hl_ptr s)
  | 0xC7 => some (Cpu.set_0_a s)
  | 0xC8 => some (Cpu.set_1_b s)
  | 0xC9 => some (Cpu.set_1_c s)
  | 0xCA => some (Cpu.set_1_d s)
  | 0xCB => some (Cpu.set_1_e s)
  | 0xCC => some (Cpu.set_1_h s)
  | 0xCD => some (Cpu.set_1_l s)
  | 0xCE => some (Cpu.set_1_hl_ptr s)
  | 0xCF => some (Cpu.set_1_a s)
  | 0xD0 => some (Cpu.set_2_b s)
  | 0xD1 => some (Cpu.set_2_c s)
  | 0xD2 => some (Cpu.set_2_d s)
  | 0xD3 => some (Cpu.set_2_e s)
  | 0xD4 => some (Cpu.set_2_h s)
  | 0xD5 => some (Cpu.set_2_l s)
  | 0xD6 => some (Cpu.set_2_hl_ptr s)
  | 0xD7 => some (Cpu.set_2_a s)
  | 0xD8 => some (Cpu.set_3_b s)
  | 0xD9 => some (Cpu.set_3_c s)
  | 0xDA => some (Cpu.set_3_d s)
  | 0xDB => some (Cpu.set_3_e s)
  | 0xDC => some (Cpu.set_3_h s)
  | 0xDD => some (Cpu.set_3_l s)
  | 0xDE => some (Cpu.set_3_hl_ptr s)
  | 0xDF => some (Cpu.set_3_a s)
  | 0xE0 => some (Cpu.set_4_b s)
  | 0xE1 => some (Cpu.set_4_c s)
  | 0xE2 => some (Cpu.set_4_d s)
  | 0xE3 => some (Cpu.set_4_e s)
  | 0xE4 => some (Cpu.set_4_h s)
  | 0xE5 => some (Cpu.set_4_l s)
  | 0xE6 => some (Cpu.set_4_hl_ptr s)
  | 0xE7 => some (Cpu.set_4_a s)
  | 0xE8 => some (Cpu.set_5_b s)
  | 0xE9 => some (Cpu.set_5_c s)
  | 0xEA => some (Cpu.set_5_d s)
  | 0xEB => some (Cpu.set_5_e s)
  | 0xEC => some (Cpu.set_5_h s)
  | 0xED => some (Cpu.set_5_l s)
  | 0xEE => some (Cpu.set_5_hl_ptr s)
  | 0xEF => some (Cpu.set_5_a s)
  | 0xF0 => some (Cpu.set_6_b s)
  | 0xF1 => some (Cpu.set_6_c s)
  | 0xF2 => some (Cpu.set_6_d s)
  | 0xF3 => some (Cpu.set_6_e s)
  | 0xF4 => some (Cpu.set_6_h s)
  | 0xF5 => some (Cpu.set_6_l s)
  | 0xF6 => some (Cpu.set_6_hl_ptr s)
  | 0xF7 => some (Cpu.set_6_a s)
  | 0xF8 => some (Cpu.set_7_b s)
  | 0xF9 => some (Cpu.set_7_c s)
  | 0xFA => some (Cpu.set_7_d s)
  | 0xFB => some (Cpu.set_7_e s)
  | 0xFC => some (Cpu.set_7_h s)
  | 0xFD => some (Cpu.set_7_l s)
  | 0xFE => some (Cpu.set_7_hl_ptr s)
  | 0xFF => some (Cpu.set_7_a s)
  | _ => none

/-- `Cpu::cb_prefix` (the 0xCB prefix handler): step PC past the CB byte,
then read and dispatch the sub-opcode. -/
def Cpu.cbPrefix (s : Cpu) : Option Cpu :=
  let s := s.advance_program_counter 1
  let inst := s.memory_bus.read s.program_counter
  let s := { s with opcode := inst }
  Cpu.process_cb s inst

set_option maxHeartbeats 2000000 in
/-- `Cpu::process`: dispatch of the 256 primary opcodes.  The 11 unused
opcodes panic in Rust and are mapped to `none` (via their `op_xx_unused`
handlers); `stop_inst` can also panic.  A non-byte index is unrepresentable
in Rust and mapped to `none`. -/
def Cpu.process (s : Cpu) (inst : Nat) : Option Cpu :=
  match inst with
  | 0x00 => some (Cpu.nop s)
  | 0x01 => some (Cpu.ld_bc_u16 s)
  | 0x02 => some (Cpu.ld_bc_a s)
  | 0x03 => some (Cpu.inc_bc s)
  | 0x04 => some (Cpu.inc_b s)
  | 0x05 => some (Cpu.dec_b s)
  | 0x06 => some (Cpu.ld_b_u8 s)
  | 0x07 => some (Cpu.rlca s)
  | 0x08 => some (Cpu.ld_u16_sp s)
  | 0x09 => some (Cpu.add_hl_bc s)
  | 0x0A => some (Cpu.ld_a_bc s)
  | 0x0B => some (Cpu.dec_bc s)
  | 0x0C => some (Cpu.inc_c s)
  | 0x0D => some (Cpu.dec_c s)
  | 0x0E => some (Cpu.ld_c_u8 s)
  | 0x0F => some (Cpu.rrca s)
  | 0x10 => Cpu.stop_inst s
  | 0x11 => some (Cpu.ld_de_u16 s)
  | 0x12 => some (Cpu.ld_de_a s)
  | 0x13 => some (Cpu.inc_de s)
  | 0x14 => some (Cpu.inc_d s)
  | 0x15 => some (Cpu.dec_d s)
  | 0x16 => some (Cpu.ld_d_u8 s)
  | 0x17 => some (Cpu.rla s)
  | 0x18 => some (Cpu.jr_i8 s)
  | 0x19 => some (Cpu.add_hl_de s)
  | 0x1A => some (Cpu.ld_a_de s)
  | 0x1B => some (Cpu.dec_de s)
  | 0x1C => some (Cpu.inc_e s)
  | 0x1D => some (Cpu.dec_e s)
  | 0x1E => some (Cpu.ld_e_u8 s)
  | 0x1F => some (Cpu.rra s)
  | 0x20 => some (Cpu.jr_nz_i8 s)
  | 0x21 => some (Cpu.ld_hl_u16 s)
  | 0x22 => some (Cpu.ldi_hl_a s)
  | 0x23 => some (Cpu.inc_hl s)
  | 0x24 => some (Cpu.inc_h s)
  | 0x25 => some (Cpu.dec_h s)
  | 0x26 => some (Cpu.ld_h_u8 s)
  | 0x27 => some (Cpu.daa s)
  | 0x28 => some (Cpu.jr_z_i8 s)
  | 0x29 => some (Cpu.add_hl_hl s)
  | 0x2A => some (Cpu.ldi_a_hl s)
  | 0x2B => some (Cpu.dec_hl s)
  | 0x2C => some (Cpu.inc_l s)
  | 0x2D => some (Cpu.dec_l s)
  | 0x2E => some (Cpu.ld_l_u8 s)
  | 0x2F => some (Cpu.cpl s)
  | 0x30 => some (Cpu.jr_nc_i8 s)
  | 0x31 => some (Cpu.ld_sp_u16 s)
  | 0x32 => some (Cpu.ldd_hl_a s)
  | 0x33 => some (Cpu.inc_sp s)
  | 0x34 => some (Cpu.inc_hl_ptr s)
  | 0x35 => some (Cpu.dec_hl_ptr s)
  | 0x36 => some (Cpu.ld_hl_ptr_u8 s)
  | 0x37 => some (Cpu.scf s)
  | 0x38 => some (Cpu.jr_c_i8 s)
  | 0x39 => some (Cpu.add_hl_sp s)
  | 0x3A => some (Cpu.ldd_a_hl s)
  | 0x3B => some (Cpu.dec_sp s)
  | 0x3C => some (Cpu.inc_a s)
  | 0x3D => some (Cpu.dec_a s)
  | 0x3E => some (Cpu.ld_a_u8 s)
  | 0x3F => some (Cpu.ccf s)
  | 0x40 => some (Cpu.ld_b_b s)
  | 0x41 => some (Cpu.ld_b_c s)
  | 0x42 => some (Cpu.ld_b_d s)
  | 0x43 => some (Cpu.ld_b_e s)
  | 0x44 => some (Cpu.ld_b_h s)
  | 0x45 => some (Cpu.ld_b_l s)
  | 0x46 => some (Cpu.ld_b_hl_ptr s)
  | 0x47 => some (Cpu.ld_b_a s)
  | 0x48 => some (Cpu.ld_c_b s)
  | 0x49 => some (Cpu.ld_c_c s)
  | 0x4A => some (Cpu.ld_c_d s)
  | 0x4B => some (Cpu.ld_c_e s)
  | 0x4C => some (Cpu.ld_c_h s)
  | 0x4D => some (Cpu.ld_c_l s)
  | 0x4E => some (Cpu.ld_c_hl_ptr s)
  | 0x4F => some (Cpu.ld_c_a s)
  | 0x50 => some (Cpu.ld_d_b s)
  | 0x51 => some (Cpu.ld_d_c s)
  | 0x52 => some (Cpu.ld_d_d s)
  | 0x53 => some (Cpu.ld_d_e s)
  | 0x54 => some (Cpu.ld_d_h s)
  | 0x55 => some (Cpu.ld_d_l s)
  | 0x56 => some (Cpu.ld_d_hl_ptr s)
  | 0x57 => some (Cpu.ld_d_a s)
  | 0x58 => some (Cpu.ld_e_b s)
  | 0x59 => some (Cpu.ld_e_c s)
  | 0x5A => some (Cpu.ld_e_d s)
  | 0x5B => some (Cpu.ld_e_e s)
  | 0x5C => some (Cpu.ld_e_h s)
  | 0x5D => some (Cpu.ld_e_l s)
  | 0x5E => some (Cpu.ld_e_hl_ptr s)
  | 0x5F => some (Cpu.ld_e_a s)
  | 0x60 => some (Cpu.ld_h_b s)
  | 0x61 => some (Cpu.ld_h_c s)
  | 0x62 => some (Cpu.ld_h_d s)
  | 0x63 => some (Cpu.ld_h_e s)
  | 0x64 => some (Cpu.ld_h_h s)
  | 0x65 => some (Cpu.ld_h_l s)
  | 0x66 => some (Cpu.ld_h_hl_ptr s)
  | 0x67 => some (Cpu.ld_h_a s)
  | 0x68 => some (Cpu.ld_l_b s)
  | 0x69 => some (Cpu.ld_l_c s)
  | 0x6A => some (Cpu.ld_l_d s)
  | 0x6B => some (Cpu.ld_l_e s)
  | 0x6C => some (Cpu.ld_l_h s)
  | 0x6D => some (Cpu.ld_l_l s)
  | 0x6E => some (Cpu.ld_l_hl_ptr s)
  | 0x6F => some (Cpu.ld_l_a s)
  | 0x70 => some (Cpu.ld_hl_ptr_b s)
  | 0x71 => some (Cpu.ld_hl_ptr_c s)
  | 0x72 => some (Cpu.ld_hl_ptr_d s)
  | 0x73 => some (Cpu.ld_hl_ptr_e s)
  | 0x74 => some (Cpu.ld_hl_ptr_h s)
  | 0x75 => some (Cpu.ld_hl_ptr_l s)
  | 0x76 => some (Cpu.halt_inst s)
  | 0x77 => some (Cpu.ld_hl_ptr_a s)
  | 0x78 => some (Cpu.ld_a_b s)
  | 0x79 => some (Cpu.ld_a_c s)
  | 0x7A => some (Cpu.ld_a_d s)
  | 0x7B => some (Cpu.ld_a_e s)
  | 0x7C => some (Cpu.ld_a_h s)
  | 0x7D => some (Cpu.ld_a_l s)
  | 0x7E => some (Cpu.ld_a_hl_ptr s)
  | 0x7F => some (Cpu.ld_a_a s)
  | 0x80 => some (Cpu.add_a_b s)
  | 0x81 => some (Cpu.add_a_c s)
  | 0x82 => some (Cpu.add_a_d s)
  | 0x83 => some (Cpu.add_a_e s)
  | 0x84 => some (Cpu.add_a_h s)
  | 0x85 => some (Cpu.add_a_l s)
  | 0x86 => some (Cpu.add_a_hl_ptr s)
  | 0x87 => some (Cpu.add_a_a s)
  | 0x88 => some (Cpu.adc_a_b s)
  | 0x89 => some (Cpu.adc_a_c s)
  | 0x8A => some (Cpu.adc_a_d s)
  | 0x8B => some (Cpu.adc_a_e s)
  | 0x8C => some (Cpu.adc_a_h s)
  | 0x8D => some (Cpu.adc_a_l s)
  | 0x8E => some (Cpu.adc_a_hl_ptr s)
  | 0x8F => some (Cpu.adc_a_a s)
  | 0x90 => some (Cpu.sub_a_b s)
  | 0x91 => some (Cpu.sub_a_c s)
  | 0x92 => some (Cpu.sub_a_d s)
  | 0x93 => some (Cpu.sub_a_e s)
  | 0x94 => some (Cpu.sub_a_h s)
  | 0x95 => some (Cpu.sub_a_l s)
  | 0x96 => some (Cpu.sub_a_hl_ptr s)
  | 0x97 => some (Cpu.sub_a_a s)
  | 0x98 => some (Cpu.sbc_a_b s)
  | 0x99 => some (Cpu.sbc_a_c s)
  | 0x9A => some (Cpu.sbc_a_d s)
  | 0x9B => some (Cpu.sbc_a_e s)
  | 0x9C => some (Cpu.sbc_a_h s)
  | 0x9D => some (Cpu.sbc_a_l s)
  | 0x9E => some (Cpu.sbc_a_hl_ptr s)
  | 0x9F => some (Cpu.sbc_a_a s)
  | 0xA0 => some (Cpu.and_a_b s)
  | 0xA1 => some (Cpu.and_a_c s)
  | 0xA2 => some (Cpu.and_a_d s)
  | 0xA3 => some (Cpu.and_a_e s)
  | 0xA4 => some (Cpu.and_a_h s)
  | 0xA5 => some (Cpu.and_a_l s)
  | 0xA6 => some (Cpu.and_a_hl_ptr s)
  | 0xA7 => some (Cpu.and_a_a s)
  | 0xA8 => some (Cpu.xor_a_b s)
  | 0xA9 => some (Cpu.xor_a_c s)
  | 0xAA => some (Cpu.xor_a_d s)
  | 0xAB => some (Cpu.xor_a_e s)
  | 0xAC => some (Cpu.xor_a_h s)
  | 0xAD => some (Cpu.xor_a_l s)
  | 0xAE => some (Cpu.xor_a_hl_ptr s)
  | 0xAF => some (Cpu.xor_a_a s)
  | 0xB0 => some (Cpu.or_a_b s)
  | 0xB1 => some (Cpu.or_a_c s)
  | 0xB2 => some (Cpu.or_a_d s)
  | 0xB3 => some (Cpu.or_a_e s)
  | 0xB4 => some (Cpu.or_a_h s)
  | 0xB5 => some (Cpu.or_a_l s)
  | 0xB6 => some (Cpu.or_a_hl_ptr s)
  | 0xB7 => some (Cpu.or_a_a s)
  | 0xB8 => some (Cpu.cp_a_b s)
  | 0xB9 => some (Cpu.cp_a_c s)
  | 0xBA => some (Cpu.cp_a_d s)
  | 0xBB => some (Cpu.cp_a_e s)
  | 0xBC => some (Cpu.cp_a_h s)
  | 0xBD => some (Cpu.cp_a_l s)
  | 0xBE => some (Cpu.cp_a_hl_ptr s)
  | 0xBF => some (Cpu.cp_a_a s)
  | 0xC0 => some (Cpu.ret_nz s)
  | 0xC1 => some (Cpu.pop_bc s)
  | 0xC2 => some (Cpu.jp_nz_u16 s)
  | 0xC3 => some (Cpu.jp_u16 s)
  | 0xC4 => some (Cpu.call_nz_u16 s)
  | 0xC5 => some (Cpu.push_bc s)
  | 0xC6 => some (Cpu.add_a_u8 s)
  | 0xC7 => some (Cpu.rst_00 s)
  | 0xC8 => some (Cpu.ret_z s)
  | 0xC9 => some (Cpu.ret s)
  | 0xCA => some (Cpu.jp_z_u16 s)
  | 0xCB => Cpu.cbPrefix s
  | 0xCC => some (Cpu.call_z_u16 s)
  | 0xCD => some (Cpu.call_u16 s)
  | 0xCE => some (Cpu.adc_a_u8 s)
  | 0xCF => some (Cpu.rst_08 s)
  | 0xD0 => some (Cpu.ret_nc s)
  | 0xD1 => some (Cpu.pop_de s)
  | 0xD2 => some (Cpu.jp_nc_u16 s)
  | 0xD3 => Cpu.op_d3_unused s
  | 0xD4 => some (Cpu.call_nc_u16 s)
  | 0xD5 => some (Cpu.push_de s)
  | 0xD6 => some (Cpu.sub_u8 s)
  | 0xD7 => some (Cpu.rst_10 s)
  | 0xD8 => some (Cpu.ret_c s)
  | 0xD9 => some (Cpu.reti s)
  | 0xDA => some (Cpu.jp_c_u16 s)
  | 0xDB => Cpu.op_db_unused s
  | 0xDC => some (Cpu.call_c_u16 s)
  | 0xDD => Cpu.op_dd_unused s
  | 0xDE => some (Cpu.sbc_a_u8 s)
  | 0xDF => some (Cpu.rst_18 s)
  | 0xE0 => some (Cpu.ldh_u8_a s)
  | 0xE1 => some (Cpu.pop_hl s)
  | 0xE2 => some (Cpu.ldh_c_a s)
  | 0xE3 => Cpu.op_e3_unused s
  | 0xE4 => Cpu.op_e4_unused s
  | 0xE5 => some (Cpu.push_hl s)
  | 0xE6 => some (Cpu.and_u8 s)
  | 0xE7 => some (Cpu.rst_20 s)
  | 0xE8 => some (Cpu.add_sp_i8 s)
  | 0xE9 => some (Cpu.jp_hl s)
  | 0xEA => some (Cpu.ld_u16_a s)
  | 0xEB => Cpu.op_eb_unused s
  | 0xEC => Cpu.op_ec_unused s
  | 0xED => Cpu.op_ed_unused s
  | 0xEE => some (Cpu.xor_u8 s)
  | 0xEF => some (Cpu.rst_28 s)
  | 0xF0 => some (Cpu.ldh_a_u8 s)
  | 0xF1 => some (Cpu.pop_af s)
  | 0xF2 => some (Cpu.ldh_a_c s)
  | 0xF3 => some (Cpu.di s)
  | 0xF4 => Cpu.op_f4_unused s
  | 0xF5 => some (Cpu.push_af s)
  | 0xF6 => some (Cpu.or_u8 s)
  | 0xF7 => some (Cpu.rst_30 s)
  | 0xF8 => some (Cpu.ld_hl_sp_i8 s)
  | 0xF9 => some (Cpu.ld_sp_hl s)
  | 0xFA => some (Cpu.ld_a_u16 s)
  | 0xFB => some (Cpu.ei s)
  | 0xFC => Cpu.op_fc_unused s
  | 0xFD => Cpu.op_fd_unused s
  | 0xFE => some (Cpu.cp_u8 s)
  | 0xFF => some (Cpu.rst_38 s)
  | _ => none

/-- `Cpu::step`: one instruction.  Returns the updated CPU and the dot cost
(`none` models a Rust panic inside `process`).  Note: there is no interrupt
dispatch here; `stop` returns 0 dots untouched, `halt` returns 4 dots
untouched, and `ime_pending` is promoted to `interruption` at the end of the
same step. -/
def Cpu.step (s : Cpu) : Option (Cpu × Nat) :=
  if s.stop then some (s, 0)
  else if s.halt then some (s, 4)
  else
    let s := { s with cycles := 0 }
    let inst := s.memory_bus.read s.program_counter
    let s := { s with opcode := inst }
    match Cpu.process s inst with
    | none => none
    | some s =>
      let s := if s.ime_pending then { s with interruption := true, ime_pending := false } else s
      some (s, s.cycles)

/-- `Cpu::run_frame`, embedded with explicit fuel: the Rust loop
`while cycles_this_frame < CYCLES_PER_FRAME { ... += self.step() }` run for at
most `fuel` iterations.  `some (cpu, total)` is a normal loop exit within
`fuel` iterations; `none` means the fuel ran out (or a step panicked). -/
def Cpu.run_frame_fuel (s : Cpu) (cycles_this_frame : Nat) : Nat → Option (Cpu × Nat)
  | 0 => none
  | fuel + 1 =>
    if cycles_this_frame < 70224 then
      match Cpu.step s with
      | none => none
      | some (s2, cycles) => Cpu.run_frame_fuel s2 (cycles_this_frame + cycles) fuel
    else some (s, cycles_this_frame)

/-- The `FrameBuffer` struct of src/ppu/framebuffer.rs (pixels as a lookup function). -/
structure FrameBuffer where
  pixels : Nat → Nat

/-- `FrameBuffer::new`. -/
def FrameBuffer.new : FrameBuffer := ⟨fun _ => 0⟩

/-- The `Ppu` struct of src/ppu/ppu.rs. -/
structure Ppu where
  framebuffer : FrameBuffer
  frame_ready : Bool
  mode : Nat
  dot : Nat
  rendered_this_line : Bool

/-- `Ppu::new` (starts in OAM mode, 2). -/
def Ppu.new : Ppu :=
  { framebuffer := FrameBuffer.new
    frame_ready := false
    mode := 2
    dot := 0
    rendered_this_line := false }

/-- `Ppu::set_stat_mode`: `stat = (stat & !0b11) | (mode & 0b11)` at 0xFF41. -/
def Ppu.set_stat_mode (_p : Ppu) (bus : MemoryBus) (mode : Nat) : MemoryBus :=
  let stat := bus.read 0xFF41
  let stat := (stat &&& 0xFC) ||| (mode &&& 0b11)
  bus.write 0xFF41 stat

/-- `Ppu::update_lyc`: maintain the LYC coincidence flag (STAT bit 2). -/
def Ppu.update_lyc (_p : Ppu) (bus : MemoryBus) (ly : Nat) : MemoryBus :=
  let lyc := bus.read 0xFF45
  let stat := bus.read 0xFF41
  let stat := if ly = lyc then stat ||| (1 <<< 2) else stat &&& 0xFB
  bus.write 0xFF41 stat

/-- `Ppu::render_scanline`: minimal BG-only renderer (the `for x in 0..160`
loop becomes a fold; the bus is only read). -/
def Ppu.render_scanline (p : Ppu) (bus : MemoryBus) (ly : Nat) : Ppu :=
  let lcdc := bus.read 0xFF40
  if lcdc &&& 0x01 = 0 then p
  else
    let scx := bus.read 0xFF43
    let scy := bus.read 0xFF42
    let bgp := bus.read 0xFF47
    let bg_map_base := if lcdc &&& (1 <<< 3) ≠ 0 then 0x9C00 else 0x9800
    let tile_data_unsigned := lcdc &&& (1 <<< 4) ≠ 0
    let y := ly
    let world_y := wrap16 (y + scy)
    let tile_row := (world_y / 8) &&& 31
    let row_in_tile := world_y % 8
    (List.range 160).foldl (fun p x =>
      let world_x := wrap16 (x + scx)
      let tile_col := (world_x / 8) &&& 31
      let col_in_tile := world_x % 8
      let tile_index_addr := bg_map_base + tile_row * 32 + tile_col
      let tile_index := bus.read tile_index_addr
      let tile_addr :=
        if tile_data_unsigned then 0x8000 + tile_index * 16
        else if tile_index < 128 then 0x9000 + tile_index * 16
        else 0x9000 + tile_index * 16 - 0x1000
      let lo := bus.read (tile_addr + row_in_tile * 2)
      let hi := bus.read (tile_addr + row_in_tile * 2 + 1)
      let bit := 7 - col_in_tile
      let b0 := (lo >>> bit) &&& 1
      let b1 := (hi >>> bit) &&& 1
      let color_id := (b1 <<< 1) ||| b0
      let shade := (bgp >>> (color_id * 2)) &&& 0b11
      let idx := y * 160 + x
      { p with framebuffer := ⟨upd p.framebuffer.pixels idx shade⟩ }) p

/-- One iteration of the `while dots_to_advance > 0` loop of `Ppu::tick`,
run `dots` times (the loop counter is the fuel). -/
def Ppu.tick_loop : Ppu → MemoryBus → Nat → Ppu × MemoryBus
  | p, bus, 0 => (p, bus)
  | p, bus, n + 1 =>
    let p := { p with dot := p.dot + 1 }
    let ly := bus.read 0xFF44
    let (p, bus) :=
      if 144 ≤ ly then
        if p.mode ≠ 1 then
          let bus := p.set_stat_mode bus 1
          ({ p with mode := 1, frame_ready := true }, bus)
        else (p, bus)
      else
        let new_mode := if p.dot < 80 then 2 else if p.dot < 252 then 3 else 0
        let (p, bus) :=
          if new_mode ≠ p.mode then
            let p := { p with mode := new_mode }
            let bus := p.set_stat_mode bus new_mode
            let p := if new_mode = 3 then { p with rendered_this_line := false } else p
            (p, bus)
          else (p, bus)
        if p.mode = 3 && !p.rendered_this_line then
          let p := p.render_scanline bus ly
          ({ p with rendered_this_line := true }, bus)
        else (p, bus)
    let (p, bus) :=
      if 456 ≤ p.dot then
        let p := { p with dot := 0, rendered_this_line := false }
        let new_ly := wrap8 (ly + 1)
        let new_ly := if 153 < new_ly then 0 else new_ly
        let bus := bus.write 0xFF44 new_ly
        let bus := p.update_lyc bus new_ly
        (p, bus)
      else (p, bus)
    Ppu.tick_loop p bus n

/-- `Ppu::tick`: consume `t_cycles` dots (`t_cycles as u16` truncation kept).
When the LCD is disabled the PPU is reset and the dots are discarded. -/
def Ppu.tick (p : Ppu) (t_cycles : Nat) (bus : MemoryBus) : Ppu × MemoryBus :=
  let lcdc := bus.read 0xFF40
  if lcdc &&& 0x80 = 0 then
    let p := { p with mode := 0, dot := 0, rendered_this_line := false }
    let bus := bus.write 0xFF44 0
    let bus := p.set_stat_mode bus 0
    (p, bus)
  else
    Ppu.tick_loop p bus (wrap16 t_cycles)

/-- `Ppu::take_frame`: hand out the framebuffer once per completed frame. -/
def Ppu.take_frame (p : Ppu) : Ppu × Option (Nat → Nat) :=
  if p.frame_ready then ({ p with frame_ready := false }, some p.framebuffer.pixels)
  else (p, none)

/-! ## Concrete fixtures used by the claim theorems -/

/-- A concrete ROM-only cartridge whose image is all zero bytes. -/
def cart0 : Cartridge :=
  { game_data := fun _ => 0x00
    game_title := []
    manufacturer_code := []
    cgb_flag := 0
    licensee_code := []
    sgb_flag := 0
    cartridge_type := .RomOnly
    rom_size := 0
    ram_size := 0
    destination_code := .Overseas
    old_licensee_code := 0
    mask_rom_version_number := 0
    header_checksum := 0
    global_checksum := 0 }

/-- A bus with VBlank pending and enabled: IF = IE = 0x01. -/
def busC1 : MemoryBus := { MemoryBus.new cart0 with if_reg := 0x01, ie_reg := 0x01 }

/-- CPU with ime (`interruption`) set, a pending enabled VBlank interrupt, and a
NOP at PC = 0x0100: the exact scenario of the spec's interrupt-dispatch test. -/
def cpuC1 : Cpu :=
  { Cpu.new busC1 with program_counter := 0x0100, stack_pointer := 0xFFFE, interruption := true }

/-- Cartridge whose byte at 0x0100 is the EI opcode (0xFB). -/
def cartC2 : Cartridge := { cart0 with game_data := fun a => if a = 0x0100 then 0xFB else 0x00 }

/-- CPU about to execute EI at PC = 0x0100, with ime and ime_pending clear. -/
def cpuC2 : Cpu :=
  { Cpu.new (MemoryBus.new cartC2) with program_counter := 0x0100, stack_pointer := 0xFFFE }

/-- Cartridge whose byte at 0x0100 is the CB prefix and whose byte at 0x0101 is
0x00 (RLC B). -/
def cartC3 : Cartridge :=
  { cart0 with game_data := fun a => if a = 0x0100 then 0xCB else 0x00 }

/-- CPU about to execute CB 00 (RLC B) at PC = 0x0100. -/
def cpuC3 : Cpu :=
  { Cpu.new (MemoryBus.new cartC3) with program_counter := 0x0100, stack_pointer := 0xFFFE }

/-- PPU at dot 455 of a scanline, in HBlank mode. -/
def ppuC6 : Ppu := { Ppu.new with mode := 0, dot := 455 }

/-- Bus with the LCD enabled (LCDC = 0x80) and LY = 143 (last visible line);
IF = 0. -/
def busC6 : MemoryBus :=
  { MemoryBus.new cart0 with io := upd (upd (fun _ => 0) 0x40 0x80) 0x44 143 }

/-- CPU whose stack pointer makes PUSH write into the unusable region
0xFEA0–0xFEFF (writes discarded, reads 0xFF). -/
def cpuC8 : Cpu :=
  { Cpu.new (MemoryBus.new cart0) with
    stack_pointer := 0xFEA2,
    register_b := 0x12,
    register_c := 0x34 }

/-- CPU with distinctive byte registers and the stack in HRAM (SP = 0xFFFE). -/
def cpuC8w : Cpu :=
  { Cpu.new (MemoryBus.new cart0) with
    stack_pointer := 0xFFFE,
    register_a := 0x12,
    register_b := 0x34,
    register_c := 0x56,
    register_d := 0x78,
    register_e := 0x9A,
    register_h := 0xBC,
    register_l := 0xDE,
    register_f := ⟨true, false, true, true⟩ }

/-- CPU about to execute a NOP at PC = 0x0000 (all-zero ROM). -/
def cpuC9 : Cpu := Cpu.new (MemoryBus.new cart0)

/-- CPU in the stop state. -/
def cpuC10 : Cpu := { Cpu.new (MemoryBus.new cart0) with stop := true }

/-! ## Bus lemmas: per-region characterization of `MemoryBus.write`/`read` -/

theorem write_vram (bus : MemoryBus) (a v : Nat) (h1 : 0x8000 ≤ a) (h2 : a ≤ 0x9FFF) :
    bus.write a v = { bus with vram := upd bus.vram (a - 0x8000) v } := by
  unfold MemoryBus.write
  split_ifs <;> first | omega | rfl

theorem read_vram (bus : MemoryBus) (a : Nat) (h1 : 0x8000 ≤ a) (h2 : a ≤ 0x9FFF) :
    bus.read a = bus.vram (a - 0x8000) := by
  unfold MemoryBus.read
  split_ifs <;> first | omega | rfl

theorem write_eram (bus : MemoryBus) (a v : Nat) (h1 : 0xA000 ≤ a) (h2 : a ≤ 0xBFFF) :
    bus.write a v = { bus with eram := upd bus.eram (a - 0xA000) v } := by
  unfold MemoryBus.write
  split_ifs <;> first | omega | rfl

theorem read_eram (bus : MemoryBus) (a : Nat) (h1 : 0xA000 ≤ a) (h2 : a ≤ 0xBFFF) :
    bus.read a = bus.eram (a - 0xA000) := by
  unfold MemoryBus.read
  split_ifs <;> first | omega | rfl

theorem write_wram (bus : MemoryBus) (a v : Nat) (h1 : 0xC000 ≤ a) (h2 : a ≤ 0xDFFF) :
    bus.write a v = { bus with wram := upd bus.wram (a - 0xC000) v } := by
  unfold MemoryBus.write
  split_ifs <;> first | omega | rfl

theorem read_wram (bus : MemoryBus) (a : Nat) (h1 : 0xC000 ≤ a) (h2 : a ≤ 0xDFFF) :
    bus.read a = bus.wram (a - 0xC000) := by
  unfold MemoryBus.read
  split_ifs <;> first | omega | rfl

theorem write_echo (bus : MemoryBus) (a v : Nat) (h1 : 0xE000 ≤ a) (h2 : a ≤ 0xFDFF) :
    bus.write a v = { bus with wram := upd bus.wram (a - 0xE000) v } := by
  unfold MemoryBus.write
  split_ifs <;> first | omega | rfl

theorem read_echo (bus : MemoryBus) (a : Nat) (h1 : 0xE000 ≤ a) (h2 : a ≤ 0xFDFF) :
    bus.read a = bus.wram (a - 0xE000) := by
  unfold MemoryBus.read
  split_ifs <;> first | omega | rfl

theorem write_oam (bus : MemoryBus) (a v : Nat) (h1 : 0xFE00 ≤ a) (h2 : a ≤ 0xFE9F) :
    bus.write a v = { bus with oam := upd bus.oam (a - 0xFE00) v } := by
  unfold MemoryBus.write
  split_ifs <;> first | omega | rfl

theorem read_oam (bus : MemoryBus) (a : Nat) (h1 : 0xFE00 ≤ a) (h2 : a ≤ 0xFE9F) :
    bus.read a = bus.oam (a - 0xFE00) := by
  unfold MemoryBus.read
  split_ifs <;> first | omega | rfl

theorem write_io (bus : MemoryBus) (a v : Nat) (h1 : 0xFF00 ≤ a) (h2 : a ≤ 0xFF7F)
    (h3 : a ≠ 0xFF0F) :
    bus.write a v = { bus with io := upd bus.io (a - 0xFF00) v } := by
  unfold MemoryBus.write
  split_ifs <;> first | omega | rfl

theorem read_io (bus : MemoryBus) (a : Nat) (h1 : 0xFF00 ≤ a) (h2 : a ≤ 0xFF7F)
    (h3 : a ≠ 0xFF0F) :
    bus.read a = bus.io (a - 0xFF00) := by
  unfold MemoryBus.read
  split_ifs <;> first | omega | rfl

theorem write_hram (bus : MemoryBus) (a v : Nat) (h1 : 0xFF80 ≤ a) (h2 : a ≤ 0xFFFE) :
    bus.write a v = { bus with hram := upd bus.hram (a - 0xFF80) v } := by
  unfold MemoryBus.write
  split_ifs <;> first | omega | rfl

theorem read_hram (bus : MemoryBus) (a : Nat) (h1 : 0xFF80 ≤ a) (h2 : a ≤ 0xFFFE) :
    bus.read a = bus.hram (a - 0xFF80) := by
  unfold MemoryBus.read
  split_ifs <;> first | omega | rfl

/-- Addresses whose bus cell stores the written byte verbatim and returns it on
read: the unusable region (writes discarded), 0xFF0F and 0xFFFF (low 5 bits
only) and the cartridge ROM window are excluded. -/
def storageAddr (a : Nat) : Prop :=
  (0x8000 ≤ a ∧ a ≤ 0x9FFF) ∨ (0xA000 ≤ a ∧ a ≤ 0xBFFF) ∨ (0xC000 ≤ a ∧ a ≤ 0xDFFF) ∨
    (0xE000 ≤ a ∧ a ≤ 0xFDFF) ∨ (0xFE00 ≤ a ∧ a ≤ 0xFE9F) ∨
    (0xFF00 ≤ a ∧ a ≤ 0xFF7F ∧ a ≠ 0xFF0F) ∨ (0xFF80 ≤ a ∧ a ≤ 0xFFFE)

theorem read_write_self (bus : MemoryBus) (a v : Nat) (h : storageAddr a) :
    (bus.write a v).read a = v := by
  rcases h with ⟨h1, h2⟩ | ⟨h1, h2⟩ | ⟨h1, h2⟩ | ⟨h1, h2⟩ | ⟨h1, h2⟩ | ⟨h1, h2, h3⟩ | ⟨h1, h2⟩
  · rw [write_vram bus a v h1 h2, read_vram _ a h1 h2]; simp [upd]
  · rw [write_eram bus a v h1 h2, read_eram _ a h1 h2]; simp [upd]
  · rw [write_wram bus a v h1 h2, read_wram _ a h1 h2]; simp [upd]
  · rw [write_echo bus a v h1 h2, read_echo _ a h1 h2]; simp [upd]
  · rw [write_oam bus a v h1 h2, read_oam _ a h1 h2]; simp [upd]
  · rw [write_io bus a v h1 h2 h3, read_io _ a h1 h2 h3]; simp [upd]
  · rw [write_hram bus a v h1 h2, read_hram _ a h1 h2]; simp [upd]

theorem read_write_prev (bus : MemoryBus) (a v : Nat) (ha : storageAddr a)
    (hb : storageAddr (a + 1)) :
    (bus.write a v).read (a + 1) = bus.read (a + 1) := by
  rcases ha with ⟨h1, h2⟩ | ⟨h1, h2⟩ | ⟨h1, h2⟩ | ⟨h1, h2⟩ | ⟨h1, h2⟩ | ⟨h1, h2, h3⟩ | ⟨h1, h2⟩
  · rw [write_vram bus a v h1 h2]
    by_cases htop : a = 0x9FFF
    · rw [read_eram _ (a + 1) (by omega) (by omega), read_eram bus (a + 1) (by omega) (by omega)]
    · rw [read_vram _ (a + 1) (by omega) (by omega), read_vram bus (a + 1) (by omega) (by omega)]
      simp only [upd]
      rw [if_neg (by omega)]
  · rw [write_eram bus a v h1 h2]
    by_cases htop : a = 0xBFFF
    · rw [read_wram _ (a + 1) (by omega) (by omega), read_wram bus (a + 1) (by omega) (by omega)]
    · rw [read_eram _ (a + 1) (by omega) (by omega), read_eram bus (a + 1) (by omega) (by omega)]
      simp only [upd]
      rw [if_neg (by omega)]
  · rw [write_wram bus a v h1 h2]
    by_cases htop : a = 0xDFFF
    · rw [read_echo _ (a + 1) (by omega) (by omega), read_echo bus (a + 1) (by omega) (by omega)]
      simp only [upd]
      rw [if_neg (by omega)]
    · rw [read_wram _ (a + 1) (by omega) (by omega), read_wram bus (a + 1) (by omega) (by omega)]
      simp only [upd]
      rw [if_neg (by omega)]
  · rw [write_echo bus a v h1 h2]
    by_cases htop : a = 0xFDFF
    · rw [read_oam _ (a + 1) (by omega) (by omega), read_oam bus (a + 1) (by omega) (by omega)]
    · rw [read_echo _ (a + 1) (by omega) (by omega), read_echo bus (a + 1) (by omega) (by omega)]
      simp only [upd]
      rw [if_neg (by omega)]
  · rw [write_oam bus a v h1 h2]
    have htop : a ≠ 0xFE9F := by
      intro hc
      unfold storageAddr at hb
      omega
    rw [read_oam _ (a + 1) (by omega) (by omega), read_oam bus (a + 1) (by omega) (by omega)]
    simp only [upd]
    rw [if_neg (by omega)]
  · rw [write_io bus a v h1 h2 h3]
    have hnot : a + 1 ≠ 0xFF0F := by
      intro hc
      unfold storageAddr at hb
      omega
    by_cases htop : a = 0xFF7F
    · rw [read_hram _ (a + 1) (by omega) (by omega), read_hram bus (a + 1) (by omega) (by omega)]
    · rw [read_io _ (a + 1) (by omega) (by omega) hnot, read_io bus (a + 1) (by omega) (by omega) hnot]
      simp only [upd]
      rw [if_neg (by omega)]
  · rw [write_hram bus a v h1 h2]
    have htop : a ≠ 0xFFFE := by
      intro hc
      unfold storageAddr at hb
      omega
    rw [read_hram _ (a + 1) (by omega) (by omega), read_hram bus (a + 1) (by omega) (by omega)]
    simp only [upd]
    rw [if_neg (by omega)]

/-! ## Arithmetic and flag lemmas -/

theorem lo_byte (b c : Nat) (hc : c < 256) : wrap8 ((b <<< 8) ||| c) = c := by
  rw [Nat.shiftLeft_eq, Nat.mul_comm, ← Nat.mul_add_lt_is_or hc b]
  unfold wrap8
  omega

theorem hi_byte (b c : Nat) (hb : b < 256) (hc : c < 256) :
    wrap8 (((b <<< 8) ||| c) >>> 8) = b := by
  rw [Nat.shiftLeft_eq, Nat.mul_comm, ← Nat.mul_add_lt_is_or hc b, Nat.shiftRight_eq_div_pow]
  unfold wrap8
  omega

theorem bits_lt (f : FFlags) : f.bits < 256 := by
  rcases f with ⟨z, n, h, c⟩
  cases z <;> cases n <;> cases h <;> cases c <;> decide

theorem bits_masked (f : FFlags) : f.bits &&& 0xF0 = f.bits := by
  rcases f with ⟨z, n, h, c⟩
  cases z <;> cases n <;> cases h <;> cases c <;> decide

theorem from_bits_truncate_bits (f : FFlags) :
    FFlags.from_bits_truncate (f.bits &&& 0xF0) = f := by
  rcases f with ⟨z, n, h, c⟩
  cases z <;> cases n <;> cases h <;> cases c <;> decide

theorem bits_low_nibble (f : FFlags) : f.bits &&& 0x0F = 0 := by
  rcases f with ⟨z, n, h, c⟩
  cases z <;> cases n <;> cases h <;> cases c <;> decide

/-! ## Stack helper lemmas -/

theorem push_u16_spec (s : Cpu) (value : Nat)
    (h1 : storageAddr (wrap16 (s.stack_pointer + 65535)))
    (h2 : storageAddr (wrap16 (s.stack_pointer + 65534))) :
    (s.push_u16 value).stack_pointer = wrap16 (s.stack_pointer + 65534) ∧
    (s.push_u16 value).memory_bus.read (wrap16 (s.stack_pointer + 65534)) = wrap8 value ∧
    (s.push_u16 value).memory_bus.read (wrap16 (s.stack_pointer + 65535)) = wrap8 (value >>> 8) := by
  have key : wrap16 (s.stack_pointer + 65535) = wrap16 (s.stack_pointer + 65534) + 1 := by
    unfold storageAddr wrap16 at *
    omega
  have keysp : wrap16 (wrap16 (s.stack_pointer + 65535) + 65535)
      = wrap16 (s.stack_pointer + 65534) := by
    unfold wrap16
    omega
  refine ⟨?_, ?_, ?_⟩
  · simp only [Cpu.push_u16, Cpu.write_u8]
    exact keysp
  · simp only [Cpu.push_u16, Cpu.write_u8, keysp]
    exact read_write_self _ _ _ h2
  · simp only [Cpu.push_u16, Cpu.write_u8, keysp]
    rw [key, read_write_prev _ _ _ h2 (key ▸ h1)]
    exact read_write_self _ _ _ (key ▸ h1)

theorem storage_key2 (sp : Nat) :
    wrap16 (wrap16 (sp + 65534) + 1) = wrap16 (sp + 65535) := by
  unfold wrap16
  omega

/-! ## Stop-state helper lemmas -/

theorem step_stop (s : Cpu) (h : s.stop = true) : Cpu.step s = some (s, 0) := by
  simp [Cpu.step, h]

theorem run_frame_fuel_stop (s : Cpu) (h : s.stop = true) :
    ∀ (fuel acc : Nat), acc < 70224 → Cpu.run_frame_fuel s acc fuel = none := by
  intro fuel
  induction fuel with
  | zero => intro acc _; rfl
  | succ n ih =>
      intro acc hacc
      simp [Cpu.run_frame_fuel, hacc, step_stop s h, ih]

/-! ## Claim theorems -/

/-- C1 (code bug): with ime (`interruption`) true and a pending enabled VBlank
interrupt (IF = IE = 0x01) the claim says `step` dispatches before the next
fetch (clears IF bit 0, clears ime, pushes PC, jumps to 0x0040, 20 dots).
The code's `step` contains no interrupt dispatch at all: it fetches the NOP at
PC and executes it — PC goes to 0x0101, 4 dots, IF still 0x01, ime still true,
SP untouched. -/
theorem c1_no_interrupt_dispatch :
    (Cpu.step cpuC1).map
        (fun r => (r.1.program_counter, r.1.memory_bus.if_reg, r.1.interruption,
                   r.1.stack_pointer, r.2))
      = some (0x0101, 0x01, true, 0xFFFE, 4) := by
  decide

/-- C2 (code bug): the claim says ime is still false at the end of the step
that executes EI, becoming true only after the following instruction.  In the
code, `step` promotes `ime_pending` to `interruption` right after `process`
returns, in the same step: after executing EI (0xFB), `interruption` is
already true and `ime_pending` has been cleared. -/
theorem c2_ei_enabled_same_step :
    (Cpu.step cpuC2).map
        (fun r => (r.1.opcode, r.1.interruption, r.1.ime_pending, r.1.program_counter, r.2))
      = some (0xFB, true, false, 0x0101, 4) := by
  decide

/-- C3 (code bug): the claim says every 0xCB-prefixed instruction advances PC
by exactly 2.  In the code `cb_prefix` advances PC by 1 before reading the
sub-opcode and every one of the 256 CB handlers then advances PC by 2 more:
executing CB 00 (RLC B) at 0x0100 leaves PC = 0x0103 — an advance of 3. -/
theorem c3_cb_pc_plus_three :
    (Cpu.step cpuC3).map (fun r => (r.1.program_counter, r.2)) = some (0x0103, 8) := by
  decide

/-- C4 counterexample: on a fresh bus with a ROM-only cartridge, a write to
0xA000 is not forwarded to the cartridge (the cartridge is unchanged and the
byte lands in the bus's own `eram` array), and a read of 0xA000 returns the
`eram` byte 0x00, not the open-bus value 0xFF claimed. -/
theorem c4_counterexample :
    (MemoryBus.new cart0).read 0xA000 = 0x00 ∧
    (MemoryBus.new cart0).read 0xA000 ≠ 0xFF ∧
    ((MemoryBus.new cart0).write 0xA000 0x12).cartridge = (MemoryBus.new cart0).cartridge ∧
    ((MemoryBus.new cart0).write 0xA000 0x12).eram 0 = 0x12 := by
  refine ⟨by decide, by decide, rfl, by decide⟩

/-- C4 (amended): for every address in 0xA000–0xBFFF, `MemoryBus.write` stores
the byte in the bus's internal external-RAM array (`eram`) and leaves the
cartridge untouched, and `MemoryBus.read` returns the `eram` byte — the
cartridge is never consulted for this range, for any cartridge type. -/
theorem c4_eram_internal (bus : MemoryBus) (a v : Nat)
    (hlo : 0xA000 ≤ a) (hhi : a ≤ 0xBFFF) :
    (bus.write a v).cartridge = bus.cartridge ∧
    (bus.write a v).eram = upd bus.eram (a - 0xA000) v ∧
    bus.read a = bus.eram (a - 0xA000) := by
  rw [write_eram bus a v hlo hhi, read_eram bus a hlo hhi]
  exact ⟨rfl, rfl, rfl⟩

/-- Witness for C4: the amended claim evaluated at a fresh bus, address 0xA000,
data 0x12. -/
theorem c4_eram_internal_witness :
    ((MemoryBus.new cart0).write 0xA000 0x12).cartridge = (MemoryBus.new cart0).cartridge ∧
    ((MemoryBus.new cart0).write 0xA000 0x12).eram = upd (MemoryBus.new cart0).eram 0 0x12 ∧
    (MemoryBus.new cart0).read 0xA000 = (MemoryBus.new cart0).eram 0 :=
  c4_eram_internal (MemoryBus.new cart0) 0xA000 0x12 (by norm_num) (by norm_num)

/-- C5 counterexample: on a fresh bus IF = IE = 0, yet `read 0xFF0F` and
`read 0xFFFF` return 0x00, not `IF | 0xE0` = 0xE0 and `IE | 0xE0` = 0xE0 as
claimed — the code never ORs in 0xE0. -/
theorem c5_counterexample :
    (MemoryBus.new cart0).read 0xFF0F = 0x00 ∧ (MemoryBus.new cart0).read 0xFFFF = 0x00 ∧
    (MemoryBus.new cart0).if_reg ||| 0xE0 = 0xE0 ∧ (MemoryBus.new cart0).ie_reg ||| 0xE0 = 0xE0 := by
  decide

/-- C5 (amended): for every bus state, `MemoryBus.read 0xFF0F` returns `if_reg`
unchanged and `MemoryBus.read 0xFFFF` returns `ie_reg` unchanged (no `| 0xE0`;
since writes mask both registers to their low 5 bits, the top three bits read
as 0, not 1). -/
theorem c5_if_ie_read_plain (bus : MemoryBus) :
    bus.read 0xFF0F = bus.if_reg ∧ bus.read 0xFFFF = bus.ie_reg := by
  constructor <;> simp [MemoryBus.read]

/-- C6 (code bug): the claim says the PPU sets the VBlank bit (bit 0) of IF on
the transition to scanline 144.  Ticking the PPU 2 dots from dot 455 of
scanline 143 (LCD on, IF = 0) makes it enter VBlank — LY becomes 144, mode
becomes 1, the frame is flagged ready — but IF is still 0: `Ppu::tick` never
calls `request_interrupt`. -/
theorem c6_vblank_no_interrupt :
    (Ppu.tick ppuC6 2 busC6).1.mode = 1 ∧
    (Ppu.tick ppuC6 2 busC6).1.frame_ready = true ∧
    (Ppu.tick ppuC6 2 busC6).2.read 0xFF44 = 144 ∧
    (Ppu.tick ppuC6 2 busC6).2.if_reg = 0 := by
  decide

/-- C7 (confirmed): loading a cartridge image shorter than 336 bytes, or whose
cartridge-type byte at offset 0x147 (= 327) is not one of the 28 recognized
values, fails (`Cartridge.load` returns `none`, the model of the fatal panic
at startup — the spec's `InvalidHeader`). -/
theorem c7_invalid_header (rom : List Nat)
    (h : rom.length < 336 ∨ CartridgeType.fromByte (rom.getD 327 0) = none) :
    Cartridge.load rom = none := by
  rcases h with h | h
  · simp [Cartridge.load, h]
  · simp only [Cartridge.load, h]
    split <;> simp

/-- Witness for C7: the empty image is shorter than 336 bytes and is rejected. -/
theorem c7_invalid_header_witness : Cartridge.load [] = none :=
  c7_invalid_header [] (Or.inl (by decide))

/-- C8 counterexample: with SP = 0xFEA2 the two stack bytes land in the
unusable region 0xFEA0–0xFEFF, where writes are discarded and reads return
0xFF: PUSH BC of 0x1234 followed by POP BC yields BC = 0xFFFF, not the pushed
value — so the claim does not hold for every CPU state. -/
theorem c8_counterexample :
    cpuC8.register_b = 0x12 ∧ cpuC8.register_c = 0x34 ∧
    (Cpu.pop_bc (Cpu.push_bc cpuC8)).register_b = 0xFF ∧
    (Cpu.pop_bc (Cpu.push_bc cpuC8)).register_c = 0xFF := by
  decide

/-- C8 (amended): for every CPU state whose byte registers hold byte values
and whose two stack bytes (at SP−1 and SP−2 modulo 2^16) fall in bus regions
that store bytes verbatim (VRAM, the bus's external-RAM array, WRAM, echo RAM,
OAM, I/O other than 0xFF0F, HRAM — `storageAddr`), PUSH rr followed by POP rr
restores rr to its pushed value for every rr in {BC, DE, HL, AF}.  POP AF's
masking of the low nibble of F is the identity here because F can only hold
the four defined flag bits. -/
theorem c8_push_pop_roundtrip (s : Cpu)
    (ha : s.register_a < 256) (hb : s.register_b < 256) (hc : s.register_c < 256)
    (hd : s.register_d < 256) (he : s.register_e < 256)
    (hh : s.register_h < 256) (hl : s.register_l < 256)
    (h1 : storageAddr (wrap16 (s.stack_pointer + 65535)))
    (h2 : storageAddr (wrap16 (s.stack_pointer + 65534))) :
    (Cpu.pop_bc (Cpu.push_bc s)).register_b = s.register_b ∧
    (Cpu.pop_bc (Cpu.push_bc s)).register_c = s.register_c ∧
    (Cpu.pop_de (Cpu.push_de s)).register_d = s.register_d ∧
    (Cpu.pop_de (Cpu.push_de s)).register_e = s.register_e ∧
    (Cpu.pop_hl (Cpu.push_hl s)).register_h = s.register_h ∧
    (Cpu.pop_hl (Cpu.push_hl s)).register_l = s.register_l ∧
    (Cpu.pop_af (Cpu.push_af s)).register_a = s.register_a ∧
    (Cpu.pop_af (Cpu.push_af s)).register_f = s.register_f := by
  have hfb : s.register_f.bits &&& 0xF0 < 256 := by
    rw [bits_masked]
    exact bits_lt s.register_f
  obtain ⟨hspB, hloB, hhiB⟩ := push_u16_spec s ((s.register_b <<< 8) ||| s.register_c) h1 h2
  obtain ⟨hspD, hloD, hhiD⟩ := push_u16_spec s ((s.register_d <<< 8) ||| s.register_e) h1 h2
  obtain ⟨hspH, hloH, hhiH⟩ := push_u16_spec s ((s.register_h <<< 8) ||| s.register_l) h1 h2
  obtain ⟨hspA, hloA, hhiA⟩ :=
    push_u16_spec s ((s.register_a <<< 8) ||| (s.register_f.bits &&& 0xF0)) h1 h2
  refine ⟨?_, ?_, ?_, ?_, ?_, ?_, ?_, ?_⟩
  · simp only [Cpu.pop_bc, Cpu.push_bc, Cpu.pop_u8, Cpu.read_u8, Cpu.update_cycles,
      Cpu.advance_program_counter]
    rw [hspB, storage_key2 _, hhiB]
    exact hi_byte _ _ hb hc
  · simp only [Cpu.pop_bc, Cpu.push_bc, Cpu.pop_u8, Cpu.read_u8, Cpu.update_cycles,
      Cpu.advance_program_counter]
    rw [hspB, hloB]
    exact lo_byte _ _ hc
  · simp only [Cpu.pop_de, Cpu.push_de, Cpu.pop_u8, Cpu.read_u8, Cpu.update_cycles,
      Cpu.advance_program_counter]
    rw [hspD, storage_key2 _, hhiD]
    exact hi_byte _ _ hd he
  · simp only [Cpu.pop_de, Cpu.push_de, Cpu.pop_u8, Cpu.read_u8, Cpu.update_cycles,
      Cpu.advance_program_counter]
    rw [hspD, hloD]
    exact lo_byte _ _ he
  · simp only [Cpu.pop_hl, Cpu.push_hl, Cpu.pop_u8, Cpu.read_u8, Cpu.update_cycles,
      Cpu.advance_program_counter]
    rw [hspH, storage_key2 _, hhiH]
    exact hi_byte _ _ hh hl
  · simp only [Cpu.pop_hl, Cpu.push_hl, Cpu.pop_u8, Cpu.read_u8, Cpu.update_cycles,
      Cpu.advance_program_counter]
    rw [hspH, hloH]
    exact lo_byte _ _ hl
  · simp only [Cpu.pop_af, Cpu.push_af, Cpu.pop_u8, Cpu.read_u8, Cpu.update_cycles,
      Cpu.advance_program_counter]
    rw [hspA, storage_key2 _, hhiA]
    exact hi_byte _ _ ha hfb
  · simp only [Cpu.pop_af, Cpu.push_af, Cpu.pop_u8, Cpu.read_u8, Cpu.update_cycles,
      Cpu.advance_program_counter]
    rw [hspA, hloA, lo_byte _ _ hfb, bits_masked]
    exact from_bits_truncate_bits s.register_f

/-- Witness for C8: the amended claim evaluated at a CPU with distinctive byte
registers and the stack in HRAM (SP = 0xFFFE, stack bytes at 0xFFFD/0xFFFC). -/
theorem c8_push_pop_roundtrip_witness :
    (Cpu.pop_bc (Cpu.push_bc cpuC8w)).register_b = cpuC8w.register_b ∧
    (Cpu.pop_bc (Cpu.push_bc cpuC8w)).register_c = cpuC8w.register_c ∧
    (Cpu.pop_de (Cpu.push_de cpuC8w)).register_d = cpuC8w.register_d ∧
    (Cpu.pop_de (Cpu.push_de cpuC8w)).register_e = cpuC8w.register_e ∧
    (Cpu.pop_hl (Cpu.push_hl cpuC8w)).register_h = cpuC8w.register_h ∧
    (Cpu.pop_hl (Cpu.push_hl cpuC8w)).register_l = cpuC8w.register_l ∧
    (Cpu.pop_af (Cpu.push_af cpuC8w)).register_a = cpuC8w.register_a ∧
    (Cpu.pop_af (Cpu.push_af cpuC8w)).register_f = cpuC8w.register_f :=
  c8_push_pop_roundtrip cpuC8w (by decide) (by decide) (by decide) (by decide)
    (by decide) (by decide) (by decide)
    (by have hsp : cpuC8w.stack_pointer = 0xFFFE := rfl
        rw [hsp]; unfold storageAddr wrap16; omega)
    (by have hsp : cpuC8w.stack_pointer = 0xFFFE := rfl
        rw [hsp]; unfold storageAddr wrap16; omega)

/-- C9 (confirmed): after every successful call to `step`, the flag register
satisfies `F & 0x0F == 0`.  This holds for every CPU state because the `FFlags`
bitflags type can only ever hold the four defined flag bits (bits 4..7): the
packed value `FFlags.bits` of any representable flag value has a zero low
nibble. -/
theorem c9_f_low_nibble_zero (s : Cpu) (r : Cpu × Nat) (h : Cpu.step s = some r) :
    r.1.register_f.bits &&& 0x0F = 0 :=
  bits_low_nibble r.1.register_f

/-- Witness for C9: a NOP step from the all-zero state. -/
theorem c9_f_low_nibble_zero_witness :
    (((Cpu.step cpuC9).getD (cpuC9, 0)).1.register_f).bits &&& 0x0F = 0 :=
  c9_f_low_nibble_zero cpuC9 ((Cpu.step cpuC9).getD (cpuC9, 0)) rfl

/-- C10 counterexample: from the concrete stopped CPU the frame loop never
exits — for no amount of fuel does `run_frame_fuel` reach the loop exit, since
every `step` returns 0 dots and `cycles_this_frame` stays below 70224.  The
claim that `run_frame` "breaks out of the frame (terminates)" is false. -/
theorem c10_counterexample :
    ¬ ∃ (n : Nat) (r : Cpu × Nat), Cpu.run_frame_fuel cpuC10 0 n = some r := by
  rintro ⟨n, r, hr⟩
  rw [run_frame_fuel_stop cpuC10 rfl n 0 (by norm_num)] at hr
  exact Option.noConfusion hr

/-- C10 (amended): if the CPU is in the stop state, every call to `step`
returns 0 dots and leaves the entire CPU and bus state unchanged; but
`run_frame` does not break out of the frame — its loop makes no progress, so
it never terminates (it exits only once ≥ 70224 dots are consumed, which never
happens). -/
theorem c10_stop_behavior (s : Cpu) (h : s.stop = true) :
    Cpu.step s = some (s, 0) ∧
    ∀ (fuel acc : Nat), acc < 70224 → Cpu.run_frame_fuel s acc fuel = none :=
  ⟨step_stop s h, run_frame_fuel_stop s h⟩

/-- Witness for C10: the stopped CPU steps to itself with 0 dots, and 1000
loop iterations make no progress. -/
theorem c10_stop_behavior_witness :
    Cpu.step cpuC10 = some (cpuC10, 0) ∧ Cpu.run_frame_fuel cpuC10 0 1000 = none :=
  ⟨(c10_stop_behavior cpuC10 rfl).1, (c10_stop_behavior cpuC10 rfl).2 1000 0 (by norm_num)⟩

end GB
